import Mathlib

/-!
# Lyrics plugin (`src/lyricwiki-qt/lyricwiki.cc`): resolution chain

A shallow embedding of the lyrics source-resolution chain: the shared
`g_state`, the file provider with its cache, the two remote providers with
their completion callbacks, and `lyricwiki_playback_began`.

Conventions of the embedding.

* A libaudcore `String` (a nullable, NUL-terminated text) is an
  `Option String`: `none` is the null `String ()`, `some s` carries the text.
* All mutable program state and the outside world the plugin touches live in
  one record `World`, passed explicitly; each function of the source that
  mutates state is a function `World → World` (with a result when it has one).
* Calls into the VFS layer are recorded, in order, in `World.log`; an
  asynchronous request is recorded together with the closure it was given
  (`Handler`), so that a completion is the application of `run_handler`.
* Library routines the plugin calls but does not define (URI and number
  conversions, percent-encoding) are fields of `Host`, next to the plugin
  configuration; theorems hold for every `Host`.
-/

namespace LyricWiki

/-! ## C strings -/

/-- The NUL character. -/
def NUL : Char := Char.ofNat 0

/-- The text of a C string stored in a buffer: everything before the first NUL.
This is what the constructor `String (const char *)` keeps of a buffer. -/
def cstr (buf : List Char) : String :=
  String.mk (buf.takeWhile (fun c => c != NUL))

/-- Concatenation `str_concat ({...})`. -/
def str_concat (parts : List String) : String :=
  parts.foldl (fun acc s => acc ++ s) ""

/-- Path joining `filename_build ({...})`: the elements are joined with a
directory separator, which is left out where the text built so far already
ends in one. -/
def filename_build (elems : List String) : String :=
  elems.foldl
    (fun acc s => if acc ≠ "" ∧ acc.data.getLast? ≠ some '/' then acc ++ "/" ++ s else acc ++ s)
    ""

/-- ASCII lower-casing of one character, as a code point. -/
def ascii_tolower (c : Char) : Nat :=
  if 'A'.toNat ≤ c.toNat ∧ c.toNat ≤ 'Z'.toNat then c.toNat + 32 else c.toNat

/-- The comparison `g_ascii_strcasecmp`: the difference of the first pair of
characters that differ after ASCII lower-casing, `0` when there is none. -/
def g_ascii_strcasecmp : List Char → List Char → Int
  | [], [] => 0
  | [], c :: _ => - (ascii_tolower c : Int)
  | c :: _, [] => (ascii_tolower c : Int)
  | c1 :: s1, c2 :: s2 =>
    if ascii_tolower c1 = ascii_tolower c2 then g_ascii_strcasecmp s1 s2
    else (ascii_tolower c1 : Int) - (ascii_tolower c2 : Int)

/-- The comparison `strcmp_nocase (a, b)` on nullable strings: a null string
sorts before every non-null one and equals only another null string. -/
def strcmp_nocase (a b : Option String) : Int :=
  match a, b with
  | none, none => 0
  | none, some _ => -1
  | some _, none => 1
  | some x, some y => g_ascii_strcasecmp x.data y.data

/-- What `strrchr (s, c)` followed by `*ext = 0` leaves of `s`: the text before
the LAST occurrence of `c`, or `none` when `c` does not occur. -/
def strrchr_cut (c : Char) : List Char → Option (List Char)
  | [] => none
  | x :: xs =>
    match strrchr_cut c xs with
    | some pre => some (x :: pre)
    | none => if x = c then some [] else none

/-! ## Data model -/

/-- The enumeration `LyricsState::Source`. -/
inductive Source
  | None
  | Embedded
  | Local
  | LyricWiki
  | LyricsOVH
  | ChartLyrics
deriving DecidableEq, Repr

/-- The record `struct LyricsState`. -/
structure LyricsState where
  filename : Option String
  title : Option String
  artist : Option String
  lyrics : Option String
  source : Source
  error : Bool
deriving DecidableEq, Repr

/-- The identity of the track a state is about: file name, title and artist. -/
def LyricsState.identity (state : LyricsState) : Option String × Option String × Option String :=
  (state.filename, state.title, state.artist)

/-- The configuration keys of section "lyricwiki" (`LyricWikiQt::defaults`). -/
structure Config where
  remote_source : String
  enable_file_provider : Bool
  enable_cache : Bool
  split_title_on_chars : Bool
  split_on_chars : String
  truncate_fields_on_chars : Bool
  truncate_on_chars : String
  use_embedded : Bool

/-- The table `LyricWikiQt::defaults`. -/
def defaults : Config where
  remote_source := "lyrics.ovh"
  enable_file_provider := true
  enable_cache := true
  split_title_on_chars := false
  split_on_chars := "-"
  truncate_fields_on_chars := false
  truncate_on_chars := "|"
  use_embedded := true

/-- The environment of the plugin: its configuration, the user directory
(`aud_get_path (AudPath::UserDir)`) and the library routines it calls.

The last three fields are the answers of `QRegularExpression` for the three
patterns of the title split when the configured characters, pasted between
`[` and `]`, are not a class body that `class_of` below reads (a backslash or
a bracket among them, a range out of order, nothing to negate): the arguments
are the configured characters and the subject. `qre_split` is
`qre.match (title)` with its two captured texts for `^(.*)\s+[C]\s+(.*)$`,
`qre_remove_leading` is `artist.remove (qre)` for `^.*\s+[T]\s+`, and
`qre_remove_trailing` is `title.remove (qre)` for `\s+[T]\s+.*$`. -/
structure Host where
  cfg : Config
  user_dir : String
  uri_get_scheme : String → Option String
  uri_to_filename : String → String
  filename_to_uri : String → String
  str_encode_percent : String → String
  str_to_int : String → Int
  int_to_str : Int → String
  qre_split : String → String → Option (String × String)
  qre_remove_leading : String → String → String
  qre_remove_trailing : String → String → String

/-- What the player reports for the current song: `aud_drct_get_filename ()`
and the `Title`, `Artist` and `Lyrics` fields of `aud_drct_get_tuple ()`. -/
structure Track where
  filename : String
  title : Option String
  artist : Option String
  lyrics : Option String

/-- The closures handed to `vfs_async_file_get_contents`, each with the
`LyricsState` it captured by value. -/
inductive Handler
  | chart_match (state : LyricsState)
  | chart_fetch (state : LyricsState)
  | ovh_fetch (state : LyricsState)
deriving DecidableEq, Repr

/-- A call into the VFS layer or glib. -/
inductive Effect
  | test_file (uri : String)
  | read_file (uri : String)
  | write_file (uri : String) (data : String)
  | mkdir_with_parents (path : String)
  | async_get (uri : String) (cb : Handler)
deriving DecidableEq, Repr

/-- A regular file: whether it can be opened for reading, and its bytes. -/
structure VFile where
  readable : Bool
  data : String
deriving DecidableEq, Repr

/-- What the text widget shows: nothing yet, or the page last rendered by
`update_lyrics_window` from its three arguments. -/
inductive Display
  | blank
  | page (title artist lyrics : Option String)
deriving DecidableEq, Repr

/-- The members `m_lyric_id`, `m_lyric_checksum`, `m_lyric_url`, `m_lyrics` of
`ChartLyricsProvider`. -/
structure ChartLyricsProvider where
  m_lyric_id : Int
  m_lyric_checksum : Option String
  m_lyric_url : Option String
  m_lyrics : Option String
deriving DecidableEq, Repr

/-- The program state and the world around it.

* `g_state`, `chart_lyrics_provider`, `textedit`: the globals of the source
  (`textedit = none` is the null pointer).
* `files`: the regular files of the filesystem, by URI.
* `dirs`: the directories of the filesystem, each as the list of its path
  components (see `path_components`); the root directory, the empty list, is
  taken to exist without being listed.
* `log`: the VFS and glib calls made so far, oldest first.
* `crashed`: set when the source dereferences a null pointer (`strlen` or
  `filename_build` on a null `String`). -/
structure World where
  g_state : LyricsState
  chart_lyrics_provider : ChartLyricsProvider
  textedit : Option Display
  files : List (String × VFile)
  dirs : List (List String)
  log : List Effect
  crashed : Bool
deriving DecidableEq, Repr

/-! ## Paths and directories -/

/-- The texts between the separators `/` of a path, empty ones included. -/
def path_split : List Char → List (List Char)
  | [] => [[]]
  | c :: cs =>
    if c = '/' then [] :: path_split cs
    else
      match path_split cs with
      | [] => [[c]]
      | x :: xs => (c :: x) :: xs

/-- The directory walk of path resolution: an empty component and `.` stay in
place, `..` goes back to the directory above, every other component goes one
directory down. -/
def path_walk (acc : List String) (comps : List (List Char)) : List String :=
  comps.foldl
    (fun acc x =>
      if x = [] ∨ x = ['.'] then acc
      else if x = ['.', '.'] then acc.dropLast
      else acc ++ [String.mk x])
    acc

/-- The components of a path after resolution from the root directory. -/
def path_components (path : String) : List String :=
  path_walk [] (path_split path.data)

/-- A directory with all the directories above it, the root first. -/
def with_parents : List String → List (List String)
  | [] => [[]]
  | x :: xs => [] :: (with_parents xs).map (fun d => x :: d)

/-- Whether a directory exists. -/
def dir_exists (w : World) (dir : List String) : Bool :=
  dir = [] || w.dirs.contains dir

/-! ## VFS layer -/

/-- The test `VFSFile::test_file (uri, VFS_IS_REGULAR)`. -/
def test_file (uri : String) (w : World) : Bool × World :=
  ((w.files.lookup uri).isSome, { w with log := w.log ++ [Effect.test_file uri] })

/-- The read `VFSFile::read_file (uri, VFS_APPEND_NULL)`: the bytes of the file
followed by a NUL, or an empty buffer when the file cannot be opened. -/
def read_file (uri : String) (w : World) : List Char × World :=
  ((match w.files.lookup uri with
    | some f => if f.readable then f.data.data ++ [NUL] else []
    | none => []),
   { w with log := w.log ++ [Effect.read_file uri] })

/-- The directory that holds the file a URI names: the components of its
path without the last one. -/
def uri_dir (H : Host) (uri : String) : List String :=
  (path_components (H.uri_to_filename uri)).dropLast

/-- The write `VFSFile::write_file (uri, data, len)`. The file is opened for
writing, which creates or replaces it, when the directory that holds it
exists; when that directory is missing the open fails and nothing is written.
The source does not look at the result of the call. -/
def write_file (H : Host) (uri : String) (data : String) (w : World) : World :=
  if dir_exists w (uri_dir H uri) then
    { w with
      files := (uri, VFile.mk true data) :: w.files.filter (fun e => e.1 != uri)
      log := w.log ++ [Effect.write_file uri data] }
  else { w with log := w.log ++ [Effect.write_file uri data] }

/-- The call `g_mkdir_with_parents (path, DIRMODE)`: the directory and the
directories above it exist afterwards (the call is taken to succeed; the
source only logs a failure and goes on). -/
def g_mkdir_with_parents (path : String) (w : World) : World :=
  { w with
    dirs := w.dirs ++ (with_parents (path_components path)).filter
      (fun d => !(dir_exists w d))
    log := w.log ++ [Effect.mkdir_with_parents path] }

/-- The call `vfs_async_file_get_contents (uri, cb)`: the request is issued and
`cb` runs later, on completion. -/
def vfs_async_file_get_contents (uri : String) (cb : Handler) (w : World) : World :=
  { w with log := w.log ++ [Effect.async_get uri cb] }

/-! ## Display -/

/-- The function `update_lyrics_window`. -/
def update_lyrics_window (title artist lyrics : Option String) (w : World) : World :=
  match w.textedit with
  | none => w
  | some _ => { w with textedit := some (Display.page title artist lyrics) }

/-- The function `update_lyrics_window_message`. -/
def update_lyrics_window_message (state : LyricsState) (message : String) (w : World) : World :=
  update_lyrics_window state.title state.artist (some message) w

/-- The function `update_lyrics_window_error`. -/
def update_lyrics_window_error (message : String) (w : World) : World :=
  let w1 := update_lyrics_window (some "Error") none (some message) w
  { w1 with g_state := { w1.g_state with error := true } }

/-- The function `update_lyrics_window_notfound`. -/
def update_lyrics_window_notfound (state : LyricsState) (w : World) : World :=
  let w1 := update_lyrics_window state.title state.artist (some "Lyrics could not be found.") w
  { w1 with g_state := { w1.g_state with error := true } }

/-! ## File provider and cache -/

/-- The method `FileProvider::cache_uri_for_entry`. The directory of the artist
is created on every call; a null title reaches `filename_build` as a null
pointer. -/
def FileProvider.cache_uri_for_entry (H : Host) (state : LyricsState) (w : World) :
    Option String × World :=
  match state.artist with
  | none => (none, w)
  | some artist =>
    let base_path := filename_build [H.user_dir, "lyrics"]
    let artist_path := filename_build [base_path, artist]
    let w1 := g_mkdir_with_parents artist_path w
    match state.title with
    | none => (none, { w1 with crashed := true })
    | some title =>
      let title_path := str_concat [filename_build [artist_path, title], ".lrc"]
      (some (H.filename_to_uri title_path), w1)

/-- The directory of an artist in the cache: the `artist_path` of
`cache_uri_for_entry`. -/
def cache_dir (H : Host) (artist : String) : String :=
  filename_build [filename_build [H.user_dir, "lyrics"], artist]

/-- The cache location of an artist and title: the URI that
`cache_uri_for_entry` returns for a state with this artist and title. -/
def cache_uri (H : Host) (artist title : String) : String :=
  H.filename_to_uri (str_concat [filename_build [cache_dir H artist, title], ".lrc"])

/-- The method `FileProvider::local_uri_for_entry`. -/
def FileProvider.local_uri_for_entry (H : Host) (state : LyricsState) : Option String :=
  match state.filename with
  | none => none
  | some uri =>
    if H.uri_get_scheme uri ≠ some "file" then none
    else
      match strrchr_cut '.' (H.uri_to_filename uri).data with
      | none => none
      | some stem => some (H.filename_to_uri (str_concat [String.mk stem, ".lrc"]))

/-- The method `FileProvider::cache`. -/
def FileProvider.cache (H : Host) (state : LyricsState) (w : World) : World :=
  let r := FileProvider.cache_uri_for_entry H state w
  match r.1 with
  | none => r.2
  | some uri =>
    let t := test_file uri r.2
    if t.1 then t.2
    else
      match state.lyrics with
      | none => { t.2 with crashed := true }
      | some lyrics => write_file H uri lyrics t.2

/-- The function `persist_state`. -/
def persist_state (H : Host) (state : LyricsState) (w : World) : World :=
  let w1 := { w with g_state := { state with error := false } }
  if w1.g_state.source = Source.Local ∨ H.cfg.enable_cache = false then w1
  else FileProvider.cache H state w1

/-- The method `FileProvider::fetch`. -/
def FileProvider.fetch (H : Host) (state : LyricsState) (w : World) : World :=
  match FileProvider.local_uri_for_entry H state with
  | none => w
  | some path =>
    let r := read_file path w
    if r.1.length = 0 then r.2
    else
      let state1 := { state with lyrics := some (cstr r.1), source := Source.Local }
      persist_state H state1
        (update_lyrics_window state1.title state1.artist state1.lyrics r.2)

/-- The method `FileProvider::cache_fetch`. -/
def FileProvider.cache_fetch (H : Host) (state : LyricsState) (w : World) : World :=
  let c := FileProvider.cache_uri_for_entry H state w
  match c.1 with
  | none => c.2
  | some path =>
    let r := read_file path c.2
    if r.1.length = 0 then r.2
    else
      let state1 := { state with lyrics := some (cstr r.1), source := Source.Local }
      persist_state H state1
        (update_lyrics_window state1.title state1.artist state1.lyrics r.2)

/-- The method `FileProvider::match`. -/
def FileProvider.match_ (H : Host) (state : LyricsState) (w : World) : Bool × World :=
  match FileProvider.local_uri_for_entry H state with
  | none => (false, w)
  | some path =>
    let t := test_file path w
    if t.1 then (true, FileProvider.fetch H state t.2)
    else
      let c := FileProvider.cache_uri_for_entry H state t.2
      match c.1 with
      | none => (false, c.2)
      | some cpath =>
        let t2 := test_file cpath c.2
        if t2.1 then (true, FileProvider.cache_fetch H state t2.2) else (false, t2.2)

/-- The method `FileProvider::edit_uri`. -/
def FileProvider.edit_uri (_state : LyricsState) : Option String := none

/-! ## Responses of the remote services -/

/-- A child of a candidate element of the search response, as libxml2 presents
it: its node type, its name and `xmlNodeGetContent`. -/
structure XmlField where
  is_element : Bool
  name : String
  content : Option String
deriving DecidableEq, Repr

/-- A child of the root element of a response: its node type, its name,
`xmlNodeGetContent` and its own children. -/
structure XmlNode where
  is_element : Bool
  name : String
  content : Option String
  children : List XmlField
deriving DecidableEq, Repr

/-- A parsed XML document: the children of its root element, in document
order. -/
structure XmlDoc where
  root_children : List XmlNode
deriving DecidableEq, Repr

/-- A JSON value as far as the plugin tells values apart: a string or anything
else. -/
inductive JsonValue
  | str (s : String)
  | other
deriving DecidableEq, Repr

/-- The conversion `QJsonValue::toString ()`: the text of a string value, the
null `QString` for every other value. -/
def JsonValue.toString : JsonValue → Option String
  | JsonValue.str s => some s
  | JsonValue.other => none

/-- A parsed JSON document that is not null: an object with its members, or
an array. -/
inductive JsonDoc
  | object (members : List (String × JsonValue))
  | array
deriving DecidableEq, Repr

/-- A response buffer as the callbacks observe it: `buf.len ()`, what
`xmlReadMemory` makes of it (`none`: no document) and what
`QJsonDocument::fromJson` makes of it (`none`: `doc.isNull ()`). -/
structure Buf where
  len : Nat
  xml : Option XmlDoc
  json : Option JsonDoc
deriving DecidableEq, Repr

/-! ## chartlyrics.com provider -/

/-- The member `m_base_url`. -/
def m_base_url : String := "http://api.chartlyrics.com/apiv1.asmx"

/-- The method `ChartLyricsProvider::reset_lyric_metadata`. -/
def ChartLyricsProvider.reset_lyric_metadata (_p : ChartLyricsProvider) : ChartLyricsProvider :=
  ChartLyricsProvider.mk (-1) none none none

/-- The method `ChartLyricsProvider::match_uri`, for a non-null artist and
title. -/
def ChartLyricsProvider.match_uri (H : Host) (artist title : String) : String :=
  str_concat [m_base_url, "/SearchLyric?artist=", H.str_encode_percent artist,
    "&song=", H.str_encode_percent title]

/-- The locals `lyric_id, checksum, url, artist, title` of `has_match`. -/
structure MatchFields where
  lyric_id : Option String
  checksum : Option String
  url : Option String
  artist : Option String
  title : Option String
deriving DecidableEq, Repr

/-- The loop of `has_match` over the children of a candidate: each element
child with one of the five names overwrites the corresponding local. -/
def ChartLyricsProvider.has_match_fields (f : MatchFields) : List XmlField → MatchFields
  | [] => f
  | cur_node :: rest =>
    if cur_node.is_element = false then ChartLyricsProvider.has_match_fields f rest
    else if cur_node.name = "LyricId" then
      ChartLyricsProvider.has_match_fields { f with lyric_id := cur_node.content } rest
    else if cur_node.name = "LyricChecksum" then
      ChartLyricsProvider.has_match_fields { f with checksum := cur_node.content } rest
    else if cur_node.name = "SongUrl" then
      ChartLyricsProvider.has_match_fields { f with url := cur_node.content } rest
    else if cur_node.name = "Artist" then
      ChartLyricsProvider.has_match_fields { f with artist := cur_node.content } rest
    else if cur_node.name = "Song" then
      ChartLyricsProvider.has_match_fields { f with title := cur_node.content } rest
    else ChartLyricsProvider.has_match_fields f rest

/-- The method `ChartLyricsProvider::has_match`. -/
def ChartLyricsProvider.has_match (H : Host) (state : LyricsState) (node : XmlNode)
    (p : ChartLyricsProvider) : Bool × ChartLyricsProvider :=
  let f := ChartLyricsProvider.has_match_fields (MatchFields.mk none none none none none)
    node.children
  match f.lyric_id, f.checksum, f.artist, f.title with
  | some lyric_id, some checksum, some artist, some title =>
    let id := H.str_to_int lyric_id
    if 0 < id ∧ strcmp_nocase (some artist) state.artist = 0
        ∧ strcmp_nocase (some title) state.title = 0 then
      (true, { p with m_lyric_id := id, m_lyric_checksum := some checksum, m_lyric_url := f.url })
    else (false, p)
  | _, _, _, _ => (false, p)

/-- The loop of the search callback over the children of the root: it stops
at the first element child for which `has_match` answers true. -/
def ChartLyricsProvider.match_loop (H : Host) (state : LyricsState) :
    List XmlNode → ChartLyricsProvider → ChartLyricsProvider
  | [], p => p
  | cur_node :: rest, p =>
    if cur_node.is_element = false then ChartLyricsProvider.match_loop H state rest p
    else
      let r := ChartLyricsProvider.has_match H state cur_node p
      if r.1 then r.2 else ChartLyricsProvider.match_loop H state rest r.2

/-- The fields `has_match` reads from a candidate element. -/
def candidate_fields (node : XmlNode) : MatchFields :=
  ChartLyricsProvider.has_match_fields (MatchFields.mk none none none none none) node.children

/-- The selection criterion in the words of the specification: a candidate (an
element child of the root with id, checksum, artist and song) "whose artist
and title match case-insensitively and whose id is a positive integer". -/
def spec_candidate_qualifies (H : Host) (state : LyricsState) (node : XmlNode) : Bool :=
  node.is_element &&
  match candidate_fields node with
  | MatchFields.mk (some lyric_id) (some _) _ (some artist) (some song) =>
    decide (0 < H.str_to_int lyric_id) &&
    decide (strcmp_nocase (some artist) state.artist = 0) &&
    decide (strcmp_nocase (some song) state.title = 0)
  | _ => false

/-- The selection in the words of the specification: "the first candidate" in
document order that qualifies. -/
def spec_select_candidate (H : Host) (state : LyricsState) (doc : XmlDoc) : Option XmlNode :=
  doc.root_children.find? (spec_candidate_qualifies H state)

/-- The method `ChartLyricsProvider::fetch_uri`. -/
def ChartLyricsProvider.fetch_uri (H : Host) (p : ChartLyricsProvider) : Option String :=
  if p.m_lyric_id ≤ 0 then none
  else
    match p.m_lyric_checksum with
    | none => none
    | some checksum =>
      some (str_concat [m_base_url, "/GetLyric?lyricId=", H.int_to_str p.m_lyric_id,
        "&lyricCheckSum=", H.str_encode_percent checksum])

/-- The method `ChartLyricsProvider::fetch`, up to the submission of the
request. -/
def ChartLyricsProvider.fetch (H : Host) (state : LyricsState) (w : World) : World :=
  match ChartLyricsProvider.fetch_uri H w.chart_lyrics_provider with
  | none => update_lyrics_window_notfound state w
  | some uri =>
    update_lyrics_window_message state "Looking for lyrics ..."
      (vfs_async_file_get_contents uri (Handler.chart_fetch state) w)

/-- The loop of the fetch callback: the content of the first element child of
the root named `Lyric` replaces `m_lyrics`. -/
def ChartLyricsProvider.lyric_loop : List XmlNode → ChartLyricsProvider → ChartLyricsProvider
  | [], p => p
  | cur_node :: rest, p =>
    if cur_node.is_element = true ∧ cur_node.name = "Lyric" then
      { p with m_lyrics := cur_node.content }
    else ChartLyricsProvider.lyric_loop rest p

/-- The closure `handle_result_cb` of `ChartLyricsProvider::fetch`. -/
def ChartLyricsProvider.fetch_cb (H : Host) (_state : LyricsState) (uri : String) (buf : Buf)
    (w : World) : World :=
  if buf.len = 0 then update_lyrics_window_error (str_concat ["Unable to fetch ", uri]) w
  else
    match buf.xml with
    | none => update_lyrics_window_error (str_concat ["Unable to parse ", uri]) w
    | some doc =>
      let w1 := { w with chart_lyrics_provider :=
        ChartLyricsProvider.lyric_loop doc.root_children w.chart_lyrics_provider }
      let new_state := { w1.g_state with lyrics := none }
      match w1.chart_lyrics_provider.m_lyrics with
      | none => update_lyrics_window_notfound new_state w1
      | some m_lyrics =>
        if m_lyrics = "" then update_lyrics_window_notfound new_state w1
        else
          let new_state1 :=
            { new_state with lyrics := some m_lyrics, source := Source.ChartLyrics }
          persist_state H new_state1
            (update_lyrics_window new_state1.title new_state1.artist new_state1.lyrics w1)

/-- The closure `handle_result_cb` of `ChartLyricsProvider::match`. -/
def ChartLyricsProvider.match_cb (H : Host) (state : LyricsState) (uri : String) (buf : Buf)
    (w : World) : World :=
  if buf.len = 0 then update_lyrics_window_error (str_concat ["Unable to fetch ", uri]) w
  else
    match buf.xml with
    | none => update_lyrics_window_error (str_concat ["Unable to parse ", uri]) w
    | some doc =>
      ChartLyricsProvider.fetch H state
        { w with chart_lyrics_provider :=
          ChartLyricsProvider.match_loop H state doc.root_children w.chart_lyrics_provider }

/-- The method `ChartLyricsProvider::match`. A null artist or title reaches
`str_copy` as a null pointer, after the metadata were reset. -/
def ChartLyricsProvider.match_ (H : Host) (state : LyricsState) (w : World) : Bool × World :=
  let w1 := { w with chart_lyrics_provider :=
    ChartLyricsProvider.reset_lyric_metadata w.chart_lyrics_provider }
  match state.artist, state.title with
  | some artist, some title =>
    (true, update_lyrics_window_message state "Looking for lyrics ..."
      (vfs_async_file_get_contents (ChartLyricsProvider.match_uri H artist title)
        (Handler.chart_match state) w1))
  | _, _ => (true, { w1 with crashed := true })

/-- The method `ChartLyricsProvider::edit_uri`. -/
def ChartLyricsProvider.edit_uri (p : ChartLyricsProvider) (_state : LyricsState) :
    Option String :=
  p.m_lyric_url

/-! ## lyrics.ovh provider -/

/-- The closure `handle_result_cb` of `LyricsOVHProvider::fetch`. -/
def LyricsOVHProvider.fetch_cb (H : Host) (_state : LyricsState) (filename : String) (buf : Buf)
    (w : World) : World :=
  if buf.len = 0 then update_lyrics_window_error (str_concat ["Unable to fetch ", filename]) w
  else
    match buf.json with
    | none => update_lyrics_window_error (str_concat ["Unable to parse ", filename]) w
    | some JsonDoc.array =>
      update_lyrics_window_error (str_concat ["Unable to parse ", filename]) w
    | some (JsonDoc.object obj) =>
      let new_state := { w.g_state with lyrics := none }
      match obj.lookup "lyrics" with
      | none => update_lyrics_window_notfound new_state w
      | some value =>
        let new_state1 :=
          match value.toString with
          | some str => { new_state with lyrics := some (cstr str.data) }
          | none => new_state
        let new_state2 := { new_state1 with source := Source.LyricsOVH }
        persist_state H new_state2
          (update_lyrics_window new_state2.title new_state2.artist new_state2.lyrics w)

/-- The method `LyricsOVHProvider::fetch`, up to the submission of the request.
A null artist or title reaches `str_copy` as a null pointer. -/
def LyricsOVHProvider.fetch (H : Host) (state : LyricsState) (w : World) : World :=
  match state.artist, state.title with
  | some artist, some title =>
    let uri := str_concat ["https://api.lyrics.ovh/v1/", H.str_encode_percent artist, "/",
      H.str_encode_percent title]
    update_lyrics_window_message state "Looking for lyrics ..."
      (vfs_async_file_get_contents uri (Handler.ovh_fetch state) w)
  | _, _ => { w with crashed := true }

/-- The method `LyricsOVHProvider::match`. -/
def LyricsOVHProvider.match_ (H : Host) (state : LyricsState) (w : World) : Bool × World :=
  (true, LyricsOVHProvider.fetch H state w)

/-- The method `LyricsOVHProvider::edit_uri`. -/
def LyricsOVHProvider.edit_uri (_state : LyricsState) : Option String := none

/-- The completion of an asynchronous request: its closure runs with the URI
of the request and the response buffer. -/
def run_handler (H : Host) (cb : Handler) (uri : String) (buf : Buf) (w : World) : World :=
  match cb with
  | Handler.chart_match state => ChartLyricsProvider.match_cb H state uri buf w
  | Handler.chart_fetch state => ChartLyricsProvider.fetch_cb H state uri buf w
  | Handler.ovh_fetch state => LyricsOVHProvider.fetch_cb H state uri buf w

/-- The two remote providers `remote_source` can return. -/
inductive LyricProvider
  | chart_lyrics_provider
  | lyrics_ovh_provider
deriving DecidableEq, Repr

/-- The function `remote_source`; `none` is the null pointer. -/
def remote_source (H : Host) : Option LyricProvider :=
  if H.cfg.remote_source = "chartlyrics.com" then some LyricProvider.chart_lyrics_provider
  else if H.cfg.remote_source = "lyrics.ovh" then some LyricProvider.lyrics_ovh_provider
  else none

/-- The virtual call `rsrc->match (state)`. -/
def LyricProvider.match_ (H : Host) (rsrc : LyricProvider) (state : LyricsState) (w : World) :
    Bool × World :=
  match rsrc with
  | LyricProvider.chart_lyrics_provider => ChartLyricsProvider.match_ H state w
  | LyricProvider.lyrics_ovh_provider => LyricsOVHProvider.match_ H state w

/-- The virtual call `rsrc->edit_uri (state)`. -/
def LyricProvider.edit_uri (rsrc : LyricProvider) (state : LyricsState) (w : World) :
    Option String :=
  match rsrc with
  | LyricProvider.chart_lyrics_provider =>
    ChartLyricsProvider.edit_uri w.chart_lyrics_provider state
  | LyricProvider.lyrics_ovh_provider => LyricsOVHProvider.edit_uri state

/-! ## The regular expressions of the title split

`lyricwiki_playback_began` builds three patterns from the configured
characters: `^(.*)\s+[C]\s+(.*)$` to split the title, `^.*\s+[T]\s+` to cut
the start of the artist and `\s+[T]\s+.*$` to cut the end of the title. They
are matched here by backtracking matchers, one per construct of the pattern,
each taking the matcher of the rest of the pattern as its continuation; the
alternatives are tried in the order of a backtracking engine (a greedy
quantifier tries the longest repetition first).

The configured characters are pasted between `[` and `]` as they are, so the
engine reads them as the body of a character class: `a-z` is a range, a
leading `^` negates the class, and a backslash or a bracket changes what the
brackets enclose. `class_of` reads the bodies made of single characters and
ranges, with or without negation; for every other configured text the answer
of the engine is left to `Host`. -/

/-- The class `\s`: space, tab, line feed, vertical tab, form feed, carriage
return. -/
def is_space (c : Char) : Bool :=
  c = ' ' ∨ (9 ≤ c.toNat ∧ c.toNat ≤ 13)

/-- The line break that `.` does not match and before which `$` matches. -/
def is_newline (c : Char) : Bool :=
  c = '\n'

/-- A character class of a pattern: whether it is negated, and its ranges of
code points (a single character is the range from itself to itself). -/
structure CharClass where
  negated : Bool
  ranges : List (Char × Char)
deriving DecidableEq, Repr

/-- Whether a class matches a character. -/
def CharClass.matches (cl : CharClass) (c : Char) : Bool :=
  cl.negated != cl.ranges.any (fun r => r.1.toNat ≤ c.toNat && c.toNat ≤ r.2.toNat)

/-- The items of a class body without backslash and bracket, read from the
left. A character followed by `-` and one more character is the range between
the two, and the body is in error when the two are out of order. Every other
character stands for itself; so does a `-` that has no character on one of
its sides or comes right after a range. -/
def class_items : List Char → Option (List (Char × Char))
  | [] => some []
  | [a] => some [(a, a)]
  | [a, b] => some [(a, a), (b, b)]
  | a :: b :: c :: rest =>
    if b = '-' then
      if a.toNat ≤ c.toNat then (class_items rest).map (fun l => (a, c) :: l) else none
    else (class_items (b :: c :: rest)).map (fun l => (a, a) :: l)

/-- The class that `[` followed by the configured characters and `]` is in a
pattern, for the configured characters read here: at least one, no backslash
and no bracket among them, every range in order; a leading `^` negates the
class and needs an item after it. For every other text the result is `none`:
the brackets then do not enclose the pasted text as one class, or the pattern
is in error, and the answer of the engine is a field of `Host`. -/
def class_of (chars : String) : Option CharClass :=
  if chars.data.any (fun c => c = '\\' || c = '[' || c = ']') then none
  else if chars.data.head? = some '^' then
    if chars.data.tail = [] then none
    else (class_items chars.data.tail).map (fun l => CharClass.mk true l)
  else if chars.data = [] then none
  else (class_items chars.data).map (fun l => CharClass.mk false l)

/-- The class `[chars]` of a pattern on one character: the class that
`class_of` reads. The matchers below are used for configured characters that
`class_of` reads, and only for those. -/
def in_class (chars : String) (c : Char) : Bool :=
  match class_of chars with
  | some cl => cl.matches c
  | none => false

/-- The construct `\s+` followed by `k`: at least one white-space character, as
many as possible first. -/
def re_spaces {α : Type} (k : List Char → Option α) : List Char → Option α
  | [] => none
  | c :: cs =>
    if is_space c then
      match re_spaces k cs with
      | some r => some r
      | none => k cs
    else none

/-- The construct `[chars]` followed by `k`. -/
def re_class {α : Type} (chars : String) (k : List Char → Option α) : List Char → Option α
  | [] => none
  | c :: cs => if in_class chars c then k cs else none

/-- The construct `(.*)` followed by `k`: as many characters other than a line
break as possible first; the result is the captured text with the result of
`k`. -/
def re_dots {α : Type} (k : List Char → Option α) : List Char → Option (List Char × α)
  | [] => (k []).map (fun r => ([], r))
  | c :: cs =>
    if is_newline c then (k (c :: cs)).map (fun r => ([], r))
    else
      match re_dots k cs with
      | some gr => some (c :: gr.1, gr.2)
      | none => (k (c :: cs)).map (fun r => ([], r))

/-- The end of pattern `$`: the end of the subject, or the position before a
line break that ends the subject. The result is the unmatched rest. -/
def re_end : List Char → Option (List Char)
  | [] => some []
  | c :: cs => if is_newline c ∧ cs = [] then some [c] else none

/-- The end of a pattern that is not anchored at its end: every position; the
result is the unmatched rest. -/
def re_done (rest : List Char) : Option (List Char) := some rest

/-- The pattern `^(.*)\s+[C]\s+(.*)$` on a subject: the two captured texts. -/
def split_pattern (chars : String) (subject : List Char) : Option (List Char × List Char) :=
  (re_dots (re_spaces (re_class chars (re_spaces (re_dots re_end)))) subject).map
    (fun m => (m.1, m.2.1))

/-- The call `artist.remove (qre)` for the pattern `^.*\s+[T]\s+`: the match
at the start of the subject, when there is one, is removed. -/
def remove_leading (chars : String) (subject : List Char) : List Char :=
  match re_dots (re_spaces (re_class chars (re_spaces re_done))) subject with
  | some m => m.2
  | none => subject

/-- The call `title.remove (qre)` for the pattern `\s+[T]\s+.*$`: the leftmost
match is removed. It reaches the end of the subject or its final line break,
so that no second match follows it. -/
def remove_trailing (chars : String) : List Char → List Char
  | [] => []
  | c :: cs =>
    match re_spaces (re_class chars (re_spaces (re_dots re_end))) (c :: cs) with
    | some m => m.2
    | none => c :: remove_trailing chars cs

/-- Whether a text contains a character of the class `[chars]` with a
white-space character right before it and right after it. -/
def has_split_point (chars : String) : List Char → Bool
  | [] => false
  | a :: rest =>
    (is_space a &&
      (match rest with
        | b :: c :: _ => in_class chars b && is_space c
        | _ => false)) || has_split_point chars rest

/-- Whether a text begins with a non-empty run of white-space characters,
then a character of the class `[chars]`, then a white-space character: the
texts at whose start the pattern `\s+[chars]\s+` matches. -/
def starts_split (chars : String) : List Char → Bool
  | [] => false
  | a :: rest =>
    is_space a &&
      (starts_split chars rest ||
        (match rest with
          | b :: c :: _ => in_class chars b && is_space c
          | _ => false))

/-- The match `qre.match (title)` of the split pattern built from the
configured characters: the two captured texts. -/
def title_split (H : Host) (chars : String) (title : String) :
    Option (List Char × List Char) :=
  match class_of chars with
  | some _ => split_pattern chars title.data
  | none => (H.qre_split chars title).map (fun m => (m.1.data, m.2.data))

/-- The call `artist.remove (qre)` with the pattern built from the configured
characters. -/
def artist_remove (H : Host) (chars : String) (artist : List Char) : List Char :=
  match class_of chars with
  | some _ => remove_leading chars artist
  | none => (H.qre_remove_leading chars (String.mk artist)).data

/-- The call `title.remove (qre)` with the pattern built from the configured
characters. -/
def title_remove (H : Host) (chars : String) (title : List Char) : List Char :=
  match class_of chars with
  | some _ => remove_trailing chars title
  | none => (H.qre_remove_trailing chars (String.mk title)).data

/-! ## Track change -/

/-- The first part of `lyricwiki_playback_began`: `g_state` takes the identity
of the new song, and the title is split when that is configured. -/
def playback_began_identity (H : Host) (track : Track) (w : World) : World :=
  let g0 := { w.g_state with
    filename := some track.filename, title := track.title, artist := track.artist,
    lyrics := none }
  if H.cfg.split_title_on_chars = true then
    match title_split H H.cfg.split_on_chars (g0.title.getD "") with
    | some m =>
      if H.cfg.truncate_fields_on_chars = true then
        { w with g_state := { g0 with
            artist := some (String.mk (artist_remove H H.cfg.truncate_on_chars m.1)),
            title := some (String.mk (title_remove H H.cfg.truncate_on_chars m.2)) } }
      else
        { w with g_state := { g0 with
            artist := some (String.mk m.1), title := some (String.mk m.2) } }
    | none => { w with g_state := g0 }
  else { w with g_state := g0 }

/-- The last statement of `lyricwiki_playback_began`. -/
def playback_began_finish (w : World) : World :=
  if w.g_state.lyrics = none then update_lyrics_window_notfound w.g_state w else w

/-- The body of the block guarded by the file provider in
`lyricwiki_playback_began`: the check of artist and title and the dispatch to
the remote provider. -/
def playback_began_remote (H : Host) (w : World) : World :=
  if w.g_state.artist = none ∨ w.g_state.title = none then
    update_lyrics_window_error "Missing title and/or artist." w
  else
    match remote_source H with
    | some rsrc => (rsrc.match_ H w.g_state w).2
    | none => playback_began_finish w

/-- The second part of `lyricwiki_playback_began`: embedded lyrics, then the
file provider, then the remote provider. -/
def playback_began_lookup (H : Host) (track : Track) (w : World) : World :=
  let embedded :=
    if H.cfg.use_embedded = true then
      match track.lyrics with
      | some embedded_lyrics => if embedded_lyrics ≠ "" then some embedded_lyrics else none
      | none => none
    else none
  match embedded with
  | some embedded_lyrics =>
    let w1 := { w with g_state := { w.g_state with
      lyrics := some embedded_lyrics, source := Source.Embedded, error := false } }
    update_lyrics_window w1.g_state.title w1.g_state.artist w1.g_state.lyrics w1
  | none =>
    if H.cfg.enable_file_provider = false then playback_began_remote H w
    else
      let r := FileProvider.match_ H w.g_state w
      if r.1 = false then playback_began_remote H r.2 else playback_began_finish r.2

/-- The function `lyricwiki_playback_began`, called with what the player
reports for the song that began. -/
def lyricwiki_playback_began (H : Host) (track : Track) (w : World) : World :=
  playback_began_lookup H track (playback_began_identity H track w)

/-! ## A host for concrete runs

On paths and texts made of ASCII letters, digits, `/`, `.` and `-` the library
routines do the following. -/

/-- Decimal digits of a text, read from the left, onto an accumulator. -/
def read_digits (acc : Nat) : List Char → Nat
  | [] => acc
  | c :: cs =>
    if '0'.toNat ≤ c.toNat ∧ c.toNat ≤ '9'.toNat then read_digits (acc * 10 + (c.toNat - '0'.toNat)) cs
    else acc

/-- The text before the first `://` of a URI. -/
def scheme_of : List Char → Option (List Char)
  | [] => none
  | c :: cs =>
    match c, cs with
    | ':', '/' :: '/' :: _ => some []
    | _, _ => (scheme_of cs).map (fun s => c :: s)

/-- A host whose conversions are those of plain ASCII paths and texts: a file
URI is `file://` followed by the path, percent-encoding changes nothing, and
numbers are read and written in decimal. Its last three fields answer as the
engine does for a pattern in error (no match, nothing removed); the sample
runs configure characters that `class_of` reads, so that these fields are not
consulted. -/
def plain_host (cfg : Config) : Host where
  cfg := cfg
  user_dir := "/home/u/.config/audacious"
  uri_get_scheme := fun uri => (scheme_of uri.data).map String.mk
  uri_to_filename := fun uri => String.mk (uri.data.drop 7)
  filename_to_uri := fun path => "file://" ++ path
  str_encode_percent := fun s => s
  str_to_int := fun s =>
    match s.data with
    | '-' :: cs => - (read_digits 0 cs : Int)
    | '+' :: cs => (read_digits 0 cs : Int)
    | cs => (read_digits 0 cs : Int)
  int_to_str := fun n => toString n
  qre_split := fun _ _ => none
  qre_remove_leading := fun _ subject => subject
  qre_remove_trailing := fun _ subject => subject

/-- The default configuration with the title split switched on. -/
def split_config : Config :=
  { defaults with split_title_on_chars := true }

/-- The default configuration with the title split and the truncation of its
halves switched on. -/
def split_truncate_config : Config :=
  { defaults with split_title_on_chars := true, truncate_fields_on_chars := true }

/-- The title split and the truncation switched on, with the truncate
characters "a-z". -/
def range_config : Config :=
  { defaults with
    split_title_on_chars := true, truncate_fields_on_chars := true, truncate_on_chars := "a-z" }

/-- The default configuration with chartlyrics.com as the remote source. -/
def chart_config : Config :=
  { defaults with remote_source := "chartlyrics.com" }

/-- The default configuration with no remote source ("Nowhere"). -/
def nowhere_config : Config :=
  { defaults with remote_source := "nowhere" }

/-- An empty world: nothing looked up yet, a text widget showing nothing, no
files. -/
def World.init : World where
  g_state := LyricsState.mk none none none none Source.None false
  chart_lyrics_provider := ChartLyricsProvider.mk (-1) none none none
  textedit := some Display.blank
  files := []
  dirs := []
  log := []
  crashed := false

/-! ## Sample inputs -/

/-- A local song with artist and title and no embedded lyrics. -/
def demo_track : Track :=
  Track.mk "file:///m/a.mp3" (some "T") (some "A") none

/-- A second local song. -/
def demo_track2 : Track :=
  Track.mk "file:///m/b.mp3" (some "T2") (some "A2") none

/-- A network stream that reports an artist and a title. -/
def demo_stream : Track :=
  Track.mk "http://radio.example/stream" (some "T") (some "A") none

/-- A local song whose title holds a directory separator. -/
def demo_track_slash : Track :=
  Track.mk "file:///m/a.mp3" (some "x/y") (some "A") none

/-- A local song that reports an artist and no title. -/
def demo_track_untitled : Track :=
  Track.mk "file:///m/a.mp3" none (some "A") none

/-- A local song "B" by "A": the song of `demo_state_ab`. -/
def demo_track_ab : Track :=
  Track.mk "file:///m/b.mp3" (some "B") (some "A") none

/-- The state of a first lookup for `demo_track`: what the closures of its
remote requests capture. -/
def demo_state : LyricsState :=
  LyricsState.mk (some "file:///m/a.mp3") (some "T") (some "A") none Source.None false

/-- The state of a first lookup for a song "B" by "A": the identity of the
example of a two-step search. -/
def demo_state_ab : LyricsState :=
  LyricsState.mk (some "file:///m/b.mp3") (some "B") (some "A") none Source.None false

/-- The empty world with the given regular files. -/
def world_with_files (files : List (String × VFile)) : World :=
  { World.init with files := files }

/-- A lyrics.ovh response: a JSON object whose member `lyrics` is the string
`s`. -/
def json_lyrics (s : String) : Buf :=
  Buf.mk (s.length + 13) none (some (JsonDoc.object [("lyrics", JsonValue.str s)]))

/-- An element with text content, as a child of a candidate. -/
def xml_field (name content : String) : XmlField :=
  XmlField.mk true name (some content)

/-- A candidate element `SearchLyricResult` of a search response. -/
def xml_candidate (lyric_id checksum song_url artist song : String) : XmlNode :=
  XmlNode.mk true "SearchLyricResult" none
    [xml_field "LyricChecksum" checksum, xml_field "LyricId" lyric_id,
     xml_field "SongUrl" song_url, xml_field "Artist" artist, xml_field "Song" song]

/-- A text node between the children of the root. -/
def xml_blank : XmlNode :=
  XmlNode.mk false "text" (some " ") []

/-- A search response with the two candidates of the example: id 5 with
checksum "abc" for artist "A" and song "B", then id -1. -/
def demo_search : Buf :=
  Buf.mk 640
    (some (XmlDoc.mk
      [xml_blank, xml_candidate "5" "abc" "http://www.chartlyrics.com/a/b.aspx" "A" "B",
       xml_blank, xml_candidate "-1" "def" "http://www.chartlyrics.com/a/c.aspx" "A" "B"]))
    none

/-- A search response none of whose candidates is for artist "A" and song
"B". -/
def demo_search_other : Buf :=
  Buf.mk 640
    (some (XmlDoc.mk
      [xml_blank, xml_candidate "5" "abc" "http://www.chartlyrics.com/x/b.aspx" "X" "B",
       xml_blank, xml_candidate "-1" "def" "http://www.chartlyrics.com/a/b.aspx" "A" "B"]))
    none

/-- A world whose chartlyrics provider still holds the match of an earlier
song. -/
def world_after_match : World where
  g_state := LyricsState.mk none none none none Source.None false
  chart_lyrics_provider :=
    ChartLyricsProvider.mk 7 (some "old") (some "http://www.chartlyrics.com/o/p.aspx")
      (some "old words")
  textedit := some Display.blank
  files := []
  dirs := []
  log := []
  crashed := false

/-- The condition of `lyricwiki_playback_began` on the file provider, with the
world it leaves: `!aud_get_bool ("lyricwiki", "enable-file-provider") ||
!file_provider.match (g_state)` is the negation of the first component. -/
def file_provider_step (H : Host) (w : World) : Bool × World :=
  if H.cfg.enable_file_provider = false then (false, w)
  else FileProvider.match_ H w.g_state w

end LyricWiki

/-!
# MPRIS 2 server (`src/mpris2/plugin.cc`): the metadata dictionary

An embedding of `update_metadata`: the globals it compares with and updates,
the fixed array `elems[7]` it fills through `elems[nelems ++]`, and the array
of dictionary entries it stores in the property `metadata`.
-/

namespace Mpris2

/-- The value a 64-bit signed integer holds after a computation whose exact
result is `n`. -/
def int64_wrap (n : Int) : Int :=
  (n + 2 ^ 63) % 2 ^ 64 - 2 ^ 63

/-- The values `update_metadata` wraps into a variant: a string, an array of
strings, a 64-bit integer. -/
inductive GVariant
  | string (s : String)
  | string_array (l : List String)
  | int64 (n : Int)
deriving DecidableEq, Repr

/-- A dictionary entry `g_variant_new_dict_entry (key, var)`. -/
structure DictEntry where
  key : String
  value : GVariant
deriving DecidableEq, Repr

/-- The array `GVariant * elems[7]` with the counter `nelems`: the entries
stored so far, in index order, and whether a store went past the last
element. -/
structure Elems where
  stored : List DictEntry
  nelems : Nat
  overrun : Bool
deriving DecidableEq, Repr

/-- The declarations `GVariant * elems[7]; int nelems = 0;`. -/
def Elems.empty : Elems :=
  Elems.mk [] 0 false

/-- The statement `elems[nelems ++] = entry`. -/
def Elems.store (e : Elems) (entry : DictEntry) : Elems :=
  if e.nelems < 7 then Elems.mk (e.stored ++ [entry]) (e.nelems + 1) e.overrun
  else Elems.mk e.stored (e.nelems + 1) true

/-- The part of `update_metadata` that fills `elems`, from the values of
`title`, `artist`, `album`, `file`, `length` and `image_file` at that point. -/
def fill_elems (title artist album file : Option String) (length : Int)
    (image_file : Option String) : Elems :=
  let e0 := Elems.empty
  let e1 := match title with
    | some t => e0.store (DictEntry.mk "xesam:title" (GVariant.string t))
    | none => e0
  let e2 := match artist with
    | some a => e1.store (DictEntry.mk "xesam:artist" (GVariant.string_array [a]))
    | none => e1
  let e3 := match album with
    | some a => e2.store (DictEntry.mk "xesam:album" (GVariant.string a))
    | none => e2
  let e4 := match file with
    | some f => e3.store (DictEntry.mk "xesam:url" (GVariant.string f))
    | none => e3
  let e5 := if 0 < length then
      e4.store (DictEntry.mk "mpris:length" (GVariant.int64 (int64_wrap (length * 1000))))
    else e4
  let e6 := match image_file with
    | some i => e5.store (DictEntry.mk "mpris:artUrl" (GVariant.string i))
    | none => e5
  e6.store (DictEntry.mk "mpris:trackid"
    (GVariant.string "/org/mpris/MediaPlayer2/CurrentTrack"))

/-- What the player answers to the calls of `update_metadata`: the playing
playlist, the position in a playlist, the description, file name and length
(a 32-bit `int`) of an entry, and the cover file `aud_art_request_file`
finds for a file. -/
structure Player where
  playing : Int
  position : Int → Int
  title : Int → Int → Option String
  artist : Int → Int → Option String
  album : Int → Int → Option String
  filename : Int → Int → Option String
  length : Int → Int → Int
  art_request_file : String → Option String

/-- The globals of the plugin that `update_metadata` reads and writes, with
the property `metadata` of the D-Bus object (`none`: never set). -/
structure State where
  last_title : Option String
  last_artist : Option String
  last_album : Option String
  last_file : Option String
  last_length : Int
  image_file : Option String
  recheck_image : Bool
  metadata : Option (List DictEntry)
deriving DecidableEq, Repr

/-- The values of the locals `title`, `artist`, `album`, `file`, `length` of
`update_metadata` after the block guarded by `entry >= 0`. -/
structure EntryInfo where
  title : Option String
  artist : Option String
  album : Option String
  file : Option String
  length : Int
deriving DecidableEq, Repr

/-- The first statements of `update_metadata`: the playing entry is described
when there is one. -/
def current_entry (p : Player) : EntryInfo :=
  let playlist := p.playing
  let entry := if 0 ≤ playlist then p.position playlist else -1
  if 0 ≤ entry then
    EntryInfo.mk (p.title playlist entry) (p.artist playlist entry) (p.album playlist entry)
      (p.filename playlist entry) (p.length playlist entry)
  else EntryInfo.mk none none none none 0

/-- The function `update_metadata`. The reference counting of cover files
(`aud_art_unref`) has no effect on the values computed and is left out. -/
def update_metadata (p : Player) (s : State) : State :=
  let i := current_entry p
  if i.title = s.last_title ∧ i.artist = s.last_artist ∧ i.album = s.last_album
      ∧ i.file = s.last_file ∧ i.length = s.last_length ∧ s.recheck_image = false then s
  else
    let s1 :=
      if i.file ≠ s.last_file ∨ s.recheck_image = true then
        { s with
          image_file := (match i.file with
            | some f => p.art_request_file f
            | none => none),
          recheck_image := false }
      else s
    let e := fill_elems i.title i.artist i.album i.file i.length s1.image_file
    { s1 with
      last_title := i.title, last_artist := i.artist, last_album := i.album,
      last_file := i.file, last_length := i.length,
      metadata := some e.stored }

/-- The function `update_image`. -/
def update_image (p : Player) (s : State) : State :=
  update_metadata p { s with recheck_image := true }

/-- The state of the plugin when it starts. -/
def State.init : State :=
  State.mk none none none none 0 none false none

/-- A player whose playing entry has every field set, a length of 215000
milliseconds and a cover file. -/
def demo_player : Player where
  playing := 0
  position := fun _ => 3
  title := fun _ _ => some "T"
  artist := fun _ _ => some "A"
  album := fun _ _ => some "L"
  filename := fun _ _ => some "file:///m/a.mp3"
  length := fun _ _ => 215000
  art_request_file := fun _ => some "file:///m/cover.jpg"

end Mpris2

namespace LyricWiki

/-! # Theorems -/


/-! ## Frame lemmas -/

theorem update_lyrics_window_frame (t a l : Option String) (w : World) :
    (update_lyrics_window t a l w).g_state = w.g_state ∧
    (update_lyrics_window t a l w).chart_lyrics_provider = w.chart_lyrics_provider ∧
    (update_lyrics_window t a l w).files = w.files ∧
    (update_lyrics_window t a l w).log = w.log ∧
    (update_lyrics_window t a l w).crashed = w.crashed := by
  unfold update_lyrics_window
  cases w.textedit <;> simp

theorem update_lyrics_window_textedit (t a l : Option String) (w : World) :
    (update_lyrics_window t a l w).textedit = w.textedit.map (fun _ => Display.page t a l) := by
  unfold update_lyrics_window
  split <;> simp_all

theorem playback_began_identity_frame (H : Host) (track : Track) (w : World) :
    (playback_began_identity H track w).files = w.files ∧
    (playback_began_identity H track w).log = w.log ∧
    (playback_began_identity H track w).textedit = w.textedit ∧
    (playback_began_identity H track w).chart_lyrics_provider = w.chart_lyrics_provider ∧
    (playback_began_identity H track w).crashed = w.crashed := by
  unfold playback_began_identity
  simp only
  split
  · split
    · split <;> simp
    · simp
  · simp

theorem playback_began_identity_state (H : Host) (track : Track) (w : World) :
    (playback_began_identity H track w).g_state.filename = some track.filename ∧
    (playback_began_identity H track w).g_state.lyrics = none ∧
    (playback_began_identity H track w).g_state.source = w.g_state.source ∧
    (playback_began_identity H track w).g_state.error = w.g_state.error := by
  unfold playback_began_identity
  simp only
  split
  · split
    · split <;> simp
    · simp
  · simp

theorem cache_uri_for_entry_eq (H : Host) (state : LyricsState) (w : World)
    (artist title : String) (ha : state.artist = some artist) (ht : state.title = some title) :
    FileProvider.cache_uri_for_entry H state w =
      (some (cache_uri H artist title), g_mkdir_with_parents (cache_dir H artist) w) := by
  simp [FileProvider.cache_uri_for_entry, ha, ht, cache_uri, cache_dir]

theorem lookup_none_filter (files : List (String × VFile)) (uri : String)
    (h : files.lookup uri = none) : files.filter (fun e => e.1 != uri) = files := by
  induction files with
  | nil => rfl
  | cons e rest ih =>
    obtain ⟨k, v⟩ := e
    by_cases hk : uri = k
    · subst hk
      simp [List.lookup] at h
    · have hne : (uri == k) = false := by simpa using hk
      simp only [List.lookup, hne] at h
      have hk2 : (k != uri) = true := by
        simp only [bne_iff_ne, ne_eq]
        exact fun h2 => hk h2.symm
      simp [List.filter, hk2, ih h]

theorem cstr_append_NUL (l : List Char) : cstr (l ++ [NUL]) = cstr l := by
  unfold cstr
  congr 1
  induction l with
  | nil => simp [List.takeWhile]
  | cons c cs ih =>
    by_cases hc : (c != NUL) = true
    · simp [List.takeWhile_cons, hc, ih]
    · simp [List.takeWhile_cons, hc]

/-! ## C2 -/

/-- C2. With use-embedded enabled and a present, non-empty embedded lyrics
tag, `lyricwiki_playback_began` ends with `g_state.lyrics` equal to the
embedded text, source `Embedded` and the error flag cleared, and makes no VFS
call at all (no existence test, no read, no write, no directory creation, no
remote request): the log and the files are those it started with, whatever
the rest of the configuration and the filesystem are. -/
theorem embedded_short_circuit (H : Host) (track : Track) (w : World) (e : String)
    (huse : H.cfg.use_embedded = true) (hemb : track.lyrics = some e) (hne : e ≠ "") :
    (lyricwiki_playback_began H track w).g_state.lyrics = some e ∧
    (lyricwiki_playback_began H track w).g_state.source = Source.Embedded ∧
    (lyricwiki_playback_began H track w).g_state.error = false ∧
    (lyricwiki_playback_began H track w).log = w.log ∧
    (lyricwiki_playback_began H track w).files = w.files := by
  have hf := playback_began_identity_frame H track w
  unfold lyricwiki_playback_began playback_began_lookup
  simp only [huse, hemb, hne, if_true, ne_eq, not_false_eq_true]
  refine ⟨?_, ?_, ?_, ?_, ?_⟩ <;>
    simp [(update_lyrics_window_frame _ _ _ _).1, (update_lyrics_window_frame _ _ _ _).2.2.1,
      (update_lyrics_window_frame _ _ _ _).2.2.2.1, hf.1, hf.2.1]

/-- A song with embedded lyrics, played in a world whose filesystem holds a
sibling lyric file: the embedded text wins and nothing is touched. -/
theorem embedded_short_circuit_witness :
    (plain_host defaults).cfg.use_embedded = true ∧
    ((lyricwiki_playback_began (plain_host defaults)
        (Track.mk "file:///m/a.mp3" (some "T") (some "A") (some "la la"))
        { World.init with files := [("file:///m/a.lrc", VFile.mk true "other")] }).g_state.lyrics
      = some "la la" ∧
    (lyricwiki_playback_began (plain_host defaults)
        (Track.mk "file:///m/a.mp3" (some "T") (some "A") (some "la la"))
        { World.init with files := [("file:///m/a.lrc", VFile.mk true "other")] }).g_state.source
      = Source.Embedded ∧
    (lyricwiki_playback_began (plain_host defaults)
        (Track.mk "file:///m/a.mp3" (some "T") (some "A") (some "la la"))
        { World.init with files := [("file:///m/a.lrc", VFile.mk true "other")] }).g_state.error
      = false ∧
    (lyricwiki_playback_began (plain_host defaults)
        (Track.mk "file:///m/a.mp3" (some "T") (some "A") (some "la la"))
        { World.init with files := [("file:///m/a.lrc", VFile.mk true "other")] }).log
      = [] ∧
    (lyricwiki_playback_began (plain_host defaults)
        (Track.mk "file:///m/a.mp3" (some "T") (some "A") (some "la la"))
        { World.init with files := [("file:///m/a.lrc", VFile.mk true "other")] }).files
      = [("file:///m/a.lrc", VFile.mk true "other")]) :=
  ⟨rfl, embedded_short_circuit (plain_host defaults)
    (Track.mk "file:///m/a.mp3" (some "T") (some "A") (some "la la"))
    { World.init with files := [("file:///m/a.lrc", VFile.mk true "other")] } "la la"
    rfl rfl (by decide)⟩

/-! ## C6 -/

theorem update_lyrics_window_notfound_frame (state : LyricsState) (w : World) :
    (update_lyrics_window_notfound state w).files = w.files ∧
    (update_lyrics_window_notfound state w).log = w.log ∧
    (update_lyrics_window_notfound state w).chart_lyrics_provider = w.chart_lyrics_provider ∧
    (update_lyrics_window_notfound state w).g_state = { w.g_state with error := true } ∧
    (update_lyrics_window_notfound state w).textedit =
      w.textedit.map (fun _ =>
        Display.page state.title state.artist (some "Lyrics could not be found.")) := by
  simp [update_lyrics_window_notfound, update_lyrics_window_frame,
    update_lyrics_window_textedit]

theorem update_lyrics_window_error_frame (message : String) (w : World) :
    (update_lyrics_window_error message w).files = w.files ∧
    (update_lyrics_window_error message w).log = w.log ∧
    (update_lyrics_window_error message w).chart_lyrics_provider = w.chart_lyrics_provider ∧
    (update_lyrics_window_error message w).g_state = { w.g_state with error := true } ∧
    (update_lyrics_window_error message w).textedit =
      w.textedit.map (fun _ => Display.page (some "Error") none (some message)) := by
  simp [update_lyrics_window_error, update_lyrics_window_frame,
    update_lyrics_window_textedit]

theorem playback_began_finish_frame (w : World) :
    (playback_began_finish w).files = w.files ∧
    (playback_began_finish w).log = w.log ∧
    (playback_began_finish w).g_state.lyrics = w.g_state.lyrics ∧
    (playback_began_finish w).g_state.source = w.g_state.source ∧
    (w.g_state.lyrics ≠ none → (playback_began_finish w) = w) := by
  unfold playback_began_finish
  split
  · rename_i h
    simp [update_lyrics_window_notfound_frame, h]
  · simp

theorem cache_of_exists (H : Host) (state : LyricsState) (w : World)
    (artist title : String) (ha : state.artist = some artist) (ht : state.title = some title)
    (hex : (w.files.lookup (cache_uri H artist title)).isSome = true) :
    FileProvider.cache H state w =
      (test_file (cache_uri H artist title) (g_mkdir_with_parents (cache_dir H artist) w)).2 := by
  unfold FileProvider.cache
  rw [cache_uri_for_entry_eq H state w artist title ha ht]
  simp [test_file, g_mkdir_with_parents, hex]

/-- C6. `persist_state` leaves the files unchanged and makes no `write_file`
call when enable-cache is false, or when the state it is given has source
`Local`, or when a regular file already exists at the cache location of the
artist and title of that state; so an existing cache entry keeps its content. -/
theorem persist_state_never_overwrites (H : Host) (state : LyricsState) (w : World)
    (h : H.cfg.enable_cache = false ∨ state.source = Source.Local ∨
      ∃ artist title, state.artist = some artist ∧ state.title = some title ∧
        (w.files.lookup (cache_uri H artist title)).isSome = true) :
    (persist_state H state w).files = w.files ∧
    ∀ uri data, Effect.write_file uri data ∈ (persist_state H state w).log →
      Effect.write_file uri data ∈ w.log := by
  unfold persist_state
  simp only
  by_cases hc : state.source = Source.Local ∨ H.cfg.enable_cache = false
  · rw [if_pos hc]
    exact ⟨rfl, fun _ _ hm => hm⟩
  · rw [if_neg hc]
    rcases h with h | h | ⟨artist, title, ha, ht, hex⟩
    · exact absurd (Or.inr h) hc
    · exact absurd (Or.inl h) hc
    · have hcache := cache_of_exists H state
        { w with g_state := { state with error := false } } artist title ha ht hex
      refine ⟨by rw [hcache]; simp [test_file, g_mkdir_with_parents], ?_⟩
      intro uri data hm
      rw [hcache] at hm
      simpa [test_file, g_mkdir_with_parents] using hm

/-- An existing cache entry with the text "old" survives `persist_state` for
freshly fetched lyrics "new" of the same artist and title. -/
theorem persist_state_never_overwrites_witness :
    ((plain_host defaults).cfg.enable_cache = false ∨
      (LyricsState.mk (some "file:///m/a.mp3") (some "T") (some "A") (some "new")
        Source.LyricsOVH false).source = Source.Local ∨
      ∃ artist title,
        (LyricsState.mk (some "file:///m/a.mp3") (some "T") (some "A") (some "new")
          Source.LyricsOVH false).artist = some artist ∧
        (LyricsState.mk (some "file:///m/a.mp3") (some "T") (some "A") (some "new")
          Source.LyricsOVH false).title = some title ∧
        (({ World.init with files :=
            [("file:///home/u/.config/audacious/lyrics/A/T.lrc", VFile.mk true "old")] } :
            World).files.lookup (cache_uri (plain_host defaults) artist title)).isSome = true) ∧
    (persist_state (plain_host defaults)
      (LyricsState.mk (some "file:///m/a.mp3") (some "T") (some "A") (some "new")
        Source.LyricsOVH false)
      { World.init with files :=
        [("file:///home/u/.config/audacious/lyrics/A/T.lrc", VFile.mk true "old")] }).files
      = [("file:///home/u/.config/audacious/lyrics/A/T.lrc", VFile.mk true "old")] :=
  ⟨Or.inr (Or.inr ⟨"A", "T", rfl, rfl, by decide⟩),
   (persist_state_never_overwrites (plain_host defaults)
      (LyricsState.mk (some "file:///m/a.mp3") (some "T") (some "A") (some "new")
        Source.LyricsOVH false)
      { World.init with files :=
        [("file:///home/u/.config/audacious/lyrics/A/T.lrc", VFile.mk true "old")] }
      (Or.inr (Or.inr ⟨"A", "T", rfl, rfl, by decide⟩))).1⟩

/-! ## C3 -/

theorem mem_with_parents_self (dir : List String) : dir ∈ with_parents dir := by
  induction dir with
  | nil => simp [with_parents]
  | cons x xs ih =>
    simp only [with_parents, List.mem_cons, List.mem_map]
    exact Or.inr ⟨xs, ih, rfl⟩

theorem dir_exists_after_mkdir (path : String) (w : World) :
    dir_exists (g_mkdir_with_parents path w) (path_components path) = true := by
  have hm := mem_with_parents_self (path_components path)
  by_cases h : dir_exists w (path_components path) = true
  · simp only [dir_exists, g_mkdir_with_parents, Bool.or_eq_true, decide_eq_true_eq,
      List.elem_iff, List.contains, List.mem_append] at h ⊢
    rcases h with h | h
    · exact Or.inl h
    · exact Or.inr (Or.inl h)
  · simp only [dir_exists, g_mkdir_with_parents, Bool.or_eq_true, decide_eq_true_eq,
      List.elem_iff, List.contains, List.mem_append, List.mem_filter] at h ⊢
    refine Or.inr (Or.inr ⟨hm, ?_⟩)
    simpa using h

theorem cache_of_absent (H : Host) (state : LyricsState) (w : World)
    (artist title lyrics : String) (ha : state.artist = some artist)
    (ht : state.title = some title) (hl : state.lyrics = some lyrics)
    (hnew : w.files.lookup (cache_uri H artist title) = none)
    (hdir : uri_dir H (cache_uri H artist title) = path_components (cache_dir H artist)) :
    FileProvider.cache H state w =
      { g_mkdir_with_parents (cache_dir H artist) w with
        files := (cache_uri H artist title, VFile.mk true lyrics) :: w.files
        log := w.log ++ [Effect.mkdir_with_parents (cache_dir H artist),
          Effect.test_file (cache_uri H artist title),
          Effect.write_file (cache_uri H artist title) lyrics] } := by
  have hd := dir_exists_after_mkdir (cache_dir H artist) w
  rw [← hdir] at hd
  have hd2 : dir_exists (test_file (cache_uri H artist title)
      (g_mkdir_with_parents (cache_dir H artist) w)).2 (uri_dir H (cache_uri H artist title))
      = true := by
    simpa [dir_exists, test_file] using hd
  unfold FileProvider.cache
  rw [cache_uri_for_entry_eq H state w artist title ha ht]
  have ht1 : (test_file (cache_uri H artist title)
      (g_mkdir_with_parents (cache_dir H artist) w)).1 = false := by
    simp [test_file, g_mkdir_with_parents, hnew]
  simp only [ht1, hl, write_file, hd2]
  simp [test_file, g_mkdir_with_parents, lookup_none_filter _ _ hnew]

theorem lyric_loop_eq_find (nodes : List XmlNode) (p : ChartLyricsProvider) :
    ChartLyricsProvider.lyric_loop nodes p =
      match nodes.find? (fun n => n.is_element && n.name == "Lyric") with
      | some node => { p with m_lyrics := node.content }
      | none => p := by
  induction nodes with
  | nil => rfl
  | cons n rest ih =>
    unfold ChartLyricsProvider.lyric_loop
    by_cases h : n.is_element = true ∧ n.name = "Lyric"
    · simp [h, List.find?]
    · rw [if_neg h, ih]
      have h2 : (n.is_element && n.name == "Lyric") = false := by
        simpa [Bool.and_eq_true] using h
      simp [List.find?, h2]

/-- The cache write where it succeeds. A remote completion (of the lyrics.ovh
callback or of the chartlyrics fetch callback) whose response yields the
non-empty lyrics text `L`, for an identity with artist and title present that
is still the one held in `g_state`, with enable-cache true, no cache entry for
that artist and title, and a cache location that lies directly in the
directory of the artist (as it does for a title without directory separator),
makes exactly one `write_file` call: the three new VFS calls are the creation
of the artist directory, the existence test of the cache location and the
write of `L` there. Afterwards the files are the old ones plus that one file
with content `L`. The location `cache_uri H artist title` is computed from the
user directory, the artist and the title alone. -/
theorem remote_success_writes_cache (H : Host) (w : World) (cb : Handler)
    (cb_state : LyricsState) (uri : String) (buf : Buf) (artist title L : String)
    (hart : cb_state.artist = some artist) (htit : cb_state.title = some title)
    (hsame : w.g_state.artist = cb_state.artist ∧ w.g_state.title = cb_state.title)
    (hcache : H.cfg.enable_cache = true)
    (hnew : w.files.lookup (cache_uri H artist title) = none)
    (hdir : uri_dir H (cache_uri H artist title) = path_components (cache_dir H artist))
    (hlen : buf.len ≠ 0) (hL : L ≠ "")
    (hresp :
      (cb = Handler.ovh_fetch cb_state ∧ ∃ members s,
        buf.json = some (JsonDoc.object members) ∧
        members.lookup "lyrics" = some (JsonValue.str s) ∧ cstr s.data = L) ∨
      (cb = Handler.chart_fetch cb_state ∧ ∃ doc node,
        buf.xml = some doc ∧
        doc.root_children.find? (fun n => n.is_element && n.name == "Lyric") = some node ∧
        node.content = some L)) :
    (run_handler H cb uri buf w).files
      = (cache_uri H artist title, VFile.mk true L) :: w.files ∧
    (run_handler H cb uri buf w).log
      = w.log ++ [Effect.mkdir_with_parents (cache_dir H artist),
          Effect.test_file (cache_uri H artist title),
          Effect.write_file (cache_uri H artist title) L] ∧
    (run_handler H cb uri buf w).g_state.lyrics = some L ∧
    cache_uri H artist title
      = H.filename_to_uri (str_concat
          [filename_build [filename_build [filename_build [H.user_dir, "lyrics"], artist],
            title], ".lrc"]) := by
  have ha : w.g_state.artist = some artist := by rw [hsame.1, hart]
  have ht : w.g_state.title = some title := by rw [hsame.2, htit]
  refine ⟨?_, ?_, ?_, rfl⟩ <;>
  · rcases hresp with ⟨hcb, members, s, hj, hm, hs⟩ | ⟨hcb, doc, node, hx, hfind, hcont⟩
    · subst hcb
      simp only [run_handler, LyricsOVHProvider.fetch_cb, if_neg hlen, hj, hm,
        JsonValue.toString, hs, persist_state]
      rw [if_neg (by simp [hcache])]
      rw [cache_of_absent H _ _ artist title L (by simpa using ha) (by simpa using ht) rfl
        (by simpa [update_lyrics_window_frame] using hnew) hdir]
      try simp [update_lyrics_window_frame, g_mkdir_with_parents]
    · subst hcb
      simp only [run_handler, ChartLyricsProvider.fetch_cb, if_neg hlen, hx,
        lyric_loop_eq_find, hfind, hcont, if_neg hL, persist_state]
      rw [if_neg (by simp [hcache])]
      rw [cache_of_absent H _ _ artist title L (by simpa using ha) (by simpa using ht) rfl
        (by simpa [update_lyrics_window_frame] using hnew) hdir]
      try simp [update_lyrics_window_frame, g_mkdir_with_parents]

/-- The lyrics.ovh callback of `demo_track` completes with "la la" while
`g_state` still holds that song, caching enabled, cache empty: one file is
written, at the cache location of artist "A" and title "T". -/
theorem remote_success_writes_cache_example :
    demo_state.artist = some "A" ∧ demo_state.title = some "T" ∧
    ((lyricwiki_playback_began (plain_host defaults) demo_track World.init).g_state.artist
        = demo_state.artist ∧
      (lyricwiki_playback_began (plain_host defaults) demo_track World.init).g_state.title
        = demo_state.title) ∧
    (plain_host defaults).cfg.enable_cache = true ∧
    (lyricwiki_playback_began (plain_host defaults) demo_track World.init).files.lookup
      (cache_uri (plain_host defaults) "A" "T") = none ∧
    uri_dir (plain_host defaults) (cache_uri (plain_host defaults) "A" "T")
      = path_components (cache_dir (plain_host defaults) "A") ∧
    (json_lyrics "la la").len ≠ 0 ∧ "la la" ≠ "" ∧
    ((run_handler (plain_host defaults) (Handler.ovh_fetch demo_state)
        "https://api.lyrics.ovh/v1/A/T" (json_lyrics "la la")
        (lyricwiki_playback_began (plain_host defaults) demo_track World.init)).files
      = (cache_uri (plain_host defaults) "A" "T", VFile.mk true "la la") ::
        (lyricwiki_playback_began (plain_host defaults) demo_track World.init).files ∧
    (run_handler (plain_host defaults) (Handler.ovh_fetch demo_state)
        "https://api.lyrics.ovh/v1/A/T" (json_lyrics "la la")
        (lyricwiki_playback_began (plain_host defaults) demo_track World.init)).log
      = (lyricwiki_playback_began (plain_host defaults) demo_track World.init).log
        ++ [Effect.mkdir_with_parents (cache_dir (plain_host defaults) "A"),
          Effect.test_file (cache_uri (plain_host defaults) "A" "T"),
          Effect.write_file (cache_uri (plain_host defaults) "A" "T") "la la"] ∧
    (run_handler (plain_host defaults) (Handler.ovh_fetch demo_state)
        "https://api.lyrics.ovh/v1/A/T" (json_lyrics "la la")
        (lyricwiki_playback_began (plain_host defaults) demo_track World.init)).g_state.lyrics
      = some "la la" ∧
    cache_uri (plain_host defaults) "A" "T"
      = (plain_host defaults).filename_to_uri (str_concat
          [filename_build [filename_build [filename_build
            [(plain_host defaults).user_dir, "lyrics"], "A"], "T"], ".lrc"])) ∧
    cache_uri (plain_host defaults) "A" "T"
      = "file:///home/u/.config/audacious/lyrics/A/T.lrc" :=
  ⟨rfl, rfl, by decide, rfl, by decide, by decide, by decide, by decide,
   remote_success_writes_cache (plain_host defaults)
    (lyricwiki_playback_began (plain_host defaults) demo_track World.init)
    (Handler.ovh_fetch demo_state) demo_state "https://api.lyrics.ovh/v1/A/T"
    (json_lyrics "la la") "A" "T" "la la" rfl rfl (by decide) rfl (by decide) (by decide)
    (by decide) (by decide)
    (Or.inl ⟨rfl, [("lyrics", JsonValue.str "la la")], "la la", rfl, by decide, by decide⟩),
   by decide⟩

/-- C4 (run of the code). The song "x/y" by "A" (the title holds a directory
separator) is looked up at lyrics.ovh with caching enabled and an empty
cache, and the request completes with the lyrics "la la" while `g_state`
still holds that song. The callback commits the lyrics and calls `write_file`
once, for the cache location `lyrics/A/x/y.lrc`; only the directory of the
artist, `lyrics/A`, has been created, the directory `lyrics/A/x` that would
hold the file does not exist, and no file is written: the files are still
none, and a second lookup of the same song finds no cache entry and issues
the remote request again. -/
theorem cache_write_lost_for_title_with_separator :
    cache_uri (plain_host defaults) "A" "x/y"
      = "file:///home/u/.config/audacious/lyrics/A/x/y.lrc" ∧
    (lyricwiki_playback_began (plain_host defaults) demo_track_slash World.init).log
      = [Effect.test_file "file:///m/a.lrc",
         Effect.mkdir_with_parents "/home/u/.config/audacious/lyrics/A",
         Effect.test_file "file:///home/u/.config/audacious/lyrics/A/x/y.lrc",
         Effect.async_get "https://api.lyrics.ovh/v1/A/x/y"
           (Handler.ovh_fetch (LyricsState.mk (some "file:///m/a.mp3") (some "x/y") (some "A")
             none Source.None false))] ∧
    (run_handler (plain_host defaults)
      (Handler.ovh_fetch (LyricsState.mk (some "file:///m/a.mp3") (some "x/y") (some "A")
        none Source.None false))
      "https://api.lyrics.ovh/v1/A/x/y" (json_lyrics "la la")
      (lyricwiki_playback_began (plain_host defaults) demo_track_slash World.init)).g_state
      = LyricsState.mk (some "file:///m/a.mp3") (some "x/y") (some "A") (some "la la")
          Source.LyricsOVH false ∧
    (run_handler (plain_host defaults)
      (Handler.ovh_fetch (LyricsState.mk (some "file:///m/a.mp3") (some "x/y") (some "A")
        none Source.None false))
      "https://api.lyrics.ovh/v1/A/x/y" (json_lyrics "la la")
      (lyricwiki_playback_began (plain_host defaults) demo_track_slash World.init)).log
      = (lyricwiki_playback_began (plain_host defaults) demo_track_slash World.init).log
        ++ [Effect.mkdir_with_parents "/home/u/.config/audacious/lyrics/A",
            Effect.test_file "file:///home/u/.config/audacious/lyrics/A/x/y.lrc",
            Effect.write_file "file:///home/u/.config/audacious/lyrics/A/x/y.lrc" "la la"] ∧
    dir_exists
      (run_handler (plain_host defaults)
        (Handler.ovh_fetch (LyricsState.mk (some "file:///m/a.mp3") (some "x/y") (some "A")
          none Source.None false))
        "https://api.lyrics.ovh/v1/A/x/y" (json_lyrics "la la")
        (lyricwiki_playback_began (plain_host defaults) demo_track_slash World.init))
      ["home", "u", ".config", "audacious", "lyrics", "A"] = true ∧
    dir_exists
      (run_handler (plain_host defaults)
        (Handler.ovh_fetch (LyricsState.mk (some "file:///m/a.mp3") (some "x/y") (some "A")
          none Source.None false))
        "https://api.lyrics.ovh/v1/A/x/y" (json_lyrics "la la")
        (lyricwiki_playback_began (plain_host defaults) demo_track_slash World.init))
      ["home", "u", ".config", "audacious", "lyrics", "A", "x"] = false ∧
    (run_handler (plain_host defaults)
      (Handler.ovh_fetch (LyricsState.mk (some "file:///m/a.mp3") (some "x/y") (some "A")
        none Source.None false))
      "https://api.lyrics.ovh/v1/A/x/y" (json_lyrics "la la")
      (lyricwiki_playback_began (plain_host defaults) demo_track_slash World.init)).files
      = [] ∧
    (lyricwiki_playback_began (plain_host defaults) demo_track_slash
      (run_handler (plain_host defaults)
        (Handler.ovh_fetch (LyricsState.mk (some "file:///m/a.mp3") (some "x/y") (some "A")
          none Source.None false))
        "https://api.lyrics.ovh/v1/A/x/y" (json_lyrics "la la")
        (lyricwiki_playback_began (plain_host defaults) demo_track_slash World.init))).log.getLast?
      = some (Effect.async_get "https://api.lyrics.ovh/v1/A/x/y"
          (Handler.ovh_fetch (LyricsState.mk (some "file:///m/a.mp3") (some "x/y") (some "A")
            none Source.LyricsOVH false))) := by
  decide

/-! ## C1 and C5: runs of the code -/

/-- C1 (run of the code). Two songs begin one after the other, both looked up
at lyrics.ovh; then the request made for the FIRST song completes with the
lyrics "la la". The callback was created for the identity of the first song
while `g_state` holds the identity of the second; it is not a no-op: it
stores the text as the lyrics of the second song, shows it under the title
and artist of the second song, and writes it to the cache entry of the second
song. The two chartlyrics callbacks behave alike: created for the first song
and run while `g_state` holds the second, the search callback replaces the
page by an error page on an empty response, and the fetch callback stores the
text of the response as the lyrics of the second song. -/
theorem stale_callback_commits :
    Effect.async_get "https://api.lyrics.ovh/v1/A/T" (Handler.ovh_fetch demo_state) ∈
      (lyricwiki_playback_began (plain_host defaults) demo_track World.init).log ∧
    (lyricwiki_playback_began (plain_host defaults) demo_track2
      (lyricwiki_playback_began (plain_host defaults) demo_track World.init)).g_state
      = LyricsState.mk (some "file:///m/b.mp3") (some "T2") (some "A2") none Source.None false ∧
    (run_handler (plain_host defaults) (Handler.ovh_fetch demo_state)
      "https://api.lyrics.ovh/v1/A/T" (json_lyrics "la la")
      (lyricwiki_playback_began (plain_host defaults) demo_track2
        (lyricwiki_playback_began (plain_host defaults) demo_track World.init))).g_state
      = LyricsState.mk (some "file:///m/b.mp3") (some "T2") (some "A2") (some "la la")
          Source.LyricsOVH false ∧
    (run_handler (plain_host defaults) (Handler.ovh_fetch demo_state)
      "https://api.lyrics.ovh/v1/A/T" (json_lyrics "la la")
      (lyricwiki_playback_began (plain_host defaults) demo_track2
        (lyricwiki_playback_began (plain_host defaults) demo_track World.init))).textedit
      = some (Display.page (some "T2") (some "A2") (some "la la")) ∧
    (run_handler (plain_host defaults) (Handler.ovh_fetch demo_state)
      "https://api.lyrics.ovh/v1/A/T" (json_lyrics "la la")
      (lyricwiki_playback_began (plain_host defaults) demo_track2
        (lyricwiki_playback_began (plain_host defaults) demo_track World.init))).files
      = [("file:///home/u/.config/audacious/lyrics/A2/T2.lrc", VFile.mk true "la la")] ∧
    (run_handler (plain_host defaults) (Handler.chart_match demo_state)
      "http://api.chartlyrics.com/apiv1.asmx/SearchLyric?artist=A&song=T" (Buf.mk 0 none none)
      (lyricwiki_playback_began (plain_host defaults) demo_track2 World.init)).textedit
      = some (Display.page (some "Error") none (some
          "Unable to fetch http://api.chartlyrics.com/apiv1.asmx/SearchLyric?artist=A&song=T")) ∧
    (run_handler (plain_host defaults) (Handler.chart_fetch demo_state)
      "http://api.chartlyrics.com/apiv1.asmx/GetLyric?lyricId=5&lyricCheckSum=abc"
      (Buf.mk 90 (some (XmlDoc.mk [XmlNode.mk true "Lyric" (some "la la") []])) none)
      (lyricwiki_playback_began (plain_host defaults) demo_track2 World.init)).g_state
      = LyricsState.mk (some "file:///m/b.mp3") (some "T2") (some "A2") (some "la la")
          Source.ChartLyrics false := by
  decide

/-- C5 (run of the code). A stream with artist "A" and title "T" is resolved
twice. The first resolution fetches "la la" from lyrics.ovh and writes the
cache entry. The second resolution never looks at the cache: its only VFS
call is a new remote request, and `g_state.lyrics` stays null. -/
theorem stream_never_hits_cache :
    (run_handler (plain_host defaults)
      (Handler.ovh_fetch (LyricsState.mk (some "http://radio.example/stream") (some "T")
        (some "A") none Source.None false))
      "https://api.lyrics.ovh/v1/A/T" (json_lyrics "la la")
      (lyricwiki_playback_began (plain_host defaults) demo_stream World.init)).files
      = [("file:///home/u/.config/audacious/lyrics/A/T.lrc", VFile.mk true "la la")] ∧
    (lyricwiki_playback_began (plain_host defaults) demo_stream
      (run_handler (plain_host defaults)
        (Handler.ovh_fetch (LyricsState.mk (some "http://radio.example/stream") (some "T")
          (some "A") none Source.None false))
        "https://api.lyrics.ovh/v1/A/T" (json_lyrics "la la")
        (lyricwiki_playback_began (plain_host defaults) demo_stream World.init))).log
      = (run_handler (plain_host defaults)
        (Handler.ovh_fetch (LyricsState.mk (some "http://radio.example/stream") (some "T")
          (some "A") none Source.None false))
        "https://api.lyrics.ovh/v1/A/T" (json_lyrics "la la")
        (lyricwiki_playback_began (plain_host defaults) demo_stream World.init)).log
        ++ [Effect.async_get "https://api.lyrics.ovh/v1/A/T"
          (Handler.ovh_fetch (LyricsState.mk (some "http://radio.example/stream") (some "T")
            (some "A") none Source.LyricsOVH false))] ∧
    (lyricwiki_playback_began (plain_host defaults) demo_stream
      (run_handler (plain_host defaults)
        (Handler.ovh_fetch (LyricsState.mk (some "http://radio.example/stream") (some "T")
          (some "A") none Source.None false))
        "https://api.lyrics.ovh/v1/A/T" (json_lyrics "la la")
        (lyricwiki_playback_began (plain_host defaults) demo_stream World.init))).g_state.lyrics
      = none := by
  decide

theorem cache_fetch_of_readable (H : Host) (state : LyricsState) (w : World)
    (artist title : String) (f : VFile)
    (ha : state.artist = some artist) (ht : state.title = some title)
    (hf : w.files.lookup (cache_uri H artist title) = some f) (hr : f.readable = true) :
    (FileProvider.cache_fetch H state w).log
      = w.log ++ [Effect.mkdir_with_parents (cache_dir H artist),
          Effect.read_file (cache_uri H artist title)] ∧
    (FileProvider.cache_fetch H state w).files = w.files ∧
    (FileProvider.cache_fetch H state w).g_state =
      { state with lyrics := some (cstr f.data.data), source := Source.Local, error := false }
    := by
  unfold FileProvider.cache_fetch
  rw [cache_uri_for_entry_eq H state w artist title ha ht]
  simp [read_file, g_mkdir_with_parents, hf, hr, persist_state, cstr_append_NUL,
    update_lyrics_window_frame]

/-- The cache is consulted for a local track whose file name has an
extension: with no embedded short-circuit, the file provider
enabled, no sibling lyric file and a readable cache entry for the artist and
title of the lookup, `lyricwiki_playback_began` reads the lyrics from the
cache entry (source `Local`) and issues no remote request and no write. -/
theorem cache_hit_for_local_track (H : Host) (track : Track) (w : World)
    (path artist title : String) (f : VFile)
    (hemb : H.cfg.use_embedded = false ∨ track.lyrics = none ∨ track.lyrics = some "")
    (hfp : H.cfg.enable_file_provider = true)
    (hp : FileProvider.local_uri_for_entry H (playback_began_identity H track w).g_state
      = some path)
    (hnolocal : w.files.lookup path = none)
    (ha : (playback_began_identity H track w).g_state.artist = some artist)
    (ht : (playback_began_identity H track w).g_state.title = some title)
    (hf : w.files.lookup (cache_uri H artist title) = some f) (hr : f.readable = true) :
    (lyricwiki_playback_began H track w).g_state.lyrics = some (cstr f.data.data) ∧
    (lyricwiki_playback_began H track w).g_state.source = Source.Local ∧
    (lyricwiki_playback_began H track w).files = w.files ∧
    (lyricwiki_playback_began H track w).log
      = w.log ++ [Effect.test_file path, Effect.mkdir_with_parents (cache_dir H artist),
          Effect.test_file (cache_uri H artist title),
          Effect.mkdir_with_parents (cache_dir H artist),
          Effect.read_file (cache_uri H artist title)] := by
  have hfr := playback_began_identity_frame H track w
  have hemb2 : (if H.cfg.use_embedded = true then
      match track.lyrics with
      | some embedded_lyrics => if embedded_lyrics ≠ "" then some embedded_lyrics else none
      | none => none
    else none) = none := by
    rcases hemb with h | h | h <;> simp [h]
  have hm : FileProvider.match_ H (playback_began_identity H track w).g_state
      (playback_began_identity H track w) =
      (true, FileProvider.cache_fetch H (playback_began_identity H track w).g_state
        (test_file (cache_uri H artist title)
          (g_mkdir_with_parents (cache_dir H artist)
            (test_file path (playback_began_identity H track w)).2)).2) := by
    unfold FileProvider.match_
    simp only [hp]
    rw [cache_uri_for_entry_eq H _ _ artist title ha ht]
    simp [test_file, g_mkdir_with_parents, hfr.1, hnolocal, hf]
  have hspec := cache_fetch_of_readable H (playback_began_identity H track w).g_state
    (test_file (cache_uri H artist title)
      (g_mkdir_with_parents (cache_dir H artist)
        (test_file path (playback_began_identity H track w)).2)).2 artist title f ha ht
    (by simpa [test_file, g_mkdir_with_parents, hfr.1] using hf) hr
  have hlook : lyricwiki_playback_began H track w = playback_began_finish
      (FileProvider.cache_fetch H (playback_began_identity H track w).g_state
        (test_file (cache_uri H artist title)
          (g_mkdir_with_parents (cache_dir H artist)
            (test_file path (playback_began_identity H track w)).2)).2) := by
    unfold lyricwiki_playback_began playback_began_lookup
    simp only [hemb2, hfp, hm]
    simp
  have hne : (FileProvider.cache_fetch H (playback_began_identity H track w).g_state
      (test_file (cache_uri H artist title)
        (g_mkdir_with_parents (cache_dir H artist)
          (test_file path (playback_began_identity H track w)).2)).2).g_state.lyrics ≠ none := by
    rw [hspec.2.2]; simp
  rw [hlook, (playback_began_finish_frame _).2.2.2.2 hne]
  refine ⟨by rw [hspec.2.2], by rw [hspec.2.2], ?_, ?_⟩
  · rw [hspec.2.1]
    simp [test_file, g_mkdir_with_parents, hfr.1]
  · rw [hspec.1]
    simp [test_file, g_mkdir_with_parents, hfr.2.1]

/-! ## C7, C8, C10: chartlyrics.com -/

theorem has_match_eq (H : Host) (state : LyricsState) (node : XmlNode)
    (p : ChartLyricsProvider) (hel : node.is_element = true) :
    ChartLyricsProvider.has_match H state node p =
      if spec_candidate_qualifies H state node = true then
        (true, { p with
          m_lyric_id := H.str_to_int ((candidate_fields node).lyric_id.getD ""),
          m_lyric_checksum := (candidate_fields node).checksum,
          m_lyric_url := (candidate_fields node).url })
      else (false, p) := by
  unfold ChartLyricsProvider.has_match spec_candidate_qualifies candidate_fields
  rcases ChartLyricsProvider.has_match_fields (MatchFields.mk none none none none none)
    node.children with ⟨i, c, u, a, t⟩
  rcases i with _ | i <;> rcases c with _ | c <;> rcases a with _ | a <;>
    rcases t with _ | t <;> simp [hel]
  by_cases h : 0 < H.str_to_int i ∧ strcmp_nocase (some a) state.artist = 0
      ∧ strcmp_nocase (some t) state.title = 0
  · simp [h]
  · rw [if_neg h]
    rw [if_neg]
    intro h2
    exact h ⟨h2.1.1, h2.1.2, h2.2⟩

theorem match_loop_eq_find (H : Host) (state : LyricsState) (nodes : List XmlNode)
    (p : ChartLyricsProvider) :
    ChartLyricsProvider.match_loop H state nodes p =
      match nodes.find? (spec_candidate_qualifies H state) with
      | some node => { p with
          m_lyric_id := H.str_to_int ((candidate_fields node).lyric_id.getD ""),
          m_lyric_checksum := (candidate_fields node).checksum,
          m_lyric_url := (candidate_fields node).url }
      | none => p := by
  induction nodes with
  | nil => rfl
  | cons n rest ih =>
    unfold ChartLyricsProvider.match_loop
    cases hel : n.is_element
    · have hq : spec_candidate_qualifies H state n = false := by
        simp [spec_candidate_qualifies, hel]
      simp [List.find?, hq, ih]
    · simp only [Bool.true_eq_false, if_false]
      rw [has_match_eq H state n p hel]
      cases hq : spec_candidate_qualifies H state n
      · simp [List.find?, hq, ih]
      · simp [List.find?, hq]

theorem qualifies_checksum (H : Host) (state : LyricsState) (node : XmlNode)
    (h : spec_candidate_qualifies H state node = true) :
    0 < H.str_to_int ((candidate_fields node).lyric_id.getD "") ∧
    (candidate_fields node).checksum ≠ none := by
  unfold spec_candidate_qualifies at h
  rcases hf : candidate_fields node with ⟨i, c, u, a, t⟩
  rw [hf] at h
  rcases i with _ | i <;> rcases c with _ | c <;> rcases a with _ | a <;>
    rcases t with _ | t <;> simp at h
  simp [h.2.1.1]

/-- C7. For every search response that parses and every requested identity,
when the first child of the root, in document order, that qualifies (an
element with id, checksum, artist and song whose id parses to a positive
integer and whose artist and song equal the requested artist and title
ignoring case) is `node`, the search callback leaves the id, checksum and
song URL of `node` in the provider, whatever the provider held before, and
makes exactly one VFS call: the `GetLyric` request with that id and the
percent-encoded checksum. -/
theorem chart_search_selects_first_match (H : Host) (state : LyricsState) (uri : String)
    (buf : Buf) (doc : XmlDoc) (node : XmlNode) (lyric_id checksum : String) (w : World)
    (hlen : buf.len ≠ 0) (hxml : buf.xml = some doc)
    (hsel : spec_select_candidate H state doc = some node)
    (hid : (candidate_fields node).lyric_id = some lyric_id)
    (hcs : (candidate_fields node).checksum = some checksum) :
    (run_handler H (Handler.chart_match state) uri buf w).chart_lyrics_provider.m_lyric_id
      = H.str_to_int lyric_id ∧
    (run_handler H (Handler.chart_match state) uri buf w).chart_lyrics_provider.m_lyric_checksum
      = some checksum ∧
    (run_handler H (Handler.chart_match state) uri buf w).chart_lyrics_provider.m_lyric_url
      = (candidate_fields node).url ∧
    (run_handler H (Handler.chart_match state) uri buf w).log
      = w.log ++ [Effect.async_get
          (str_concat [m_base_url, "/GetLyric?lyricId=", H.int_to_str (H.str_to_int lyric_id),
            "&lyricCheckSum=", H.str_encode_percent checksum])
          (Handler.chart_fetch state)] := by
  have hq := qualifies_checksum H state node (List.find?_some hsel)
  rw [hid] at hq
  have hpos : ¬ H.str_to_int lyric_id ≤ 0 := not_le.mpr (by simpa using hq.1)
  unfold spec_select_candidate at hsel
  simp only [run_handler, ChartLyricsProvider.match_cb, if_neg hlen, hxml, match_loop_eq_find,
    hsel, ChartLyricsProvider.fetch, ChartLyricsProvider.fetch_uri, hid, hcs, Option.getD_some,
    if_neg hpos, update_lyrics_window_message]
  simp [update_lyrics_window_frame, vfs_async_file_get_contents]

/-- The search response of the example, for the identity ("A", "B") and a
provider that still holds an older match: candidate 5 is selected and the
fetch step is issued with id 5 and checksum "abc". -/
theorem chart_search_selects_first_match_witness :
    demo_search.len ≠ 0 ∧
    spec_select_candidate (plain_host defaults) demo_state_ab
      (XmlDoc.mk
        [xml_blank, xml_candidate "5" "abc" "http://www.chartlyrics.com/a/b.aspx" "A" "B",
         xml_blank, xml_candidate "-1" "def" "http://www.chartlyrics.com/a/c.aspx" "A" "B"])
      = some (xml_candidate "5" "abc" "http://www.chartlyrics.com/a/b.aspx" "A" "B") ∧
    ((run_handler (plain_host defaults) (Handler.chart_match demo_state_ab) "u" demo_search
        world_after_match).chart_lyrics_provider.m_lyric_id
      = (plain_host defaults).str_to_int "5" ∧
    (run_handler (plain_host defaults) (Handler.chart_match demo_state_ab) "u" demo_search
        world_after_match).chart_lyrics_provider.m_lyric_checksum
      = some "abc" ∧
    (run_handler (plain_host defaults) (Handler.chart_match demo_state_ab) "u" demo_search
        world_after_match).chart_lyrics_provider.m_lyric_url
      = (candidate_fields
          (xml_candidate "5" "abc" "http://www.chartlyrics.com/a/b.aspx" "A" "B")).url ∧
    (run_handler (plain_host defaults) (Handler.chart_match demo_state_ab) "u" demo_search
        world_after_match).log
      = world_after_match.log ++ [Effect.async_get
          (str_concat [m_base_url, "/GetLyric?lyricId=",
            (plain_host defaults).int_to_str ((plain_host defaults).str_to_int "5"),
            "&lyricCheckSum=", (plain_host defaults).str_encode_percent "abc"])
          (Handler.chart_fetch demo_state_ab)]) ∧
    str_concat [m_base_url, "/GetLyric?lyricId=",
        (plain_host defaults).int_to_str ((plain_host defaults).str_to_int "5"),
        "&lyricCheckSum=", (plain_host defaults).str_encode_percent "abc"]
      = "http://api.chartlyrics.com/apiv1.asmx/GetLyric?lyricId=5&lyricCheckSum=abc" :=
  ⟨by decide, by decide,
   chart_search_selects_first_match (plain_host defaults) demo_state_ab "u" demo_search
    (XmlDoc.mk
      [xml_blank, xml_candidate "5" "abc" "http://www.chartlyrics.com/a/b.aspx" "A" "B",
       xml_blank, xml_candidate "-1" "def" "http://www.chartlyrics.com/a/c.aspx" "A" "B"])
    (xml_candidate "5" "abc" "http://www.chartlyrics.com/a/b.aspx" "A" "B") "5" "abc"
    world_after_match (by decide) rfl (by decide) (by decide) (by decide),
   by decide⟩

theorem chart_match_resets (H : Host) (state : LyricsState) (w : World) :
    (ChartLyricsProvider.match_ H state w).2.chart_lyrics_provider
      = ChartLyricsProvider.mk (-1) none none none := by
  unfold ChartLyricsProvider.match_
  rcases state.artist with _ | a <;> rcases state.title with _ | t <;>
    simp [ChartLyricsProvider.reset_lyric_metadata, update_lyrics_window_message,
      update_lyrics_window_frame, vfs_async_file_get_contents]

/-- The search without a match when no other callback ran in between. Let a
lookup start with `ChartLyricsProvider::match` in any world, so with any id,
checksum and URL left in the provider by earlier lookups, and let its search
callback run while the provider is as that call left it. If the
response parses and no child of its root qualifies as a match, the callback
makes no VFS call (no `GetLyric` request), changes no file, and the window,
when there is one, shows the title and artist of the state with the text
"Lyrics could not be found.", not the "Error" page. -/
theorem chart_no_match_not_found (H : Host) (state : LyricsState) (uri : String) (buf : Buf)
    (doc : XmlDoc) (w w1 : World)
    (hprov : w1.chart_lyrics_provider
      = (ChartLyricsProvider.match_ H state w).2.chart_lyrics_provider)
    (hlen : buf.len ≠ 0) (hxml : buf.xml = some doc)
    (hnone : ∀ node ∈ doc.root_children, spec_candidate_qualifies H state node = false) :
    (run_handler H (Handler.chart_match state) uri buf w1).log = w1.log ∧
    (run_handler H (Handler.chart_match state) uri buf w1).files = w1.files ∧
    (run_handler H (Handler.chart_match state) uri buf w1).textedit
      = w1.textedit.map (fun _ =>
          Display.page state.title state.artist (some "Lyrics could not be found.")) ∧
    (run_handler H (Handler.chart_match state) uri buf w1).g_state.lyrics
      = w1.g_state.lyrics := by
  rw [chart_match_resets] at hprov
  have hfind : doc.root_children.find? (spec_candidate_qualifies H state) = none := by
    rw [List.find?_eq_none]
    intro node hn
    simp [hnone node hn]
  simp only [run_handler, ChartLyricsProvider.match_cb, if_neg hlen, hxml, match_loop_eq_find,
    hfind, ChartLyricsProvider.fetch, ChartLyricsProvider.fetch_uri, hprov]
  simp [update_lyrics_window_notfound_frame]

/-- A lookup for ("A", "B") starts while the provider holds the match of an
earlier song; the search response has no candidate for ("A", "B"): no request
follows and the not-found text is shown. -/
theorem chart_no_match_not_found_example :
    (ChartLyricsProvider.match_ (plain_host defaults) demo_state_ab
        world_after_match).2.chart_lyrics_provider
      = (ChartLyricsProvider.match_ (plain_host defaults) demo_state_ab
        world_after_match).2.chart_lyrics_provider ∧
    demo_search_other.len ≠ 0 ∧
    (∀ node ∈ [xml_blank,
        xml_candidate "5" "abc" "http://www.chartlyrics.com/x/b.aspx" "X" "B", xml_blank,
        xml_candidate "-1" "def" "http://www.chartlyrics.com/a/b.aspx" "A" "B"],
      spec_candidate_qualifies (plain_host defaults) demo_state_ab node = false) ∧
    ((run_handler (plain_host defaults) (Handler.chart_match demo_state_ab) "u" demo_search_other
        (ChartLyricsProvider.match_ (plain_host defaults) demo_state_ab world_after_match).2).log
      = (ChartLyricsProvider.match_ (plain_host defaults) demo_state_ab world_after_match).2.log ∧
    (run_handler (plain_host defaults) (Handler.chart_match demo_state_ab) "u" demo_search_other
        (ChartLyricsProvider.match_ (plain_host defaults) demo_state_ab world_after_match).2).files
      = (ChartLyricsProvider.match_ (plain_host defaults) demo_state_ab
          world_after_match).2.files ∧
    (run_handler (plain_host defaults) (Handler.chart_match demo_state_ab) "u" demo_search_other
        (ChartLyricsProvider.match_ (plain_host defaults) demo_state_ab
          world_after_match).2).textedit
      = (ChartLyricsProvider.match_ (plain_host defaults) demo_state_ab
          world_after_match).2.textedit.map (fun _ =>
          Display.page demo_state_ab.title demo_state_ab.artist
            (some "Lyrics could not be found.")) ∧
    (run_handler (plain_host defaults) (Handler.chart_match demo_state_ab) "u" demo_search_other
        (ChartLyricsProvider.match_ (plain_host defaults) demo_state_ab
          world_after_match).2).g_state.lyrics
      = (ChartLyricsProvider.match_ (plain_host defaults) demo_state_ab
          world_after_match).2.g_state.lyrics) :=
  ⟨rfl, by decide, by decide,
   chart_no_match_not_found (plain_host defaults) demo_state_ab "u" demo_search_other
    (XmlDoc.mk
      [xml_blank, xml_candidate "5" "abc" "http://www.chartlyrics.com/x/b.aspx" "X" "B",
       xml_blank, xml_candidate "-1" "def" "http://www.chartlyrics.com/a/b.aspx" "A" "B"])
    world_after_match
    (ChartLyricsProvider.match_ (plain_host defaults) demo_state_ab world_after_match).2
    rfl (by decide) rfl (by decide)⟩

/-- The edit URL when no other callback ran in between.
`FileProvider::edit_uri` and `LyricsOVHProvider::edit_uri` return the null
string for every state. After a lookup that started with
`ChartLyricsProvider::match` and whose search callback ran while the provider
was as that call left it, `ChartLyricsProvider::edit_uri` returns the song URL
of the candidate the search selected, and the null string when the search
selected none (no match, or no usable response). -/
theorem edit_uri_per_provider (H : Host) (state : LyricsState) (uri : String) (buf : Buf)
    (w w1 : World)
    (hprov : w1.chart_lyrics_provider
      = (ChartLyricsProvider.match_ H state w).2.chart_lyrics_provider) :
    (∀ s : LyricsState, FileProvider.edit_uri s = none) ∧
    (∀ s : LyricsState, LyricsOVHProvider.edit_uri s = none) ∧
    (∀ s : LyricsState,
      ChartLyricsProvider.edit_uri
          (run_handler H (Handler.chart_match state) uri buf w1).chart_lyrics_provider s
        = ((if buf.len = 0 then none else buf.xml).bind
            (spec_select_candidate H state)).bind (fun node => (candidate_fields node).url)) := by
  rw [chart_match_resets] at hprov
  refine ⟨fun _ => rfl, fun _ => rfl, fun s => ?_⟩
  unfold ChartLyricsProvider.edit_uri
  by_cases hlen : buf.len = 0
  · simp [run_handler, ChartLyricsProvider.match_cb, hlen, update_lyrics_window_error_frame,
      hprov]
  · rcases hxml : buf.xml with _ | doc
    · simp [run_handler, ChartLyricsProvider.match_cb, hlen, hxml,
        update_lyrics_window_error_frame, hprov]
    · simp only [run_handler, ChartLyricsProvider.match_cb, if_neg hlen, hxml,
        match_loop_eq_find, spec_select_candidate, Option.bind_some]
      rcases hsel : doc.root_children.find? (spec_candidate_qualifies H state) with _ | node
      · simp [ChartLyricsProvider.fetch, ChartLyricsProvider.fetch_uri, hprov,
          update_lyrics_window_notfound_frame, hsel]
      · have hq := qualifies_checksum H state node (List.find?_some hsel)
        have hpos : ¬ H.str_to_int ((candidate_fields node).lyric_id.getD "") ≤ 0 :=
          not_le.mpr hq.1
        rcases hcs : (candidate_fields node).checksum with _ | cs
        · exact absurd hcs hq.2
        · simp [ChartLyricsProvider.fetch, ChartLyricsProvider.fetch_uri, hpos, hcs,
            update_lyrics_window_message, update_lyrics_window_frame,
            vfs_async_file_get_contents, hsel]

/-- After the search of the example the edit URL is the song URL of candidate
5; after a search without a match it is null, although an older URL was held
before the lookup started. -/
theorem edit_uri_per_provider_example :
    (ChartLyricsProvider.match_ (plain_host defaults) demo_state_ab
        world_after_match).2.chart_lyrics_provider
      = (ChartLyricsProvider.match_ (plain_host defaults) demo_state_ab
        world_after_match).2.chart_lyrics_provider ∧
    ChartLyricsProvider.edit_uri
        (run_handler (plain_host defaults) (Handler.chart_match demo_state_ab) "u" demo_search
          (ChartLyricsProvider.match_ (plain_host defaults) demo_state_ab
            world_after_match).2).chart_lyrics_provider demo_state_ab
      = ((if demo_search.len = 0 then none else demo_search.xml).bind
          (spec_select_candidate (plain_host defaults) demo_state_ab)).bind
          (fun node => (candidate_fields node).url) ∧
    ((if demo_search.len = 0 then none else demo_search.xml).bind
          (spec_select_candidate (plain_host defaults) demo_state_ab)).bind
          (fun node => (candidate_fields node).url)
      = some "http://www.chartlyrics.com/a/b.aspx" ∧
    ChartLyricsProvider.edit_uri
        (run_handler (plain_host defaults) (Handler.chart_match demo_state_ab) "u"
          demo_search_other
          (ChartLyricsProvider.match_ (plain_host defaults) demo_state_ab
            world_after_match).2).chart_lyrics_provider demo_state_ab
      = none :=
  ⟨rfl,
   (edit_uri_per_provider (plain_host defaults) demo_state_ab "u" demo_search world_after_match
    (ChartLyricsProvider.match_ (plain_host defaults) demo_state_ab world_after_match).2
    rfl).2.2 demo_state_ab,
   by decide, by decide⟩


/-- The edit URL after a search that selected a candidate, for every state
the provider was in when the search callback ran: the song URL of that
candidate. -/
theorem edit_uri_of_selected (H : Host) (state : LyricsState) (uri : String) (buf : Buf)
    (doc : XmlDoc) (node : XmlNode) (w1 : World)
    (hlen : buf.len ≠ 0) (hxml : buf.xml = some doc)
    (hsel : spec_select_candidate H state doc = some node) (s : LyricsState) :
    ChartLyricsProvider.edit_uri
        (run_handler H (Handler.chart_match state) uri buf w1).chart_lyrics_provider s
      = (candidate_fields node).url := by
  unfold ChartLyricsProvider.edit_uri
  unfold spec_select_candidate at hsel
  have hq := qualifies_checksum H state node (List.find?_some hsel)
  have hpos : ¬ H.str_to_int ((candidate_fields node).lyric_id.getD "") ≤ 0 :=
    not_le.mpr hq.1
  simp only [run_handler, ChartLyricsProvider.match_cb, if_neg hlen, hxml,
    match_loop_eq_find]
  rcases hcs : (candidate_fields node).checksum with _ | cs
  · exact absurd hcs hq.2
  · simp [ChartLyricsProvider.fetch, ChartLyricsProvider.fetch_uri, hpos, hcs,
      update_lyrics_window_message, update_lyrics_window_frame,
      vfs_async_file_get_contents, hsel]

/-- C8 (run of the code). With chartlyrics.com configured, the song "B" by
"A" begins, and the song "T" by "A" begins before the search for the first
song has completed. The search for the first song completes with a response
that holds its match (id 5, checksum "abc"), which the callback stores in the
provider. Then the search for the second song completes with a well-formed
response in which no candidate qualifies for "T" by "A". The provider still
holds id 5 and checksum "abc" of the other song, so the search callback does
not show the not-found text: it issues a `GetLyric` request for id 5 and
shows "Looking for lyrics ...". -/
theorem chart_no_match_fetches_stale_id :
    demo_search_other.len ≠ 0 ∧
    demo_search_other.xml.bind (spec_select_candidate (plain_host chart_config) demo_state)
      = none ∧
    (lyricwiki_playback_began (plain_host chart_config) demo_track
      (lyricwiki_playback_began (plain_host chart_config) demo_track_ab World.init)).log
      = [Effect.test_file "file:///m/b.lrc",
         Effect.mkdir_with_parents "/home/u/.config/audacious/lyrics/A",
         Effect.test_file "file:///home/u/.config/audacious/lyrics/A/B.lrc",
         Effect.async_get "http://api.chartlyrics.com/apiv1.asmx/SearchLyric?artist=A&song=B"
           (Handler.chart_match demo_state_ab),
         Effect.test_file "file:///m/a.lrc",
         Effect.mkdir_with_parents "/home/u/.config/audacious/lyrics/A",
         Effect.test_file "file:///home/u/.config/audacious/lyrics/A/T.lrc",
         Effect.async_get "http://api.chartlyrics.com/apiv1.asmx/SearchLyric?artist=A&song=T"
           (Handler.chart_match demo_state)] ∧
    (lyricwiki_playback_began (plain_host chart_config) demo_track
      (lyricwiki_playback_began (plain_host chart_config) demo_track_ab
        World.init)).chart_lyrics_provider
      = ChartLyricsProvider.mk (-1) none none none ∧
    (run_handler (plain_host chart_config) (Handler.chart_match demo_state_ab)
      "http://api.chartlyrics.com/apiv1.asmx/SearchLyric?artist=A&song=B" demo_search
      (lyricwiki_playback_began (plain_host chart_config) demo_track
        (lyricwiki_playback_began (plain_host chart_config) demo_track_ab
          World.init))).chart_lyrics_provider
      = ChartLyricsProvider.mk 5 (some "abc") (some "http://www.chartlyrics.com/a/b.aspx")
          none ∧
    (run_handler (plain_host chart_config) (Handler.chart_match demo_state)
      "http://api.chartlyrics.com/apiv1.asmx/SearchLyric?artist=A&song=T" demo_search_other
      (run_handler (plain_host chart_config) (Handler.chart_match demo_state_ab)
        "http://api.chartlyrics.com/apiv1.asmx/SearchLyric?artist=A&song=B" demo_search
        (lyricwiki_playback_began (plain_host chart_config) demo_track
          (lyricwiki_playback_began (plain_host chart_config) demo_track_ab
            World.init)))).log
      = (run_handler (plain_host chart_config) (Handler.chart_match demo_state_ab)
        "http://api.chartlyrics.com/apiv1.asmx/SearchLyric?artist=A&song=B" demo_search
        (lyricwiki_playback_began (plain_host chart_config) demo_track
          (lyricwiki_playback_began (plain_host chart_config) demo_track_ab
            World.init))).log
        ++ [Effect.async_get
            "http://api.chartlyrics.com/apiv1.asmx/GetLyric?lyricId=5&lyricCheckSum=abc"
            (Handler.chart_fetch demo_state)] ∧
    (run_handler (plain_host chart_config) (Handler.chart_match demo_state)
      "http://api.chartlyrics.com/apiv1.asmx/SearchLyric?artist=A&song=T" demo_search_other
      (run_handler (plain_host chart_config) (Handler.chart_match demo_state_ab)
        "http://api.chartlyrics.com/apiv1.asmx/SearchLyric?artist=A&song=B" demo_search
        (lyricwiki_playback_began (plain_host chart_config) demo_track
          (lyricwiki_playback_began (plain_host chart_config) demo_track_ab
            World.init)))).textedit
      = some (Display.page (some "T") (some "A") (some "Looking for lyrics ...")) ∧
    (run_handler (plain_host chart_config) (Handler.chart_match demo_state)
      "http://api.chartlyrics.com/apiv1.asmx/SearchLyric?artist=A&song=T" demo_search_other
      (run_handler (plain_host chart_config) (Handler.chart_match demo_state_ab)
        "http://api.chartlyrics.com/apiv1.asmx/SearchLyric?artist=A&song=B" demo_search
        (lyricwiki_playback_began (plain_host chart_config) demo_track
          (lyricwiki_playback_began (plain_host chart_config) demo_track_ab
            World.init)))).g_state.error
      = false := by
  decide

/-- C10 (run of the code). In the run above, where the search for "B" by "A"
selects the candidate with song URL `.../a/b.aspx` and the search for "T" by
"A", started before that callback ran, then completes without a match: the
most recent search found no match, and `ChartLyricsProvider::edit_uri` still
returns the song URL selected for the other song, not the null string. -/
theorem edit_uri_stale_after_no_match :
    demo_search_other.xml.bind (spec_select_candidate (plain_host chart_config) demo_state)
      = none ∧
    (run_handler (plain_host chart_config) (Handler.chart_match demo_state)
      "http://api.chartlyrics.com/apiv1.asmx/SearchLyric?artist=A&song=T" demo_search_other
      (run_handler (plain_host chart_config) (Handler.chart_match demo_state_ab)
        "http://api.chartlyrics.com/apiv1.asmx/SearchLyric?artist=A&song=B" demo_search
        (lyricwiki_playback_began (plain_host chart_config) demo_track
          (lyricwiki_playback_began (plain_host chart_config) demo_track_ab
            World.init)))).g_state.identity
      = demo_state.identity ∧
    ChartLyricsProvider.edit_uri
      (run_handler (plain_host chart_config) (Handler.chart_match demo_state)
        "http://api.chartlyrics.com/apiv1.asmx/SearchLyric?artist=A&song=T" demo_search_other
        (run_handler (plain_host chart_config) (Handler.chart_match demo_state_ab)
          "http://api.chartlyrics.com/apiv1.asmx/SearchLyric?artist=A&song=B" demo_search
          (lyricwiki_playback_began (plain_host chart_config) demo_track
            (lyricwiki_playback_began (plain_host chart_config) demo_track_ab
              World.init)))).chart_lyrics_provider
      demo_state
      = some "http://www.chartlyrics.com/a/b.aspx" ∧
    LyricProvider.edit_uri LyricProvider.chart_lyrics_provider demo_state
      (run_handler (plain_host chart_config) (Handler.chart_match demo_state)
        "http://api.chartlyrics.com/apiv1.asmx/SearchLyric?artist=A&song=T" demo_search_other
        (run_handler (plain_host chart_config) (Handler.chart_match demo_state_ab)
          "http://api.chartlyrics.com/apiv1.asmx/SearchLyric?artist=A&song=B" demo_search
          (lyricwiki_playback_began (plain_host chart_config) demo_track
            (lyricwiki_playback_began (plain_host chart_config) demo_track_ab
              World.init))))
      ≠ none := by
  decide

/-! ## C9: title split -/

theorem title_split_of_class (H : Host) (chars title : String)
    (h : (class_of chars).isSome = true) :
    title_split H chars title = split_pattern chars title.data := by
  unfold title_split
  rcases hc : class_of chars with _ | cl
  · rw [hc] at h
    exact absurd h (by simp)
  · rfl

theorem artist_remove_of_class (H : Host) (chars : String) (artist : List Char)
    (h : (class_of chars).isSome = true) :
    artist_remove H chars artist = remove_leading chars artist := by
  unfold artist_remove
  rcases hc : class_of chars with _ | cl
  · rw [hc] at h
    exact absurd h (by simp)
  · rfl

theorem title_remove_of_class (H : Host) (chars : String) (title : List Char)
    (h : (class_of chars).isSome = true) :
    title_remove H chars title = remove_trailing chars title := by
  unfold title_remove
  rcases hc : class_of chars with _ | cl
  · rw [hc] at h
    exact absurd h (by simp)
  · rfl

theorem class_of_dash : (class_of "-").isSome = true := by decide

theorem re_spaces_split_point {α : Type} (chars : String) (k : List Char → Option α)
    (s : List Char) (r : α)
    (h : re_spaces (re_class chars (re_spaces k)) s = some r) :
    has_split_point chars s = true := by
  induction s generalizing r with
  | nil => simp [re_spaces] at h
  | cons c cs ih =>
    unfold re_spaces at h
    by_cases hc : is_space c = true
    · rw [if_pos hc] at h
      rcases hin : re_spaces (re_class chars (re_spaces k)) cs with _ | r2
      · rw [hin] at h
        simp only at h
        rcases cs with _ | ⟨b, cs2⟩
        · simp [re_class] at h
        · simp only [re_class] at h
          by_cases hb : in_class chars b = true
          · rw [if_pos hb] at h
            rcases cs2 with _ | ⟨d, cs3⟩
            · simp [re_spaces] at h
            · unfold re_spaces at h
              by_cases hd : is_space d = true
              · simp [has_split_point, hc, hb, hd]
              · rw [if_neg hd] at h
                exact absurd h (by simp)
          · rw [if_neg hb] at h
            exact absurd h (by simp)
      · have := ih r2 hin
        unfold has_split_point
        simp [this]
    · rw [if_neg hc] at h
      exact absurd h (by simp)

theorem re_dots_split_point {α : Type} (chars : String) (k : List Char → Option α)
    (s : List Char) (r : List Char × α)
    (h : re_dots (re_spaces (re_class chars (re_spaces k))) s = some r) :
    has_split_point chars s = true := by
  induction s generalizing r with
  | nil => simp [re_dots, re_spaces] at h
  | cons c cs ih =>
    unfold re_dots at h
    by_cases hn : is_newline c = true
    · rw [if_pos hn] at h
      rcases hk : re_spaces (re_class chars (re_spaces k)) (c :: cs) with _ | r2
      · rw [hk] at h
        simp at h
      · exact re_spaces_split_point chars k _ r2 hk
    · rw [if_neg hn] at h
      rcases hin : re_dots (re_spaces (re_class chars (re_spaces k))) cs with _ | r2
      · rw [hin] at h
        simp only at h
        rcases hk : re_spaces (re_class chars (re_spaces k)) (c :: cs) with _ | r3
        · rw [hk] at h
          simp at h
        · exact re_spaces_split_point chars k _ r3 hk
      · have := ih r2 hin
        unfold has_split_point
        simp [this]

theorem re_dots_end_line (s : List Char) (h : ∀ c ∈ s, is_newline c = false) :
    re_dots re_end s = some (s, []) := by
  induction s with
  | nil => simp [re_dots, re_end]
  | cons c cs ih =>
    have hc : is_newline c = false := h c (List.mem_cons_self c cs)
    have hcs : ∀ d ∈ cs, is_newline d = false := fun d hd => h d (List.mem_cons_of_mem c hd)
    unfold re_dots
    simp [hc, ih hcs]

theorem re_spaces_none_of_head {α : Type} (k : List Char → Option α) (s : List Char)
    (h : ∀ c, s.head? = some c → is_space c = false) : re_spaces k s = none := by
  rcases s with _ | ⟨c, cs⟩
  · rfl
  · unfold re_spaces
    simp [h c rfl]

theorem split_pattern_dash (A B : List Char)
    (hA : ∀ c ∈ A, is_newline c = false) (hB : ∀ c ∈ B, is_newline c = false)
    (hhead : ∀ c, B.head? = some c → is_space c = false)
    (hB2 : has_split_point "-" (' ' :: B) = false) :
    split_pattern "-" (A ++ ' ' :: '-' :: ' ' :: B) = some (A, B) := by
  have key : re_dots (re_spaces (re_class "-" (re_spaces (re_dots re_end))))
      (A ++ ' ' :: '-' :: ' ' :: B) = some (A, (B, [])) := by
    induction A with
    | nil =>
      have hnone : re_dots (re_spaces (re_class "-" (re_spaces (re_dots re_end))))
          ('-' :: ' ' :: B) = none := by
        rcases hr : re_dots (re_spaces (re_class "-" (re_spaces (re_dots re_end))))
          ('-' :: ' ' :: B) with _ | r
        · rfl
        · have hsp := re_dots_split_point "-" _ _ r hr
          unfold has_split_point at hsp
          rw [hB2] at hsp
          have hdash : is_space '-' = false := by decide
          simp [hdash] at hsp
      have hsp1 : re_spaces (re_class "-" (re_spaces (re_dots re_end))) ('-' :: ' ' :: B)
          = none := by
        unfold re_spaces
        have hdash : is_space '-' = false := by decide
        simp [hdash]
      have hsp2 : re_spaces (re_dots re_end) (' ' :: B) = some (B, []) := by
        unfold re_spaces
        have hblank : is_space ' ' = true := by decide
        rw [if_pos hblank, re_spaces_none_of_head _ B hhead]
        exact re_dots_end_line B hB
      have hcls : in_class "-" '-' = true := by decide
      have hblank : is_space ' ' = true := by decide
      have hnl : is_newline ' ' = false := by decide
      simp only [List.nil_append]
      unfold re_dots
      simp only [hnl, hnone, Bool.false_eq_true, if_false]
      unfold re_spaces
      simp only [hblank, if_true, hsp1]
      unfold re_class
      simp [hcls, hsp2]
    | cons a A2 ih =>
      have ha : is_newline a = false := hA a (List.mem_cons_self a A2)
      have hA2 : ∀ c ∈ A2, is_newline c = false :=
        fun c hc => hA c (List.mem_cons_of_mem a hc)
      simp only [List.cons_append]
      unfold re_dots
      simp [ha, ih hA2]
  simp [split_pattern, key]


theorem cache_uri_for_entry_frame (H : Host) (state : LyricsState) (w : World) :
    (FileProvider.cache_uri_for_entry H state w).2.g_state = w.g_state ∧
    (FileProvider.cache_uri_for_entry H state w).2.files = w.files ∧
    (FileProvider.cache_uri_for_entry H state w).2.textedit = w.textedit ∧
    (FileProvider.cache_uri_for_entry H state w).2.chart_lyrics_provider
      = w.chart_lyrics_provider := by
  unfold FileProvider.cache_uri_for_entry
  rcases state.artist with _ | a <;> rcases state.title with _ | t <;>
    simp [g_mkdir_with_parents]

theorem cache_g_state (H : Host) (state : LyricsState) (w : World) :
    (FileProvider.cache H state w).g_state = w.g_state := by
  have hc := cache_uri_for_entry_frame H state w
  unfold FileProvider.cache
  simp only
  split
  · exact hc.1
  · split
    · simpa [test_file] using hc.1
    · split
      · simpa [test_file] using hc.1
      · unfold write_file
        split <;> simpa [test_file] using hc.1

theorem persist_state_g_state (H : Host) (state : LyricsState) (w : World) :
    (persist_state H state w).g_state = { state with error := false } := by
  unfold persist_state
  simp only
  split
  · rfl
  · rw [cache_g_state]

theorem file_fetch_identity (H : Host) (state : LyricsState) (w : World) :
    (FileProvider.fetch H state w).g_state.identity = w.g_state.identity ∨
    (FileProvider.fetch H state w).g_state.identity = state.identity := by
  unfold FileProvider.fetch
  split
  · exact Or.inl rfl
  · simp only
    split
    · exact Or.inl (by simp [read_file])
    · exact Or.inr (by simp [persist_state_g_state, LyricsState.identity])

theorem cache_fetch_identity (H : Host) (state : LyricsState) (w : World) :
    (FileProvider.cache_fetch H state w).g_state.identity = w.g_state.identity ∨
    (FileProvider.cache_fetch H state w).g_state.identity = state.identity := by
  have hc := cache_uri_for_entry_frame H state w
  unfold FileProvider.cache_fetch
  simp only
  split
  · exact Or.inl (by rw [hc.1])
  · split
    · exact Or.inl (by simp [read_file, hc.1])
    · exact Or.inr (by simp [persist_state_g_state, LyricsState.identity])

theorem file_match_identity (H : Host) (w : World) :
    (FileProvider.match_ H w.g_state w).2.g_state.identity = w.g_state.identity := by
  unfold FileProvider.match_
  rcases FileProvider.local_uri_for_entry H w.g_state with _ | path
  · rfl
  · simp only
    have hc := cache_uri_for_entry_frame H w.g_state (test_file path w).2
    by_cases ht : (test_file path w).1 = true
    · rw [if_pos ht]
      rcases file_fetch_identity H w.g_state (test_file path w).2 with h | h
      · rw [h]; simp [test_file]
      · exact h
    · rw [if_neg ht]
      rcases hcu : (FileProvider.cache_uri_for_entry H w.g_state (test_file path w).2).1
        with _ | cpath
      · show (FileProvider.cache_uri_for_entry H w.g_state
          (test_file path w).2).2.g_state.identity = _
        rw [hc.1]; rfl
      · simp only
        split
        · rcases cache_fetch_identity H w.g_state
            (test_file cpath
              (FileProvider.cache_uri_for_entry H w.g_state (test_file path w).2).2).2
            with h | h
          · rw [h]
            show (FileProvider.cache_uri_for_entry H w.g_state
              (test_file path w).2).2.g_state.identity = _
            rw [hc.1]; rfl
          · exact h
        · show (FileProvider.cache_uri_for_entry H w.g_state
            (test_file path w).2).2.g_state.identity = _
          rw [hc.1]; rfl

theorem remote_match_identity (H : Host) (rsrc : LyricProvider) (state : LyricsState)
    (w : World) : (rsrc.match_ H state w).2.g_state = w.g_state := by
  cases rsrc
  · unfold LyricProvider.match_ ChartLyricsProvider.match_
    rcases state.artist with _ | a <;> rcases state.title with _ | t <;>
      simp [update_lyrics_window_message, update_lyrics_window_frame,
        vfs_async_file_get_contents]
  · unfold LyricProvider.match_ LyricsOVHProvider.match_ LyricsOVHProvider.fetch
    rcases state.artist with _ | a <;> rcases state.title with _ | t <;>
      simp [update_lyrics_window_message, update_lyrics_window_frame,
        vfs_async_file_get_contents]

theorem playback_began_finish_identity (w : World) :
    (playback_began_finish w).g_state.identity = w.g_state.identity := by
  unfold playback_began_finish
  split
  · simp [update_lyrics_window_notfound_frame, LyricsState.identity]
  · rfl

theorem playback_began_remote_identity (H : Host) (w : World) :
    (playback_began_remote H w).g_state.identity = w.g_state.identity := by
  unfold playback_began_remote
  split
  · simp [update_lyrics_window_error_frame, LyricsState.identity]
  · split
    · rw [remote_match_identity]
    · exact playback_began_finish_identity w

theorem playback_began_lookup_identity (H : Host) (track : Track) (w : World) :
    (playback_began_lookup H track w).g_state.identity = w.g_state.identity := by
  unfold playback_began_lookup
  simp only
  split
  · simp [update_lyrics_window_frame, LyricsState.identity]
  · split
    · exact playback_began_remote_identity H w
    · split
      · rw [playback_began_remote_identity, file_match_identity]
      · rw [playback_began_finish_identity, file_match_identity]


theorem remove_leading_no_split_point (chars : String) (s : List Char)
    (h : has_split_point chars s = false) : remove_leading chars s = s := by
  unfold remove_leading
  rcases hr : re_dots (re_spaces (re_class chars (re_spaces re_done))) s with _ | r
  · rfl
  · have := re_dots_split_point chars re_done s r hr
    rw [h] at this
    exact absurd this (by simp)

theorem remove_trailing_no_split_point (chars : String) (s : List Char)
    (h : has_split_point chars s = false) : remove_trailing chars s = s := by
  induction s with
  | nil => rfl
  | cons c cs ih =>
    have hcs : has_split_point chars cs = false := by
      unfold has_split_point at h
      simp only [Bool.or_eq_false_iff] at h
      exact h.2
    unfold remove_trailing
    rcases hr : re_spaces (re_class chars (re_spaces (re_dots re_end))) (c :: cs) with _ | r
    · simp [ih hcs]
    · have := re_spaces_split_point chars (re_dots re_end) (c :: cs) r hr
      rw [h] at this
      exact absurd this (by simp)

/-- C9, as amended. With split-title-on-chars enabled and split-on-chars "-":
(1) when the host title is `A ++ " - " ++ B`, where `A` and `B` contain no
line break, `B` does not begin with white space, no "-" with white space on
both sides occurs in `B` preceded by the blank that ends the separator, and
either truncate-fields-on-chars is disabled or the truncate characters form a
class that `class_of` reads and neither `A` nor `B` contains a character of
that class with white space on both sides, then `g_state.artist` is `A` and
`g_state.title` is `B` when the first part of `lyricwiki_playback_began` is
done, whatever artist the host supplied; the lookup (embedded check, file
provider, remote provider) runs on that state and ends with the same artist
and title; (2) when the title does not match the split pattern, artist and
title are those the host supplied. -/
theorem title_split_on_dash (H : Host) (track : Track) (w : World)
    (hsplit : H.cfg.split_title_on_chars = true) (hchars : H.cfg.split_on_chars = "-") :
    (∀ A B : String, track.title = some (A ++ " - " ++ B) →
        (∀ c ∈ A.data, is_newline c = false) → (∀ c ∈ B.data, is_newline c = false) →
        (∀ c, B.data.head? = some c → is_space c = false) →
        has_split_point "-" (' ' :: B.data) = false →
        (H.cfg.truncate_fields_on_chars = false ∨
          ((class_of H.cfg.truncate_on_chars).isSome = true ∧
            has_split_point H.cfg.truncate_on_chars A.data = false ∧
            has_split_point H.cfg.truncate_on_chars B.data = false)) →
        (playback_began_identity H track w).g_state.artist = some A ∧
        (playback_began_identity H track w).g_state.title = some B ∧
        lyricwiki_playback_began H track w
          = playback_began_lookup H track (playback_began_identity H track w) ∧
        (lyricwiki_playback_began H track w).g_state.artist = some A ∧
        (lyricwiki_playback_began H track w).g_state.title = some B) ∧
    (split_pattern "-" (track.title.getD "").data = none →
      (playback_began_identity H track w).g_state.artist = track.artist ∧
      (playback_began_identity H track w).g_state.title = track.title) := by
  constructor
  · intro A B htitle hA hB hhead hB2 htrunc
    have hdata : (A ++ " - " ++ B).data = A.data ++ ' ' :: '-' :: ' ' :: B.data := by
      simp [String.data_append]
    have hm := split_pattern_dash A.data B.data hA hB hhead hB2
    have hid : (playback_began_identity H track w).g_state.artist = some A ∧
        (playback_began_identity H track w).g_state.title = some B := by
      unfold playback_began_identity
      rcases htrunc with hoff | ⟨hT, htA, htB⟩
      · simp [hsplit, hchars, hoff, htitle, hdata, hm, title_split_of_class _ _ _ class_of_dash]
      · cases hon : H.cfg.truncate_fields_on_chars
        · simp [hsplit, hchars, hon, htitle, hdata, hm,
            title_split_of_class _ _ _ class_of_dash]
        · simp [hsplit, hchars, hon, htitle, hdata, hm,
            title_split_of_class _ _ _ class_of_dash, artist_remove_of_class _ _ _ hT,
            title_remove_of_class _ _ _ hT,
            remove_leading_no_split_point _ _ htA, remove_trailing_no_split_point _ _ htB]
    have hlook := playback_began_lookup_identity H track (playback_began_identity H track w)
    simp only [LyricsState.identity, Prod.mk.injEq] at hlook
    refine ⟨hid.1, hid.2, rfl, ?_, ?_⟩
    · show (playback_began_lookup H track (playback_began_identity H track w)).g_state.artist = _
      rw [hlook.2.2, hid.1]
    · show (playback_began_lookup H track (playback_began_identity H track w)).g_state.title = _
      rw [hlook.2.1, hid.2]
  · intro hno
    unfold playback_began_identity
    simp [hsplit, hchars, hno, title_split_of_class _ _ _ class_of_dash]

/-- The title "Artist - Song" of the specification, with a different artist
supplied by the host, and the title "Song" that does not match. -/
theorem title_split_on_dash_witness :
    (plain_host split_config).cfg.split_title_on_chars = true ∧
    (plain_host split_config).cfg.split_on_chars = "-" ∧
    (plain_host split_config).cfg.truncate_fields_on_chars = false ∧
    (Track.mk "file:///m/a.mp3" (some "Artist - Song") (some "Various") none).title
      = some ("Artist" ++ " - " ++ "Song") ∧
    ((playback_began_identity (plain_host split_config)
        (Track.mk "file:///m/a.mp3" (some "Artist - Song") (some "Various") none)
        World.init).g_state.artist = some "Artist" ∧
      (playback_began_identity (plain_host split_config)
        (Track.mk "file:///m/a.mp3" (some "Artist - Song") (some "Various") none)
        World.init).g_state.title = some "Song" ∧
      lyricwiki_playback_began (plain_host split_config)
        (Track.mk "file:///m/a.mp3" (some "Artist - Song") (some "Various") none) World.init
        = playback_began_lookup (plain_host split_config)
          (Track.mk "file:///m/a.mp3" (some "Artist - Song") (some "Various") none)
          (playback_began_identity (plain_host split_config)
            (Track.mk "file:///m/a.mp3" (some "Artist - Song") (some "Various") none)
            World.init) ∧
      (lyricwiki_playback_began (plain_host split_config)
        (Track.mk "file:///m/a.mp3" (some "Artist - Song") (some "Various") none)
        World.init).g_state.artist = some "Artist" ∧
      (lyricwiki_playback_began (plain_host split_config)
        (Track.mk "file:///m/a.mp3" (some "Artist - Song") (some "Various") none)
        World.init).g_state.title = some "Song") ∧
    split_pattern "-" ((Track.mk "file:///m/a.mp3" (some "Song") (some "Various")
      none).title.getD "").data = none ∧
    ((playback_began_identity (plain_host split_config)
        (Track.mk "file:///m/a.mp3" (some "Song") (some "Various") none)
        World.init).g_state.artist
      = (Track.mk "file:///m/a.mp3" (some "Song") (some "Various") none).artist ∧
    (playback_began_identity (plain_host split_config)
        (Track.mk "file:///m/a.mp3" (some "Song") (some "Various") none)
        World.init).g_state.title
      = (Track.mk "file:///m/a.mp3" (some "Song") (some "Various") none).title) :=
  ⟨rfl, rfl, rfl, by decide,
   (title_split_on_dash (plain_host split_config)
      (Track.mk "file:///m/a.mp3" (some "Artist - Song") (some "Various") none) World.init
      rfl rfl).1 "Artist" "Song" (by decide) (by decide) (by decide) (by decide)
      (by decide) (Or.inl rfl),
   by decide,
   (title_split_on_dash (plain_host split_config)
      (Track.mk "file:///m/a.mp3" (some "Song") (some "Various") none) World.init
      rfl rfl).2 (by decide)⟩

/-- C9 (counterexamples). With split-on-chars "-": the title
"Artist -  Song", which is "Artist" ++ " - " ++ " Song", gives the working
title "Song" and not " Song", since the white space after the "-" is consumed
whole; and with truncate-fields-on-chars enabled (truncate-on-chars "|") the
title "X | Y - Song", which is "X | Y" ++ " - " ++ "Song", gives the working
artist "Y" and not "X | Y". Neither half contains a "-" or a line break. -/
theorem title_split_counterexample :
    "Artist -  Song" = "Artist" ++ " - " ++ " Song" ∧
    (playback_began_identity (plain_host split_config)
      (Track.mk "file:///m/a.mp3" (some "Artist -  Song") (some "Various") none)
      World.init).g_state.title = some "Song" ∧
    (playback_began_identity (plain_host split_config)
      (Track.mk "file:///m/a.mp3" (some "Artist -  Song") (some "Various") none)
      World.init).g_state.title ≠ some " Song" ∧
    "X | Y - Song" = "X | Y" ++ " - " ++ "Song" ∧
    (playback_began_identity (plain_host split_truncate_config)
      (Track.mk "file:///m/a.mp3" (some "X | Y - Song") (some "Various") none)
      World.init).g_state.artist = some "Y" ∧
    (playback_began_identity (plain_host split_truncate_config)
      (Track.mk "file:///m/a.mp3" (some "X | Y - Song") (some "Various") none)
      World.init).g_state.artist ≠ some "X | Y" := by
  decide

end LyricWiki

namespace LyricWiki

/-! ## C11: outcomes of the lyrics.ovh callback -/

theorem unable_ne_not_found (what uri : String) (h : what.data.head? = some 'U') :
    str_concat [what, uri] ≠ "Lyrics could not be found." := by
  intro heq
  have hd := congrArg String.data heq
  simp only [str_concat, List.foldl, String.data_append] at hd
  have hh := congrArg List.head? hd
  rcases hw : what.data with _ | ⟨c, cs⟩
  · rw [hw] at h
    simp at h
  · rw [hw] at h hh
    simp at h
    subst h
    simp at hh

/-- C11. For every response delivered to the lyrics.ovh callback: an empty body
gives the page titled "Error", without artist, with the text "Unable to
fetch " followed by the URL; a non-empty body that is not a JSON object gives
the same page with "Unable to parse " followed by the URL; a JSON object
without a member `lyrics` gives the page of the current title and artist
with the text "Lyrics could not be found.". The two error texts differ from
the not-found text. In all three cases `g_state` changes only in its error
flag (its lyrics stay as they were), no file changes and no VFS call is
made. -/
theorem ovh_outcome_classification (H : Host) (state : LyricsState) (uri : String) (buf : Buf)
    (w : World) :
    (buf.len = 0 →
      (run_handler H (Handler.ovh_fetch state) uri buf w).textedit
        = w.textedit.map (fun _ =>
            Display.page (some "Error") none (some (str_concat ["Unable to fetch ", uri])))) ∧
    (buf.len ≠ 0 → (∀ members, buf.json ≠ some (JsonDoc.object members)) →
      (run_handler H (Handler.ovh_fetch state) uri buf w).textedit
        = w.textedit.map (fun _ =>
            Display.page (some "Error") none (some (str_concat ["Unable to parse ", uri])))) ∧
    (buf.len ≠ 0 → (∀ members, buf.json = some (JsonDoc.object members) →
      members.lookup "lyrics" = none →
      (run_handler H (Handler.ovh_fetch state) uri buf w).textedit
        = w.textedit.map (fun _ =>
            Display.page w.g_state.title w.g_state.artist
              (some "Lyrics could not be found.")))) ∧
    str_concat ["Unable to fetch ", uri] ≠ "Lyrics could not be found." ∧
    str_concat ["Unable to parse ", uri] ≠ "Lyrics could not be found." ∧
    ((buf.len = 0 ∨ (∀ members, buf.json ≠ some (JsonDoc.object members)) ∨
        (∃ members, buf.json = some (JsonDoc.object members) ∧
          members.lookup "lyrics" = none)) →
      (run_handler H (Handler.ovh_fetch state) uri buf w).g_state
        = { w.g_state with error := true } ∧
      (run_handler H (Handler.ovh_fetch state) uri buf w).g_state.lyrics = w.g_state.lyrics ∧
      (run_handler H (Handler.ovh_fetch state) uri buf w).files = w.files ∧
      (run_handler H (Handler.ovh_fetch state) uri buf w).log = w.log) := by
  refine ⟨?_, ?_, ?_, unable_ne_not_found _ _ (by decide), unable_ne_not_found _ _ (by decide),
    ?_⟩
  · intro h0
    simp [run_handler, LyricsOVHProvider.fetch_cb, h0, update_lyrics_window_error_frame]
  · intro h0 hno
    rcases hj : buf.json with _ | doc
    · simp [run_handler, LyricsOVHProvider.fetch_cb, h0, hj, update_lyrics_window_error_frame]
    · cases doc with
      | object members => exact absurd hj (hno members)
      | array =>
        simp [run_handler, LyricsOVHProvider.fetch_cb, h0, hj,
          update_lyrics_window_error_frame]
  · intro h0 members hj hl
    simp [run_handler, LyricsOVHProvider.fetch_cb, h0, hj, hl,
      update_lyrics_window_notfound_frame]
  · intro hcase
    by_cases h0 : buf.len = 0
    · simp [run_handler, LyricsOVHProvider.fetch_cb, h0, update_lyrics_window_error_frame]
    · rcases hj : buf.json with _ | doc
      · simp [run_handler, LyricsOVHProvider.fetch_cb, h0, hj,
          update_lyrics_window_error_frame]
      · cases doc with
        | array =>
          simp [run_handler, LyricsOVHProvider.fetch_cb, h0, hj,
            update_lyrics_window_error_frame]
        | object members =>
          rcases hcase with h | h | ⟨m2, hm2, hl⟩
          · exact absurd h h0
          · exact absurd hj (h members)
          · rw [hj] at hm2
            have hmm : members = m2 := by simpa using hm2
            subst hmm
            simp [run_handler, LyricsOVHProvider.fetch_cb, h0, hj, hl,
              update_lyrics_window_notfound_frame]


/-- The three outcomes on sample responses for the request of `demo_track`: an
empty body, a JSON array and a JSON object without `lyrics`. -/
theorem ovh_outcome_classification_witness :
    (run_handler (plain_host defaults) (Handler.ovh_fetch demo_state)
        "https://api.lyrics.ovh/v1/A/T" (Buf.mk 0 none none)
        (lyricwiki_playback_began (plain_host defaults) demo_track World.init)).textedit
      = some (Display.page (some "Error") none
          (some "Unable to fetch https://api.lyrics.ovh/v1/A/T")) ∧
    (run_handler (plain_host defaults) (Handler.ovh_fetch demo_state)
        "https://api.lyrics.ovh/v1/A/T" (Buf.mk 2 none (some JsonDoc.array))
        (lyricwiki_playback_began (plain_host defaults) demo_track World.init)).textedit
      = some (Display.page (some "Error") none
          (some "Unable to parse https://api.lyrics.ovh/v1/A/T")) ∧
    (run_handler (plain_host defaults) (Handler.ovh_fetch demo_state)
        "https://api.lyrics.ovh/v1/A/T"
        (Buf.mk 27 none (some (JsonDoc.object [("error", JsonValue.str "No lyrics found")])))
        (lyricwiki_playback_began (plain_host defaults) demo_track World.init)).textedit
      = some (Display.page (some "T") (some "A") (some "Lyrics could not be found.")) ∧
    (run_handler (plain_host defaults) (Handler.ovh_fetch demo_state)
        "https://api.lyrics.ovh/v1/A/T"
        (Buf.mk 27 none (some (JsonDoc.object [("error", JsonValue.str "No lyrics found")])))
        (lyricwiki_playback_began (plain_host defaults) demo_track World.init)).files
      = [] :=
  ⟨((ovh_outcome_classification (plain_host defaults) demo_state
      "https://api.lyrics.ovh/v1/A/T" (Buf.mk 0 none none)
      (lyricwiki_playback_began (plain_host defaults) demo_track World.init)).1 rfl).trans
      (by decide),
   ((ovh_outcome_classification (plain_host defaults) demo_state
      "https://api.lyrics.ovh/v1/A/T" (Buf.mk 2 none (some JsonDoc.array))
      (lyricwiki_playback_began (plain_host defaults) demo_track World.init)).2.1
      (by decide) (fun _ h => by cases h)).trans (by decide),
   ((ovh_outcome_classification (plain_host defaults) demo_state
      "https://api.lyrics.ovh/v1/A/T"
      (Buf.mk 27 none (some (JsonDoc.object [("error", JsonValue.str "No lyrics found")])))
      (lyricwiki_playback_began (plain_host defaults) demo_track World.init)).2.2.1
      (by decide) [("error", JsonValue.str "No lyrics found")] rfl (by decide)).trans
      (by decide),
   by decide⟩

/-! ## C12, C15, C17: runs of the code -/

/-- C12 (run of the code). The request of `demo_track` at lyrics.ovh completes
with a JSON object whose member `lyrics` is the empty string: the callback
commits the result as found, with empty lyrics, source `LyricsOVH` and the
error flag cleared, shows the page of the song with an empty text and writes
an empty cache file. With a member `lyrics` that is not a string it commits
null lyrics with source `LyricsOVH` and reaches `strlen` of a null pointer in
`FileProvider::cache`. The chartlyrics fetch callback, given a `Lyric` element
with empty text, shows the not-found text and writes nothing. -/
theorem ovh_commits_empty_lyrics :
    (run_handler (plain_host defaults) (Handler.ovh_fetch demo_state)
        "https://api.lyrics.ovh/v1/A/T" (json_lyrics "")
        (lyricwiki_playback_began (plain_host defaults) demo_track World.init)).g_state
      = LyricsState.mk (some "file:///m/a.mp3") (some "T") (some "A") (some "")
          Source.LyricsOVH false ∧
    (run_handler (plain_host defaults) (Handler.ovh_fetch demo_state)
        "https://api.lyrics.ovh/v1/A/T" (json_lyrics "")
        (lyricwiki_playback_began (plain_host defaults) demo_track World.init)).textedit
      = some (Display.page (some "T") (some "A") (some "")) ∧
    (run_handler (plain_host defaults) (Handler.ovh_fetch demo_state)
        "https://api.lyrics.ovh/v1/A/T" (json_lyrics "")
        (lyricwiki_playback_began (plain_host defaults) demo_track World.init)).files
      = [("file:///home/u/.config/audacious/lyrics/A/T.lrc", VFile.mk true "")] ∧
    (run_handler (plain_host defaults) (Handler.ovh_fetch demo_state)
        "https://api.lyrics.ovh/v1/A/T"
        (Buf.mk 12 none (some (JsonDoc.object [("lyrics", JsonValue.other)])))
        (lyricwiki_playback_began (plain_host defaults) demo_track World.init)).g_state
      = LyricsState.mk (some "file:///m/a.mp3") (some "T") (some "A") none
          Source.LyricsOVH false ∧
    (run_handler (plain_host defaults) (Handler.ovh_fetch demo_state)
        "https://api.lyrics.ovh/v1/A/T"
        (Buf.mk 12 none (some (JsonDoc.object [("lyrics", JsonValue.other)])))
        (lyricwiki_playback_began (plain_host defaults) demo_track World.init)).crashed
      = true ∧
    (run_handler (plain_host defaults) (Handler.chart_fetch demo_state)
        "http://api.chartlyrics.com/apiv1.asmx/GetLyric?lyricId=5&lyricCheckSum=abc"
        (Buf.mk 90 (some (XmlDoc.mk [XmlNode.mk true "Lyric" (some "") []])) none)
        (lyricwiki_playback_began (plain_host defaults) demo_track World.init)).textedit
      = some (Display.page (some "T") (some "A") (some "Lyrics could not be found.")) ∧
    (run_handler (plain_host defaults) (Handler.chart_fetch demo_state)
        "http://api.chartlyrics.com/apiv1.asmx/GetLyric?lyricId=5&lyricCheckSum=abc"
        (Buf.mk 90 (some (XmlDoc.mk [XmlNode.mk true "Lyric" (some "") []])) none)
        (lyricwiki_playback_began (plain_host defaults) demo_track World.init)).files
      = [] := by
  decide

/-- C15 (run of the code). `demo_track` has artist and title, lyrics.ovh is
configured, and a regular file that cannot be read exists at the sibling
lyric path: `FileProvider::match` answers true although `g_state.lyrics`
stays null, no remote request is made and the not-found text is shown. The
same happens when the unreadable file is the cache entry. With an empty
sibling file the lookup ends with empty lyrics and no remote request. -/
theorem file_match_preempts_without_lyrics :
    (remote_source (plain_host defaults) = some LyricProvider.lyrics_ovh_provider) ∧
    (FileProvider.match_ (plain_host defaults) demo_state
      { world_with_files [("file:///m/a.lrc", VFile.mk false "la la")] with
        g_state := demo_state }).1 = true ∧
    (FileProvider.match_ (plain_host defaults) demo_state
      { world_with_files [("file:///m/a.lrc", VFile.mk false "la la")] with
        g_state := demo_state }).2.g_state.lyrics = none ∧
    (lyricwiki_playback_began (plain_host defaults) demo_track
      (world_with_files [("file:///m/a.lrc", VFile.mk false "la la")])).log
      = [Effect.test_file "file:///m/a.lrc", Effect.read_file "file:///m/a.lrc"] ∧
    (lyricwiki_playback_began (plain_host defaults) demo_track
      (world_with_files [("file:///m/a.lrc", VFile.mk false "la la")])).textedit
      = some (Display.page (some "T") (some "A") (some "Lyrics could not be found.")) ∧
    (lyricwiki_playback_began (plain_host defaults) demo_track
      (world_with_files
        [("file:///home/u/.config/audacious/lyrics/A/T.lrc", VFile.mk false "la la")])).log
      = [Effect.test_file "file:///m/a.lrc",
         Effect.mkdir_with_parents "/home/u/.config/audacious/lyrics/A",
         Effect.test_file "file:///home/u/.config/audacious/lyrics/A/T.lrc",
         Effect.mkdir_with_parents "/home/u/.config/audacious/lyrics/A",
         Effect.read_file "file:///home/u/.config/audacious/lyrics/A/T.lrc"] ∧
    (lyricwiki_playback_began (plain_host defaults) demo_track
      (world_with_files
        [("file:///home/u/.config/audacious/lyrics/A/T.lrc", VFile.mk false "la la")])).g_state.lyrics
      = none ∧
    (lyricwiki_playback_began (plain_host defaults) demo_track
      (world_with_files [("file:///m/a.lrc", VFile.mk true "")])).g_state.lyrics
      = some "" ∧
    (lyricwiki_playback_began (plain_host defaults) demo_track
      (world_with_files [("file:///m/a.lrc", VFile.mk true "")])).log
      = [Effect.test_file "file:///m/a.lrc", Effect.read_file "file:///m/a.lrc"] := by
  decide

/-- C17 (run of the code). A song with embedded lyrics is resolved (source
`Embedded`); then `demo_track` begins and its lookup goes to lyrics.ovh. While
the request is pending `g_state.source` is still `Embedded`, and it still is
after the request ends not-found. Likewise the error flag set by a first
lookup that ended not-found is still set while the lookup of the next song
awaits its remote provider. -/
theorem playback_began_keeps_source_and_error :
    (lyricwiki_playback_began (plain_host defaults)
      (Track.mk "file:///m/e.mp3" (some "E") (some "A") (some "words")) World.init).g_state.source
      = Source.Embedded ∧
    (lyricwiki_playback_began (plain_host defaults) demo_track
      (lyricwiki_playback_began (plain_host defaults)
        (Track.mk "file:///m/e.mp3" (some "E") (some "A") (some "words")) World.init)).g_state
      = LyricsState.mk (some "file:///m/a.mp3") (some "T") (some "A") none Source.Embedded
          false ∧
    (lyricwiki_playback_began (plain_host defaults) demo_track
      (lyricwiki_playback_began (plain_host defaults)
        (Track.mk "file:///m/e.mp3" (some "E") (some "A") (some "words")) World.init)).log
      = [Effect.test_file "file:///m/a.lrc",
         Effect.mkdir_with_parents "/home/u/.config/audacious/lyrics/A",
         Effect.test_file "file:///home/u/.config/audacious/lyrics/A/T.lrc",
         Effect.async_get "https://api.lyrics.ovh/v1/A/T"
           (Handler.ovh_fetch (LyricsState.mk (some "file:///m/a.mp3") (some "T") (some "A")
             none Source.Embedded false))] ∧
    (run_handler (plain_host defaults)
      (Handler.ovh_fetch (LyricsState.mk (some "file:///m/a.mp3") (some "T") (some "A")
        none Source.Embedded false))
      "https://api.lyrics.ovh/v1/A/T"
      (Buf.mk 27 none (some (JsonDoc.object [("error", JsonValue.str "No lyrics found")])))
      (lyricwiki_playback_began (plain_host defaults) demo_track
        (lyricwiki_playback_began (plain_host defaults)
          (Track.mk "file:///m/e.mp3" (some "E") (some "A") (some "words"))
          World.init))).g_state
      = LyricsState.mk (some "file:///m/a.mp3") (some "T") (some "A") none Source.Embedded
          true ∧
    (lyricwiki_playback_began (plain_host defaults) demo_track2
      (run_handler (plain_host defaults) (Handler.ovh_fetch demo_state)
        "https://api.lyrics.ovh/v1/A/T"
        (Buf.mk 27 none (some (JsonDoc.object [("error", JsonValue.str "No lyrics found")])))
        (lyricwiki_playback_began (plain_host defaults) demo_track World.init))).g_state
      = LyricsState.mk (some "file:///m/b.mp3") (some "T2") (some "A2") none Source.None
          true := by
  decide


/-! ## C13, C14: after the file provider -/

theorem cache_uri_for_entry_log (H : Host) (state : LyricsState) (w : World) :
    ∀ uri cb, Effect.async_get uri cb ∈ (FileProvider.cache_uri_for_entry H state w).2.log →
      Effect.async_get uri cb ∈ w.log := by
  intro uri cb
  unfold FileProvider.cache_uri_for_entry
  rcases state.artist with _ | a <;> rcases state.title with _ | t <;>
    simp [g_mkdir_with_parents]

theorem file_match_false (H : Host) (state : LyricsState) (w : World)
    (h : (FileProvider.match_ H state w).1 = false) :
    (FileProvider.match_ H state w).2.g_state = w.g_state ∧
    (FileProvider.match_ H state w).2.files = w.files ∧
    (FileProvider.match_ H state w).2.textedit = w.textedit ∧
    (FileProvider.match_ H state w).2.chart_lyrics_provider = w.chart_lyrics_provider ∧
    (∀ uri cb, Effect.async_get uri cb ∈ (FileProvider.match_ H state w).2.log →
      Effect.async_get uri cb ∈ w.log) := by
  rcases hp : FileProvider.local_uri_for_entry H state with _ | path
  · simp [FileProvider.match_, hp]
  · simp only [FileProvider.match_, hp] at h ⊢
    have hc := cache_uri_for_entry_frame H state (test_file path w).2
    have hl := cache_uri_for_entry_log H state (test_file path w).2
    by_cases ht : (test_file path w).1 = true
    · rw [if_pos ht] at h
      simp at h
    · rw [if_neg ht] at h ⊢
      rcases hcu : (FileProvider.cache_uri_for_entry H state (test_file path w).2).1
        with _ | cpath
      · simp only
        refine ⟨hc.1, hc.2.1, hc.2.2.1, hc.2.2.2, ?_⟩
        intro uri cb hm
        simpa [test_file] using hl uri cb hm
      · rw [hcu] at h
        simp only at h ⊢
        by_cases ht2 : (test_file cpath
            (FileProvider.cache_uri_for_entry H state (test_file path w).2).2).1 = true
        · rw [if_pos ht2] at h
          simp at h
        · rw [if_neg ht2]
          refine ⟨hc.1, hc.2.1, hc.2.2.1, hc.2.2.2, ?_⟩
          intro uri cb hm
          have hm2 : Effect.async_get uri cb ∈
              (FileProvider.cache_uri_for_entry H state (test_file path w).2).2.log := by
            simpa [test_file] using hm
          simpa [test_file] using hl uri cb hm2

theorem file_provider_step_false (H : Host) (w : World)
    (h : (file_provider_step H w).1 = false) :
    (file_provider_step H w).2.g_state = w.g_state ∧
    (file_provider_step H w).2.files = w.files ∧
    (file_provider_step H w).2.textedit = w.textedit ∧
    (file_provider_step H w).2.chart_lyrics_provider = w.chart_lyrics_provider ∧
    (∀ uri cb, Effect.async_get uri cb ∈ (file_provider_step H w).2.log →
      Effect.async_get uri cb ∈ w.log) := by
  unfold file_provider_step at h ⊢
  by_cases hfp : H.cfg.enable_file_provider = false
  · simp [hfp]
  · rw [if_neg hfp] at h ⊢
    exact file_match_false H w.g_state w h

theorem playback_began_lookup_no_match (H : Host) (track : Track) (w : World)
    (hemb : H.cfg.use_embedded = false ∨ track.lyrics = none ∨ track.lyrics = some "")
    (h : (file_provider_step H w).1 = false) :
    playback_began_lookup H track w = playback_began_remote H (file_provider_step H w).2 := by
  have hemb2 : (if H.cfg.use_embedded = true then
      match track.lyrics with
      | some embedded_lyrics => if embedded_lyrics ≠ "" then some embedded_lyrics else none
      | none => none
    else none) = none := by
    rcases hemb with h | h | h <;> simp [h]
  unfold playback_began_lookup
  simp only [hemb2]
  unfold file_provider_step at h ⊢
  by_cases hfp : H.cfg.enable_file_provider = false
  · simp [hfp]
  · rw [if_neg hfp] at h ⊢
    simp [hfp, h]


/-- The missing identity where the file provider returns. When the embedded
short-circuit does not apply, the file provider is disabled or has answered
that nothing matched (and has returned, without a null pointer reaching
`filename_build`), and the working artist or the working title is null, `lyricwiki_playback_began` ends with the page titled
"Error" and the text "Missing title and/or artist.", the error flag set and
null lyrics; it issues no remote request, whatever remote-source is, and
changes no file. -/
theorem missing_identity_error (H : Host) (track : Track) (w : World)
    (hemb : H.cfg.use_embedded = false ∨ track.lyrics = none ∨ track.lyrics = some "")
    (hmiss : (playback_began_identity H track w).g_state.artist = none ∨
      (playback_began_identity H track w).g_state.title = none)
    (hstep : (file_provider_step H (playback_began_identity H track w)).1 = false)
    (hok : (file_provider_step H (playback_began_identity H track w)).2.crashed = w.crashed) :
    (lyricwiki_playback_began H track w).textedit
      = w.textedit.map (fun _ =>
          Display.page (some "Error") none (some "Missing title and/or artist.")) ∧
    (lyricwiki_playback_began H track w).g_state.error = true ∧
    (lyricwiki_playback_began H track w).g_state.lyrics = none ∧
    (∀ uri cb, Effect.async_get uri cb ∈ (lyricwiki_playback_began H track w).log →
      Effect.async_get uri cb ∈ w.log) ∧
    (lyricwiki_playback_began H track w).files = w.files ∧
    (lyricwiki_playback_began H track w).crashed = w.crashed := by
  have hfr := playback_began_identity_frame H track w
  have hst := playback_began_identity_state H track w
  have hs := file_provider_step_false H (playback_began_identity H track w) hstep
  have hmiss2 : (file_provider_step H (playback_began_identity H track w)).2.g_state.artist
      = none ∨
      (file_provider_step H (playback_began_identity H track w)).2.g_state.title = none := by
    rw [hs.1]; exact hmiss
  unfold lyricwiki_playback_began
  rw [playback_began_lookup_no_match H track _ hemb hstep]
  unfold playback_began_remote
  rw [if_pos hmiss2]
  refine ⟨?_, ?_, ?_, ?_, ?_, ?_⟩
  · rw [(update_lyrics_window_error_frame _ _).2.2.2.2, hs.2.2.1, hfr.2.2.1]
  · rw [(update_lyrics_window_error_frame _ _).2.2.2.1]
  · rw [(update_lyrics_window_error_frame _ _).2.2.2.1]
    show (file_provider_step H (playback_began_identity H track w)).2.g_state.lyrics = none
    rw [hs.1, hst.2.1]
  · intro uri cb hm
    rw [(update_lyrics_window_error_frame _ _).2.1] at hm
    have := hs.2.2.2.2 uri cb hm
    rwa [hfr.2.1] at this
  · rw [(update_lyrics_window_error_frame _ _).1, hs.2.1, hfr.1]
  · simp only [update_lyrics_window_error]
    rw [(update_lyrics_window_frame _ _ _ _).2.2.2.2, hok]

/-- A local song whose tuple has a title but no artist, with lyrics.ovh
configured and no lyric file: the fixed error text is shown and the only VFS
call is the existence test of the sibling file. -/
theorem missing_identity_error_example :
    ((plain_host defaults).cfg.use_embedded = false ∨
      (Track.mk "file:///m/a.mp3" (some "T") none none).lyrics = none ∨
      (Track.mk "file:///m/a.mp3" (some "T") none none).lyrics = some "") ∧
    (playback_began_identity (plain_host defaults)
      (Track.mk "file:///m/a.mp3" (some "T") none none) World.init).g_state.artist = none ∧
    (file_provider_step (plain_host defaults)
      (playback_began_identity (plain_host defaults)
        (Track.mk "file:///m/a.mp3" (some "T") none none) World.init)).1 = false ∧
    ((lyricwiki_playback_began (plain_host defaults)
        (Track.mk "file:///m/a.mp3" (some "T") none none) World.init).textedit
      = World.init.textedit.map (fun _ =>
          Display.page (some "Error") none (some "Missing title and/or artist.")) ∧
    (lyricwiki_playback_began (plain_host defaults)
        (Track.mk "file:///m/a.mp3" (some "T") none none) World.init).g_state.error = true ∧
    (lyricwiki_playback_began (plain_host defaults)
        (Track.mk "file:///m/a.mp3" (some "T") none none) World.init).g_state.lyrics = none ∧
    (∀ uri cb, Effect.async_get uri cb ∈ (lyricwiki_playback_began (plain_host defaults)
        (Track.mk "file:///m/a.mp3" (some "T") none none) World.init).log →
      Effect.async_get uri cb ∈ World.init.log) ∧
    (lyricwiki_playback_began (plain_host defaults)
        (Track.mk "file:///m/a.mp3" (some "T") none none) World.init).files
      = World.init.files ∧
    (lyricwiki_playback_began (plain_host defaults)
        (Track.mk "file:///m/a.mp3" (some "T") none none) World.init).crashed
      = World.init.crashed) ∧
    (lyricwiki_playback_began (plain_host defaults)
        (Track.mk "file:///m/a.mp3" (some "T") none none) World.init).log
      = [Effect.test_file "file:///m/a.lrc"] :=
  ⟨Or.inr (Or.inl rfl), by decide, by decide,
   missing_identity_error (plain_host defaults)
    (Track.mk "file:///m/a.mp3" (some "T") none none) World.init
    (Or.inr (Or.inl rfl)) (Or.inl (by decide)) (by decide) (by decide),
   by decide⟩

/-- C13 (run of the code). A local song reports the artist "A" and no title;
it has no embedded lyrics and no lyric file next to it, and the configuration
is the default one (file provider enabled). The file provider finds no
sibling file and goes on to the cache lookup: `cache_uri_for_entry` creates
the directory of the artist and then passes the null title to
`filename_build`. This happens inside `FileProvider::match`, before
`lyricwiki_playback_began` reaches its check of artist and title: the run
dereferences a null pointer instead of ending with the text "Missing title
and/or artist.". The calls made up to that point are the existence test of
the sibling file and the creation of the directory. -/
theorem missing_title_reaches_filename_build :
    demo_track_untitled.artist = some "A" ∧ demo_track_untitled.title = none ∧
    demo_track_untitled.lyrics = none ∧
    (plain_host defaults).cfg.enable_file_provider = true ∧
    (playback_began_identity (plain_host defaults) demo_track_untitled World.init).g_state
      = LyricsState.mk (some "file:///m/a.mp3") none (some "A") none Source.None false ∧
    FileProvider.local_uri_for_entry (plain_host defaults)
      (playback_began_identity (plain_host defaults) demo_track_untitled World.init).g_state
      = some "file:///m/a.lrc" ∧
    (test_file "file:///m/a.lrc"
      (playback_began_identity (plain_host defaults) demo_track_untitled World.init)).1
      = false ∧
    (FileProvider.cache_uri_for_entry (plain_host defaults)
      (playback_began_identity (plain_host defaults) demo_track_untitled World.init).g_state
      (test_file "file:///m/a.lrc"
        (playback_began_identity (plain_host defaults) demo_track_untitled
          World.init)).2).2.crashed
      = true ∧
    (FileProvider.match_ (plain_host defaults)
      (playback_began_identity (plain_host defaults) demo_track_untitled World.init).g_state
      (playback_began_identity (plain_host defaults) demo_track_untitled
        World.init)).2.crashed
      = true ∧
    (FileProvider.match_ (plain_host defaults)
      (playback_began_identity (plain_host defaults) demo_track_untitled World.init).g_state
      (playback_began_identity (plain_host defaults) demo_track_untitled World.init)).2.log
      = [Effect.test_file "file:///m/a.lrc",
         Effect.mkdir_with_parents "/home/u/.config/audacious/lyrics/A"] ∧
    (lyricwiki_playback_began (plain_host defaults) demo_track_untitled World.init).crashed
      = true := by
  decide

/-- C14. When the embedded short-circuit does not apply, the file provider is
disabled or has answered that nothing matched, and the working artist and
title are both present, `lyricwiki_playback_began` makes, after the calls of
the file provider (none of them a remote request), exactly one further VFS
call when remote-source is "chartlyrics.com" (the `SearchLyric` request, with
the search callback of this state) or "lyrics.ovh" (the request for
`https://api.lyrics.ovh/v1/<artist>/<title>`, with the lyrics.ovh callback of
this state), and none for any other value: then `remote_source` returns no
provider and the lookup ends with the not-found text, the error flag set and
null lyrics. -/
theorem remote_dispatch_by_configuration (H : Host) (track : Track) (w : World)
    (artist title : String)
    (hemb : H.cfg.use_embedded = false ∨ track.lyrics = none ∨ track.lyrics = some "")
    (hart : (playback_began_identity H track w).g_state.artist = some artist)
    (htit : (playback_began_identity H track w).g_state.title = some title)
    (hstep : (file_provider_step H (playback_began_identity H track w)).1 = false) :
    (H.cfg.remote_source = "chartlyrics.com" →
      (lyricwiki_playback_began H track w).log
        = (file_provider_step H (playback_began_identity H track w)).2.log ++
          [Effect.async_get (ChartLyricsProvider.match_uri H artist title)
            (Handler.chart_match (playback_began_identity H track w).g_state)]) ∧
    (H.cfg.remote_source = "lyrics.ovh" →
      (lyricwiki_playback_began H track w).log
        = (file_provider_step H (playback_began_identity H track w)).2.log ++
          [Effect.async_get
            (str_concat ["https://api.lyrics.ovh/v1/", H.str_encode_percent artist, "/",
              H.str_encode_percent title])
            (Handler.ovh_fetch (playback_began_identity H track w).g_state)]) ∧
    (H.cfg.remote_source ≠ "chartlyrics.com" → H.cfg.remote_source ≠ "lyrics.ovh" →
      remote_source H = none ∧
      (lyricwiki_playback_began H track w).log
        = (file_provider_step H (playback_began_identity H track w)).2.log ∧
      (lyricwiki_playback_began H track w).textedit
        = w.textedit.map (fun _ =>
            Display.page (some title) (some artist) (some "Lyrics could not be found.")) ∧
      (lyricwiki_playback_began H track w).g_state.error = true ∧
      (lyricwiki_playback_began H track w).g_state.lyrics = none) ∧
    (∀ uri cb, Effect.async_get uri cb ∈
        (file_provider_step H (playback_began_identity H track w)).2.log →
      Effect.async_get uri cb ∈ w.log) := by
  have hfr := playback_began_identity_frame H track w
  have hst := playback_began_identity_state H track w
  have hs := file_provider_step_false H (playback_began_identity H track w) hstep
  have hpres : ¬ ((file_provider_step H (playback_began_identity H track w)).2.g_state.artist
      = none ∨
      (file_provider_step H (playback_began_identity H track w)).2.g_state.title = none) := by
    rw [hs.1, hart, htit]; simp
  have hlook : lyricwiki_playback_began H track w
      = playback_began_remote H (file_provider_step H (playback_began_identity H track w)).2 := by
    unfold lyricwiki_playback_began
    exact playback_began_lookup_no_match H track _ hemb hstep
  rw [hlook]
  unfold playback_began_remote
  rw [if_neg hpres]
  refine ⟨?_, ?_, ?_, ?_⟩
  · intro hsrc
    simp only [remote_source, hsrc, if_true, LyricProvider.match_, ChartLyricsProvider.match_,
      hs.1, hart, htit, update_lyrics_window_message]
    rw [(update_lyrics_window_frame _ _ _ _).2.2.2.1]
    simp [vfs_async_file_get_contents]
  · intro hsrc
    have hne : ¬ (H.cfg.remote_source = "chartlyrics.com") := by rw [hsrc]; decide
    simp only [remote_source, hsrc, if_true, LyricProvider.match_, LyricsOVHProvider.match_,
      LyricsOVHProvider.fetch, hs.1, hart, htit, update_lyrics_window_message]
    rw [if_neg (by decide)]
    simp only
    rw [(update_lyrics_window_frame _ _ _ _).2.2.2.1]
    simp [vfs_async_file_get_contents]
  · intro h1 h2
    have hnone : remote_source H = none := by simp [remote_source, h1, h2]
    rw [hnone]
    simp only
    have hlyr : (file_provider_step H (playback_began_identity H track w)).2.g_state.lyrics
        = none := by rw [hs.1, hst.2.1]
    unfold playback_began_finish
    rw [if_pos hlyr]
    refine ⟨trivial, ?_, ?_, ?_, ?_⟩
    · rw [(update_lyrics_window_notfound_frame _ _).2.1]
    · rw [(update_lyrics_window_notfound_frame _ _).2.2.2.2, hs.2.2.1, hfr.2.2.1, hs.1, hart,
        htit]
    · rw [(update_lyrics_window_notfound_frame _ _).2.2.2.1]
    · rw [(update_lyrics_window_notfound_frame _ _).2.2.2.1]
      exact hlyr
  · intro uri cb hm
    have := hs.2.2.2.2 uri cb hm
    rwa [hfr.2.1] at this


/-- The song `demo_track` with no lyric file anywhere, under the three kinds of
remote-source: one `SearchLyric` request, one lyrics.ovh request, or no
request and the not-found text. -/
theorem remote_dispatch_by_configuration_witness :
    (lyricwiki_playback_began (plain_host chart_config) demo_track World.init).log
      = (file_provider_step (plain_host chart_config)
          (playback_began_identity (plain_host chart_config) demo_track World.init)).2.log ++
        [Effect.async_get (ChartLyricsProvider.match_uri (plain_host chart_config) "A" "T")
          (Handler.chart_match
            (playback_began_identity (plain_host chart_config) demo_track
              World.init).g_state)] ∧
    (lyricwiki_playback_began (plain_host chart_config) demo_track World.init).log
      = [Effect.test_file "file:///m/a.lrc",
         Effect.mkdir_with_parents "/home/u/.config/audacious/lyrics/A",
         Effect.test_file "file:///home/u/.config/audacious/lyrics/A/T.lrc",
         Effect.async_get "http://api.chartlyrics.com/apiv1.asmx/SearchLyric?artist=A&song=T"
           (Handler.chart_match demo_state)] ∧
    (lyricwiki_playback_began (plain_host defaults) demo_track World.init).log
      = [Effect.test_file "file:///m/a.lrc",
         Effect.mkdir_with_parents "/home/u/.config/audacious/lyrics/A",
         Effect.test_file "file:///home/u/.config/audacious/lyrics/A/T.lrc",
         Effect.async_get "https://api.lyrics.ovh/v1/A/T" (Handler.ovh_fetch demo_state)] ∧
    (lyricwiki_playback_began (plain_host nowhere_config) demo_track World.init).log
      = [Effect.test_file "file:///m/a.lrc",
         Effect.mkdir_with_parents "/home/u/.config/audacious/lyrics/A",
         Effect.test_file "file:///home/u/.config/audacious/lyrics/A/T.lrc"] ∧
    (lyricwiki_playback_began (plain_host nowhere_config) demo_track World.init).textedit
      = some (Display.page (some "T") (some "A") (some "Lyrics could not be found.")) :=
  ⟨(remote_dispatch_by_configuration (plain_host chart_config) demo_track World.init "A" "T"
      (Or.inr (Or.inl rfl)) (by decide) (by decide) (by decide)).1 rfl,
   by decide, by decide, by decide, by decide⟩

/-! ## C16: sibling lyric path -/

theorem strrchr_cut_none (c : Char) (l : List Char) (h : c ∉ l) : strrchr_cut c l = none := by
  induction l with
  | nil => rfl
  | cons x xs ih =>
    have hx : ¬ x = c := fun e => h (by simp [e])
    have hxs : c ∉ xs := fun m => h (List.mem_cons_of_mem x m)
    simp [strrchr_cut, ih hxs, hx]

theorem strrchr_cut_last (c : Char) (pre ext : List Char) (h : c ∉ ext) :
    strrchr_cut c (pre ++ c :: ext) = some pre := by
  induction pre with
  | nil => simp [strrchr_cut, strrchr_cut_none c ext h]
  | cons x xs ih => simp [strrchr_cut, ih]

/-- C16, as amended. `FileProvider::local_uri_for_entry` returns: for a file
name with the file scheme whose path is `dir/name.ext`, where `ext` contains
neither "." nor "/" (so the last "." of the path lies in its last component),
the URI of `dir/name.lrc`, in the same directory; the null string for a file
name with the file scheme whose path contains no "." at all; and the null
string for a file name with any other scheme. -/
theorem sibling_lyric_path (H : Host) (state : LyricsState) (uri : String)
    (hfile : state.filename = some uri) :
    (∀ dir name ext : String, H.uri_get_scheme uri = some "file" →
      H.uri_to_filename uri = dir ++ "/" ++ name ++ "." ++ ext →
      '.' ∉ ext.data → '/' ∉ ext.data →
      FileProvider.local_uri_for_entry H state
        = some (H.filename_to_uri (dir ++ "/" ++ name ++ ".lrc"))) ∧
    (H.uri_get_scheme uri = some "file" → '.' ∉ (H.uri_to_filename uri).data →
      FileProvider.local_uri_for_entry H state = none) ∧
    (H.uri_get_scheme uri ≠ some "file" → FileProvider.local_uri_for_entry H state = none) := by
  refine ⟨?_, ?_, ?_⟩
  · intro dir name ext hs hpath hdot _
    have hdata : (H.uri_to_filename uri).data
        = (dir.data ++ '/' :: name.data) ++ '.' :: ext.data := by
      rw [hpath]
      simp [String.data_append]
    have hcut := strrchr_cut_last '.' (dir.data ++ '/' :: name.data) ext.data hdot
    have hstr : str_concat [String.mk (dir.data ++ '/' :: name.data), ".lrc"]
        = dir ++ "/" ++ name ++ ".lrc" := by
      apply String.ext
      simp [str_concat, String.data_append]
    simp only [FileProvider.local_uri_for_entry, hfile, hs, ne_eq, not_true_eq_false,
      if_false, hdata, hcut, hstr]
  · intro hs hdot
    simp [FileProvider.local_uri_for_entry, hfile, hs, strrchr_cut_none '.' _ hdot]
  · intro hs
    simp [FileProvider.local_uri_for_entry, hfile, hs]

/-- The song /music/album/song.mp3 has the sibling path /music/album/song.lrc;
the song /music/song, without any ".", has none; a stream has none. -/
theorem sibling_lyric_path_witness :
    (LyricsState.mk (some "file:///music/album/song.mp3") none none none Source.None
      false).filename = some "file:///music/album/song.mp3" ∧
    (plain_host defaults).uri_get_scheme "file:///music/album/song.mp3" = some "file" ∧
    (plain_host defaults).uri_to_filename "file:///music/album/song.mp3"
      = "/music/album" ++ "/" ++ "song" ++ "." ++ "mp3" ∧
    FileProvider.local_uri_for_entry (plain_host defaults)
        (LyricsState.mk (some "file:///music/album/song.mp3") none none none Source.None false)
      = some ((plain_host defaults).filename_to_uri ("/music/album" ++ "/" ++ "song" ++ ".lrc")) ∧
    (plain_host defaults).filename_to_uri ("/music/album" ++ "/" ++ "song" ++ ".lrc")
      = "file:///music/album/song.lrc" ∧
    FileProvider.local_uri_for_entry (plain_host defaults)
        (LyricsState.mk (some "file:///music/song") none none none Source.None false)
      = none ∧
    FileProvider.local_uri_for_entry (plain_host defaults)
        (LyricsState.mk (some "http://radio.example/stream.mp3") none none none Source.None
          false)
      = none :=
  ⟨rfl, by decide, by decide,
   (sibling_lyric_path (plain_host defaults)
      (LyricsState.mk (some "file:///music/album/song.mp3") none none none Source.None false)
      "file:///music/album/song.mp3" rfl).1 "/music/album" "song" "mp3" (by decide) (by decide)
      (by decide) (by decide),
   by decide,
   (sibling_lyric_path (plain_host defaults)
      (LyricsState.mk (some "file:///music/song") none none none Source.None false)
      "file:///music/song" rfl).2.1 (by decide) (by decide),
   (sibling_lyric_path (plain_host defaults)
      (LyricsState.mk (some "http://radio.example/stream.mp3") none none none Source.None
        false)
      "http://radio.example/stream.mp3" rfl).2.2 (by decide)⟩

/-- C16 (counterexamples). For the track /music/my.album/song, whose file name
has no extension while a directory of its path contains a ".", the path
returned is /music/my.lrc: not in the directory of the track and not the file
name with ".lrc" appended. For the track /music/song, with no "." in its
path, no path is returned. -/
theorem sibling_lyric_path_counterexample :
    (plain_host defaults).uri_get_scheme "file:///music/my.album/song" = some "file" ∧
    FileProvider.local_uri_for_entry (plain_host defaults)
        (LyricsState.mk (some "file:///music/my.album/song") none none none Source.None false)
      = some "file:///music/my.lrc" ∧
    FileProvider.local_uri_for_entry (plain_host defaults)
        (LyricsState.mk (some "file:///music/my.album/song") none none none Source.None false)
      ≠ some "file:///music/my.album/song.lrc" ∧
    (plain_host defaults).uri_get_scheme "file:///music/song" = some "file" ∧
    FileProvider.local_uri_for_entry (plain_host defaults)
        (LyricsState.mk (some "file:///music/song") none none none Source.None false)
      = none := by
  decide


/-! ## C18, C19: where the patterns match -/

theorem re_spaces_run {α : Type} (k : List Char → Option α) (ws R : List Char) (r : α)
    (hne : ws ≠ []) (hws : ∀ c ∈ ws, is_space c = true)
    (hR : ∀ c, R.head? = some c → is_space c = false) (hk : k R = some r) :
    re_spaces k (ws ++ R) = some r := by
  induction ws with
  | nil => exact absurd rfl hne
  | cons x xs ih =>
    have hx : is_space x = true := hws x (List.mem_cons_self x xs)
    have hxs : ∀ c ∈ xs, is_space c = true := fun c hc => hws c (List.mem_cons_of_mem x hc)
    simp only [List.cons_append]
    unfold re_spaces
    rw [if_pos hx]
    rcases xs with _ | ⟨y, ys⟩
    · simp only [List.nil_append]
      rw [re_spaces_none_of_head k R hR]
      exact hk
    · rw [ih (by simp) hxs]

theorem re_dots_at_last {α : Type} (chars : String) (k : List Char → Option α)
    (P ws R : List Char) (s1 t : Char) (r : α)
    (hP : ∀ c ∈ P, is_newline c = false) (hs1 : is_space s1 = true)
    (ht : in_class chars t = true) (hne : ws ≠ []) (hws : ∀ c ∈ ws, is_space c = true)
    (hR : ∀ c, R.head? = some c → is_space c = false)
    (hlast : has_split_point chars (t :: (ws ++ R)) = false) (hk : k R = some r) :
    re_dots (re_spaces (re_class chars (re_spaces k))) (P ++ s1 :: t :: (ws ++ R))
      = some (P, r) := by
  have hnone1 : re_dots (re_spaces (re_class chars (re_spaces k))) (t :: (ws ++ R)) = none := by
    rcases hr : re_dots (re_spaces (re_class chars (re_spaces k))) (t :: (ws ++ R)) with _ | x
    · rfl
    · have := re_dots_split_point chars k _ x hr
      rw [hlast] at this
      exact absurd this (by simp)
  have hnone2 : re_spaces (re_class chars (re_spaces k)) (t :: (ws ++ R)) = none := by
    rcases hr : re_spaces (re_class chars (re_spaces k)) (t :: (ws ++ R)) with _ | x
    · rfl
    · have := re_spaces_split_point chars k _ x hr
      rw [hlast] at this
      exact absurd this (by simp)
  have hK : re_spaces (re_class chars (re_spaces k)) (s1 :: t :: (ws ++ R)) = some r := by
    unfold re_spaces
    rw [if_pos hs1, hnone2]
    simp only [re_class, ht, if_true]
    exact re_spaces_run k ws R r hne hws hR hk
  induction P with
  | nil =>
    simp only [List.nil_append]
    unfold re_dots
    by_cases hn : is_newline s1 = true
    · rw [if_pos hn, hK]; rfl
    · rw [if_neg hn, hnone1]
      simp only
      rw [hK]; rfl
  | cons p P2 ih =>
    have hp : is_newline p = false := hP p (List.mem_cons_self p P2)
    have hP2 : ∀ c ∈ P2, is_newline c = false :=
      fun c hc => hP c (List.mem_cons_of_mem p hc)
    simp only [List.cons_append]
    unfold re_dots
    simp [hp, ih hP2]

theorem split_pattern_at_last (chars : String) (P ws R : List Char) (s1 d : Char)
    (hP : ∀ c ∈ P, is_newline c = false) (hRl : ∀ c ∈ R, is_newline c = false)
    (hs1 : is_space s1 = true) (hd : in_class chars d = true) (hne : ws ≠ [])
    (hws : ∀ c ∈ ws, is_space c = true) (hR : ∀ c, R.head? = some c → is_space c = false)
    (hlast : has_split_point chars (d :: (ws ++ R)) = false) :
    split_pattern chars (P ++ s1 :: d :: (ws ++ R)) = some (P, R) := by
  unfold split_pattern
  rw [re_dots_at_last chars (re_dots re_end) P ws R s1 d (R, []) hP hs1 hd hne hws hR hlast
    (re_dots_end_line R hRl)]
  rfl

theorem remove_leading_at_last (chars : String) (P ws R : List Char) (s1 t : Char)
    (hP : ∀ c ∈ P, is_newline c = false) (hs1 : is_space s1 = true)
    (ht : in_class chars t = true) (hne : ws ≠ []) (hws : ∀ c ∈ ws, is_space c = true)
    (hR : ∀ c, R.head? = some c → is_space c = false)
    (hlast : has_split_point chars (t :: (ws ++ R)) = false) :
    remove_leading chars (P ++ s1 :: t :: (ws ++ R)) = R := by
  unfold remove_leading
  rw [re_dots_at_last chars re_done P ws R s1 t R hP hs1 ht hne hws hR hlast rfl]

theorem re_dots_group_line {α : Type} (k : List Char → Option α) (l : List Char)
    (r : List Char × α) (h : re_dots k l = some r) : ∀ c ∈ r.1, is_newline c = false := by
  induction l generalizing r with
  | nil =>
    unfold re_dots at h
    rcases hk : k [] with _ | x
    · rw [hk] at h; simp at h
    · rw [hk] at h
      simp at h
      subst h
      simp
  | cons c cs ih =>
    unfold re_dots at h
    by_cases hn : is_newline c = true
    · rw [if_pos hn] at h
      rcases hk : k (c :: cs) with _ | x
      · rw [hk] at h; simp at h
      · rw [hk] at h
        simp at h
        subst h
        simp
    · rw [if_neg hn] at h
      rcases hin : re_dots k cs with _ | gr
      · rw [hin] at h
        simp only at h
        rcases hk : k (c :: cs) with _ | x
        · rw [hk] at h; simp at h
        · rw [hk] at h
          simp at h
          subst h
          simp
      · rw [hin] at h
        simp only [Option.some.injEq] at h
        subst h
        intro d hd
        simp only [List.mem_cons] at hd
        rcases hd with hd | hd
        · subst hd
          simpa using hn
        · exact ih gr hin d hd

theorem re_dots_result {α : Type} (k : List Char → Option α) (l : List Char)
    (r : List Char × α) (h : re_dots k l = some r) : ∃ l2, k l2 = some r.2 := by
  induction l generalizing r with
  | nil =>
    unfold re_dots at h
    rcases hk : k [] with _ | x
    · rw [hk] at h; simp at h
    · rw [hk] at h
      simp at h
      subst h
      exact ⟨[], hk⟩
  | cons c cs ih =>
    unfold re_dots at h
    by_cases hn : is_newline c = true
    · rw [if_pos hn] at h
      rcases hk : k (c :: cs) with _ | x
      · rw [hk] at h; simp at h
      · rw [hk] at h
        simp at h
        subst h
        exact ⟨c :: cs, hk⟩
    · rw [if_neg hn] at h
      rcases hin : re_dots k cs with _ | gr
      · rw [hin] at h
        simp only at h
        rcases hk : k (c :: cs) with _ | x
        · rw [hk] at h; simp at h
        · rw [hk] at h
          simp at h
          subst h
          exact ⟨c :: cs, hk⟩
      · rw [hin] at h
        simp only [Option.some.injEq] at h
        subst h
        exact ih gr hin

theorem re_spaces_result {α : Type} (k : List Char → Option α) (l : List Char) (r : α)
    (h : re_spaces k l = some r) : ∃ l2, k l2 = some r := by
  induction l with
  | nil => simp [re_spaces] at h
  | cons c cs ih =>
    unfold re_spaces at h
    by_cases hc : is_space c = true
    · rw [if_pos hc] at h
      rcases hin : re_spaces k cs with _ | x
      · rw [hin] at h
        exact ⟨cs, h⟩
      · rw [hin] at h
        simp only [Option.some.injEq] at h
        subst h
        exact ih hin
    · rw [if_neg hc] at h
      exact absurd h (by simp)

theorem re_class_result {α : Type} (chars : String) (k : List Char → Option α)
    (l : List Char) (r : α) (h : re_class chars k l = some r) : ∃ l2, k l2 = some r := by
  rcases l with _ | ⟨c, cs⟩
  · simp [re_class] at h
  · simp only [re_class] at h
    by_cases hc : in_class chars c = true
    · rw [if_pos hc] at h
      exact ⟨cs, h⟩
    · rw [if_neg hc] at h
      exact absurd h (by simp)

theorem split_pattern_halves_line (chars : String) (l a b : List Char)
    (h : split_pattern chars l = some (a, b)) :
    (∀ c ∈ a, is_newline c = false) ∧ (∀ c ∈ b, is_newline c = false) := by
  unfold split_pattern at h
  rcases hm : re_dots (re_spaces (re_class chars (re_spaces (re_dots re_end)))) l with _ | m
  · rw [hm] at h; simp at h
  · rw [hm] at h
    simp only [Option.map_some', Option.some.injEq, Prod.mk.injEq] at h
    have ha := re_dots_group_line _ l m hm
    obtain ⟨l1, h1⟩ := re_dots_result _ l m hm
    obtain ⟨l2, h2⟩ := re_spaces_result _ l1 m.2 h1
    obtain ⟨l3, h3⟩ := re_class_result chars _ l2 m.2 h2
    obtain ⟨l4, h4⟩ := re_spaces_result _ l3 m.2 h3
    have hb := re_dots_group_line _ l4 m.2 h4
    rw [h.1] at ha
    rw [h.2] at hb
    exact ⟨ha, hb⟩


theorem re_spaces_starts_split {α : Type} (chars : String) (k : List Char → Option α)
    (l : List Char) (r : α) (h : re_spaces (re_class chars (re_spaces k)) l = some r) :
    starts_split chars l = true := by
  induction l generalizing r with
  | nil => simp [re_spaces] at h
  | cons c cs ih =>
    unfold re_spaces at h
    by_cases hc : is_space c = true
    · rw [if_pos hc] at h
      unfold starts_split
      rcases hin : re_spaces (re_class chars (re_spaces k)) cs with _ | r2
      · rw [hin] at h
        simp only at h
        rcases cs with _ | ⟨b, cs2⟩
        · simp [re_class] at h
        · simp only [re_class] at h
          by_cases hb : in_class chars b = true
          · rw [if_pos hb] at h
            rcases cs2 with _ | ⟨d, cs3⟩
            · simp [re_spaces] at h
            · unfold re_spaces at h
              by_cases hd : is_space d = true
              · simp [hc, hb, hd]
              · rw [if_neg hd] at h
                exact absurd h (by simp)
          · rw [if_neg hb] at h
            exact absurd h (by simp)
      · simp [hc, ih r2 hin]
    · rw [if_neg hc] at h
      exact absurd h (by simp)

theorem re_spaces_end_rest (l : List Char) (r : List Char × List Char)
    (hl : ∀ c ∈ l, is_newline c = false) (h : re_spaces (re_dots re_end) l = some r) :
    r.2 = [] := by
  induction l with
  | nil => simp [re_spaces] at h
  | cons c cs ih =>
    have hcs : ∀ d ∈ cs, is_newline d = false := fun d hd => hl d (List.mem_cons_of_mem c hd)
    unfold re_spaces at h
    by_cases hc : is_space c = true
    · rw [if_pos hc] at h
      rcases hin : re_spaces (re_dots re_end) cs with _ | x
      · rw [hin] at h
        simp only at h
        rw [re_dots_end_line cs hcs] at h
        simp only [Option.some.injEq] at h
        rw [← h]
      · rw [hin] at h
        simp only [Option.some.injEq] at h
        subst h
        exact ih hcs hin
    · rw [if_neg hc] at h
      exact absurd h (by simp)

theorem re_spaces_end_some (s : Char) (l : List Char) (hs : is_space s = true)
    (hl : ∀ c ∈ l, is_newline c = false) :
    ∃ r, re_spaces (re_dots re_end) (s :: l) = some r := by
  unfold re_spaces
  rw [if_pos hs]
  rcases hin : re_spaces (re_dots re_end) l with _ | x
  · exact ⟨(l, []), by simp [re_dots_end_line l hl]⟩
  · exact ⟨x, rfl⟩

theorem trailing_match_rest (chars : String) (l : List Char) (r : List Char × List Char)
    (hl : ∀ c ∈ l, is_newline c = false)
    (h : re_spaces (re_class chars (re_spaces (re_dots re_end))) l = some r) : r.2 = [] := by
  induction l with
  | nil => simp [re_spaces] at h
  | cons c cs ih =>
    have hcs : ∀ d ∈ cs, is_newline d = false := fun d hd => hl d (List.mem_cons_of_mem c hd)
    unfold re_spaces at h
    by_cases hc : is_space c = true
    · rw [if_pos hc] at h
      rcases hin : re_spaces (re_class chars (re_spaces (re_dots re_end))) cs with _ | x
      · rw [hin] at h
        simp only at h
        rcases cs with _ | ⟨b, cs2⟩
        · simp [re_class] at h
        · simp only [re_class] at h
          by_cases hb : in_class chars b = true
          · rw [if_pos hb] at h
            exact re_spaces_end_rest cs2 r
              (fun d hd => hcs d (List.mem_cons_of_mem b hd)) h
          · rw [if_neg hb] at h
            exact absurd h (by simp)
      · rw [hin] at h
        simp only [Option.some.injEq] at h
        subst h
        exact ih hcs hin
    · rw [if_neg hc] at h
      exact absurd h (by simp)

theorem starts_split_match (chars : String) (l : List Char)
    (hl : ∀ c ∈ l, is_newline c = false) (h : starts_split chars l = true) :
    ∃ r, re_spaces (re_class chars (re_spaces (re_dots re_end))) l = some r := by
  induction l with
  | nil => simp [starts_split] at h
  | cons a rest ih =>
    have hrest : ∀ d ∈ rest, is_newline d = false :=
      fun d hd => hl d (List.mem_cons_of_mem a hd)
    unfold starts_split at h
    simp only [Bool.and_eq_true, Bool.or_eq_true] at h
    obtain ⟨ha, hor⟩ := h
    unfold re_spaces
    rw [if_pos ha]
    rcases hin : re_spaces (re_class chars (re_spaces (re_dots re_end))) rest with _ | x
    · simp only
      rcases hor with hs | ht
      · obtain ⟨r, hr⟩ := ih hrest hs
        rw [hin] at hr
        exact absurd hr (by simp)
      · rcases rest with _ | ⟨b, rest2⟩
        · simp at ht
        · rcases rest2 with _ | ⟨c, rest3⟩
          · simp at ht
          · simp only [Bool.and_eq_true] at ht
            simp only [re_class, ht.1, if_true]
            exact re_spaces_end_some c rest3 ht.2
              (fun d hd => hrest d (List.mem_cons_of_mem b (List.mem_cons_of_mem c hd)))
    · exact ⟨x, rfl⟩

theorem starts_split_inside (chars : String) (X Y : List Char) (hne : X ≠ [])
    (hlast : ∀ c, X.getLast? = some c → is_space c = false)
    (h : starts_split chars (X ++ Y) = true) :
    has_split_point chars (X ++ Y.take 1) = true := by
  induction X with
  | nil => exact absurd rfl hne
  | cons x X2 ih =>
    rcases X2 with _ | ⟨x2, X3⟩
    · have hx : is_space x = false := hlast x rfl
      simp [starts_split, hx] at h
    · have hlast2 : ∀ c, (x2 :: X3).getLast? = some c → is_space c = false := by
        intro c hc
        exact hlast c (by simpa [List.getLast?_cons_cons] using hc)
      simp only [List.cons_append] at h ⊢
      unfold starts_split at h
      simp only [Bool.and_eq_true, Bool.or_eq_true] at h
      obtain ⟨hx, hor⟩ := h
      unfold has_split_point
      rcases hor with hs | ht
      · have := ih (by simp) hlast2 hs
        simp only [List.cons_append] at this
        simp [this]
      · rcases X3 with _ | ⟨x3, X4⟩
        · rcases Y with _ | ⟨y, Y2⟩
          · simp at ht
          · simp only [List.nil_append, Bool.and_eq_true] at ht
            simp [hx, ht.1, ht.2]
        · simp only [List.cons_append, Bool.and_eq_true] at ht
          simp [hx, ht.1, ht.2]

theorem has_split_point_tail (chars : String) (c : Char) (l : List Char)
    (h : has_split_point chars (c :: l) = false) : has_split_point chars l = false := by
  unfold has_split_point at h
  simp only [Bool.or_eq_false_iff] at h
  exact h.2

theorem remove_trailing_at_first (chars : String) (B R : List Char)
    (hl : ∀ c ∈ B ++ R, is_newline c = false)
    (hR : starts_split chars R = true)
    (hlast : ∀ c, B.getLast? = some c → is_space c = false)
    (hfirst : has_split_point chars (B ++ R.take 1) = false) :
    remove_trailing chars (B ++ R) = B := by
  induction B with
  | nil =>
    simp only [List.nil_append] at hl ⊢
    obtain ⟨r, hr⟩ := starts_split_match chars R hl hR
    have hrest := trailing_match_rest chars R r hl hr
    rcases R with _ | ⟨c, cs⟩
    · simp [starts_split] at hR
    · unfold remove_trailing
      rw [hr]
      exact hrest
  | cons b B2 ih =>
    have hl2 : ∀ c ∈ B2 ++ R, is_newline c = false :=
      fun c hc => hl c (by simp only [List.cons_append]; exact List.mem_cons_of_mem b hc)
    have hlast2 : ∀ c, B2.getLast? = some c → is_space c = false := by
      intro c hc
      rcases B2 with _ | ⟨y, ys⟩
      · simp at hc
      · exact hlast c (by simpa [List.getLast?_cons_cons] using hc)
    have hfirst2 : has_split_point chars (B2 ++ R.take 1) = false :=
      has_split_point_tail chars b _ (by simpa using hfirst)
    have hnone : re_spaces (re_class chars (re_spaces (re_dots re_end))) (b :: (B2 ++ R))
        = none := by
      rcases hr : re_spaces (re_class chars (re_spaces (re_dots re_end))) (b :: (B2 ++ R))
        with _ | x
      · rfl
      · have hs := re_spaces_starts_split chars _ _ x hr
        have := starts_split_inside chars (b :: B2) R (by simp) hlast (by simpa using hs)
        rw [hfirst] at this
        exact absurd this (by simp)
    simp only [List.cons_append]
    unfold remove_trailing
    rw [hnone]
    simp only
    rw [ih hl2 hlast2 hfirst2]

theorem starts_split_of_run (chars : String) (ws rest : List Char) (t s2 : Char)
    (hne : ws ≠ []) (hws : ∀ c ∈ ws, is_space c = true) (ht : in_class chars t = true)
    (hs2 : is_space s2 = true) : starts_split chars (ws ++ t :: s2 :: rest) = true := by
  induction ws with
  | nil => exact absurd rfl hne
  | cons x xs ih =>
    have hx : is_space x = true := hws x (List.mem_cons_self x xs)
    have hxs : ∀ c ∈ xs, is_space c = true := fun c hc => hws c (List.mem_cons_of_mem x hc)
    simp only [List.cons_append]
    unfold starts_split
    rcases xs with _ | ⟨y, ys⟩
    · simp [hx, ht, hs2]
    · have h2 := ih (by simp) hxs
      simp only [List.cons_append] at h2
      simp [hx, h2]


theorem take_one_append (ws X : List Char) (hne : ws ≠ []) :
    (ws ++ X).take 1 = ws.take 1 := by
  rcases ws with _ | ⟨c, cs⟩
  · exact absurd rfl hne
  · rfl

theorem identity_after_split (H : Host) (track : Track) (w : World)
    (hsplit : H.cfg.split_title_on_chars = true) (a b : List Char)
    (hm : title_split H H.cfg.split_on_chars (track.title.getD "") = some (a, b)) :
    (playback_began_identity H track w).g_state.artist
      = some (String.mk (if H.cfg.truncate_fields_on_chars = true
          then artist_remove H H.cfg.truncate_on_chars a else a)) ∧
    (playback_began_identity H track w).g_state.title
      = some (String.mk (if H.cfg.truncate_fields_on_chars = true
          then title_remove H H.cfg.truncate_on_chars b else b)) := by
  unfold playback_began_identity
  cases hon : H.cfg.truncate_fields_on_chars <;> simp [hsplit, hm]

/-- C18, as amended. With split-title-on-chars enabled, a "split character"
and a "truncate character" being a character that the class `[chars]` of the
pattern matches (the configured characters themselves when none of them forms
a range or negates the class): (1) when truncate-fields-on-chars is enabled,
the split and truncate characters form classes that `class_of` reads, and the
split pattern matches with the halves `a` and `b`, the working artist is `a`
with the match of `^.*\s+[T]\s+` removed and the working title is `b` with
the match of `\s+[T]\s+.*$` removed. If `t` is the last truncate character of
`a` with white space on both sides, the artist is what follows the white
space after `t`; if `t` is the first truncate character of `b` with white
space on both sides, the title is what precedes the white space before `t`; a
half without a truncate character with white space on both sides is
unchanged. (2) When truncate-fields-on-chars is disabled the halves are taken
as they are. (3) When the split pattern does not match, artist and title are
those the host supplied. Parts (2) and (3) hold for every configured text. -/
theorem secondary_truncation (H : Host) (track : Track) (w : World)
    (hsplit : H.cfg.split_title_on_chars = true) :
    (H.cfg.truncate_fields_on_chars = true →
      (class_of H.cfg.split_on_chars).isSome = true →
      (class_of H.cfg.truncate_on_chars).isSome = true →
      ∀ a b : List Char,
        split_pattern H.cfg.split_on_chars (track.title.getD "").data = some (a, b) →
        (playback_began_identity H track w).g_state.artist
          = some (String.mk (remove_leading H.cfg.truncate_on_chars a)) ∧
        (playback_began_identity H track w).g_state.title
          = some (String.mk (remove_trailing H.cfg.truncate_on_chars b)) ∧
        (∀ (P ws R : List Char) (s1 t : Char), a = P ++ s1 :: t :: (ws ++ R) →
          is_space s1 = true → in_class H.cfg.truncate_on_chars t = true →
          ws ≠ [] → (∀ c ∈ ws, is_space c = true) →
          (∀ c, R.head? = some c → is_space c = false) →
          has_split_point H.cfg.truncate_on_chars (t :: (ws ++ R)) = false →
          (playback_began_identity H track w).g_state.artist = some (String.mk R)) ∧
        (∀ (B ws rest : List Char) (t s2 : Char), b = B ++ (ws ++ t :: s2 :: rest) →
          ws ≠ [] → (∀ c ∈ ws, is_space c = true) →
          in_class H.cfg.truncate_on_chars t = true → is_space s2 = true →
          (∀ c, B.getLast? = some c → is_space c = false) →
          has_split_point H.cfg.truncate_on_chars (B ++ ws.take 1) = false →
          (playback_began_identity H track w).g_state.title = some (String.mk B)) ∧
        (has_split_point H.cfg.truncate_on_chars a = false →
          (playback_began_identity H track w).g_state.artist = some (String.mk a)) ∧
        (has_split_point H.cfg.truncate_on_chars b = false →
          (playback_began_identity H track w).g_state.title = some (String.mk b))) ∧
    (H.cfg.truncate_fields_on_chars = false →
      ∀ a b : List Char,
        title_split H H.cfg.split_on_chars (track.title.getD "") = some (a, b) →
        (playback_began_identity H track w).g_state.artist = some (String.mk a) ∧
        (playback_began_identity H track w).g_state.title = some (String.mk b)) ∧
    (title_split H H.cfg.split_on_chars (track.title.getD "") = none →
      (playback_began_identity H track w).g_state.artist = track.artist ∧
      (playback_began_identity H track w).g_state.title = track.title) := by
  refine ⟨?_, ?_, ?_⟩
  · intro htr hS hT a b hm
    have hline := split_pattern_halves_line _ _ a b hm
    have hid := identity_after_split H track w hsplit a b
      (by rw [title_split_of_class _ _ _ hS]; exact hm)
    rw [if_pos htr, if_pos htr, artist_remove_of_class _ _ _ hT,
      title_remove_of_class _ _ _ hT] at hid
    have hart := hid.1
    have htit := hid.2
    refine ⟨hart, htit, ?_, ?_, ?_, ?_⟩
    · intro P ws R s1 t ha hs1 ht hne hws hR hlast
      rw [hart, ha, remove_leading_at_last _ P ws R s1 t
        (fun c hc => hline.1 c (by rw [ha]; simp [hc])) hs1 ht hne hws hR hlast]
    · intro B ws rest t s2 hb hne hws ht hs2 hBlast hfirst
      rw [htit, hb, remove_trailing_at_first _ B (ws ++ t :: s2 :: rest)
        (fun c hc => hline.2 c (by rw [hb]; exact hc))
        (starts_split_of_run _ ws rest t s2 hne hws ht hs2) hBlast
        (by rw [take_one_append ws _ hne]; exact hfirst)]
    · intro hno
      rw [hart, remove_leading_no_split_point _ a hno]
    · intro hno
      rw [htit, remove_trailing_no_split_point _ b hno]
  · intro htr a b hm
    have hid := identity_after_split H track w hsplit a b hm
    simpa [htr] using hid
  · intro hno
    unfold playback_began_identity
    simp [hsplit, hno]

/-- The title "X | Art - Song | live" with the default characters, truncation
enabled: the halves "X | Art" and "Song | live" become "Art" and "Song"; with
truncation disabled they are kept; "Song" alone is not split. -/
theorem secondary_truncation_witness :
    (plain_host split_truncate_config).cfg.split_title_on_chars = true ∧
    (class_of (plain_host split_truncate_config).cfg.split_on_chars).isSome = true ∧
    (class_of (plain_host split_truncate_config).cfg.truncate_on_chars).isSome = true ∧
    split_pattern (plain_host split_truncate_config).cfg.split_on_chars
      ((Track.mk "file:///m/a.mp3" (some "X | Art - Song | live") (some "Various")
        none).title.getD "").data = some ("X | Art".data, "Song | live".data) ∧
    (playback_began_identity (plain_host split_truncate_config)
      (Track.mk "file:///m/a.mp3" (some "X | Art - Song | live") (some "Various") none)
      World.init).g_state.artist = some (String.mk "Art".data) ∧
    (playback_began_identity (plain_host split_truncate_config)
      (Track.mk "file:///m/a.mp3" (some "X | Art - Song | live") (some "Various") none)
      World.init).g_state.title = some (String.mk "Song".data) ∧
    (playback_began_identity (plain_host split_config)
      (Track.mk "file:///m/a.mp3" (some "X | Art - Song | live") (some "Various") none)
      World.init).g_state.artist = some (String.mk "X | Art".data) ∧
    (playback_began_identity (plain_host split_truncate_config)
      (Track.mk "file:///m/a.mp3" (some "Song") (some "Various") none)
      World.init).g_state.artist = some "Various" :=
  ⟨rfl, by decide, by decide, by decide,
   ((secondary_truncation (plain_host split_truncate_config)
      (Track.mk "file:///m/a.mp3" (some "X | Art - Song | live") (some "Various") none)
      World.init rfl).1 rfl (by decide) (by decide) "X | Art".data "Song | live".data
      (by decide)).2.2.1
      "X".data " ".data "Art".data ' ' '|' (by decide) (by decide) (by decide) (by decide)
      (by decide) (by decide) (by decide),
   ((secondary_truncation (plain_host split_truncate_config)
      (Track.mk "file:///m/a.mp3" (some "X | Art - Song | live") (some "Various") none)
      World.init rfl).1 rfl (by decide) (by decide) "X | Art".data "Song | live".data
      (by decide)).2.2.2.1
      "Song".data " ".data "live".data '|' ' ' (by decide) (by decide) (by decide) (by decide)
      (by decide) (by decide) (by decide),
   ((secondary_truncation (plain_host split_config)
      (Track.mk "file:///m/a.mp3" (some "X | Art - Song | live") (some "Various") none)
      World.init rfl).2.1 rfl "X | Art".data "Song | live".data (by decide)).1,
   ((secondary_truncation (plain_host split_truncate_config)
      (Track.mk "file:///m/a.mp3" (some "Song") (some "Various") none)
      World.init rfl).2.2 (by decide)).1⟩

/-- C18 (counterexample). With truncate-on-chars "a-z" the class of the
patterns is the range from "a" to "z". The title "X b Y - Song" is split at
the "-" into "X b Y" and "Song"; no character of "X b Y" is one of the three
configured characters "a", "-", "z", yet the half is not left unchanged: the
working artist is "Y", what follows the "b" with white space on both sides. -/
theorem secondary_truncation_counterexample :
    (plain_host range_config).cfg.split_title_on_chars = true ∧
    (plain_host range_config).cfg.truncate_fields_on_chars = true ∧
    (plain_host range_config).cfg.truncate_on_chars = "a-z" ∧
    title_split (plain_host range_config) (plain_host range_config).cfg.split_on_chars
      "X b Y - Song" = some ("X b Y".data, "Song".data) ∧
    (∀ c ∈ "X b Y".data, c ∉ "a-z".data) ∧
    (playback_began_identity (plain_host range_config)
      (Track.mk "file:///m/a.mp3" (some "X b Y - Song") (some "Various") none)
      World.init).g_state.artist = some "Y" ∧
    (playback_began_identity (plain_host range_config)
      (Track.mk "file:///m/a.mp3" (some "X b Y - Song") (some "Various") none)
      World.init).g_state.artist ≠ some "X b Y" := by
  decide

/-- C19, as amended. With split-title-on-chars enabled and split characters
that form a class `class_of` reads, a "split character" and a "truncate
character" being a character that the class `[chars]` of the pattern matches,
let the title be `P ++ s1 :: d :: ws ++ R`, where `d` is a split character,
`s1` the white-space character right before it, `ws` the whole run of white
space after it (`R` does not begin with white space), no split character with
white space on both sides comes after `d`, and `P` and `R` contain no line
break. If truncate-fields-on-chars is disabled, or the truncate characters
form a class `class_of` reads and `P` and `R` contain no truncate character
with white space on both sides, the working artist is `P`, all that precedes
the last white-space character before the last delimiter, and the working
title is `R`. Whenever the pattern matches, for every configured text, the
working artist is computed from the title alone, whatever artist the host
supplied. -/
theorem split_at_last_delimiter (H : Host) (track : Track) (w : World)
    (hsplit : H.cfg.split_title_on_chars = true) :
    ((class_of H.cfg.split_on_chars).isSome = true →
      ∀ (P ws R : List Char) (s1 d : Char),
      track.title = some (String.mk (P ++ s1 :: d :: (ws ++ R))) →
      is_space s1 = true → in_class H.cfg.split_on_chars d = true →
      ws ≠ [] → (∀ c ∈ ws, is_space c = true) →
      (∀ c, R.head? = some c → is_space c = false) →
      (∀ c ∈ P, is_newline c = false) → (∀ c ∈ R, is_newline c = false) →
      has_split_point H.cfg.split_on_chars (d :: (ws ++ R)) = false →
      (H.cfg.truncate_fields_on_chars = false ∨
        ((class_of H.cfg.truncate_on_chars).isSome = true ∧
          has_split_point H.cfg.truncate_on_chars P = false ∧
          has_split_point H.cfg.truncate_on_chars R = false)) →
      (playback_began_identity H track w).g_state.artist = some (String.mk P) ∧
      (playback_began_identity H track w).g_state.title = some (String.mk R)) ∧
    (∀ a b : List Char,
      title_split H H.cfg.split_on_chars (track.title.getD "") = some (a, b) →
      (playback_began_identity H track w).g_state.artist
        = some (String.mk (if H.cfg.truncate_fields_on_chars = true
            then artist_remove H H.cfg.truncate_on_chars a else a))) := by
  refine ⟨?_, ?_⟩
  · intro hS P ws R s1 d htitle hs1 hd hne hws hR hP hRl hlast htrunc
    have hm := split_pattern_at_last H.cfg.split_on_chars P ws R s1 d hP hRl hs1 hd hne hws hR
      hlast
    have hm2 : title_split H H.cfg.split_on_chars (track.title.getD "") = some (P, R) := by
      rw [title_split_of_class _ _ _ hS, htitle]; exact hm
    have hid := identity_after_split H track w hsplit P R hm2
    rcases htrunc with hoff | ⟨hT, hnP, hnR⟩
    · simpa [hoff] using hid
    · cases hon : H.cfg.truncate_fields_on_chars
      · simpa [hon] using hid
      · simpa [hon, artist_remove_of_class _ _ _ hT, title_remove_of_class _ _ _ hT,
          remove_leading_no_split_point _ P hnP,
          remove_trailing_no_split_point _ R hnR] using hid
  · intro a b hm
    exact (identity_after_split H track w hsplit a b hm).1

/-- The example "A - B - C" with delimiter "-": the split is made at the last
" - ". -/
theorem split_at_last_delimiter_witness :
    (plain_host split_config).cfg.split_title_on_chars = true ∧
    (class_of (plain_host split_config).cfg.split_on_chars).isSome = true ∧
    (Track.mk "file:///m/a.mp3" (some "A - B - C") (some "Various") none).title
      = some (String.mk ("A - B".data ++ ' ' :: '-' :: (" ".data ++ "C".data))) ∧
    ((playback_began_identity (plain_host split_config)
      (Track.mk "file:///m/a.mp3" (some "A - B - C") (some "Various") none)
      World.init).g_state.artist = some (String.mk "A - B".data) ∧
    (playback_began_identity (plain_host split_config)
      (Track.mk "file:///m/a.mp3" (some "A - B - C") (some "Various") none)
      World.init).g_state.title = some (String.mk "C".data)) :=
  ⟨rfl, by decide, by decide,
   (split_at_last_delimiter (plain_host split_config)
      (Track.mk "file:///m/a.mp3" (some "A - B - C") (some "Various") none)
      World.init rfl).1 (by decide) "A - B".data " ".data "C".data ' ' '-' (by decide) (by decide)
      (by decide) (by decide) (by decide) (by decide) (by decide) (by decide) (by decide)
      (Or.inl rfl)⟩

/-- C19 (counterexamples). With delimiter "-", the single-line title
"A - B  - C" holds two delimiters with white space on both sides; the white
space before the last one is two blanks, and the working artist is "A - B "
with one of them, not "A - B". With truncate-fields-on-chars enabled
(truncate-on-chars "|") the title "A | X - B - C" gives the working artist
"X - B", not "A | X - B". With the three split characters "/", "-", ":" in
this order the class of the pattern is the range from "/" to ":", which does
not hold "-": the title "A - B - C", with two of the configured characters
between white space, is not split at all, and the artist of the host is
kept. -/
theorem split_at_last_delimiter_counterexample :
    (playback_began_identity (plain_host split_config)
      (Track.mk "file:///m/a.mp3" (some "A - B  - C") (some "Various") none)
      World.init).g_state.artist = some "A - B " ∧
    (playback_began_identity (plain_host split_config)
      (Track.mk "file:///m/a.mp3" (some "A - B  - C") (some "Various") none)
      World.init).g_state.artist ≠ some "A - B" ∧
    (playback_began_identity (plain_host split_config)
      (Track.mk "file:///m/a.mp3" (some "A - B  - C") (some "Various") none)
      World.init).g_state.title = some "C" ∧
    (playback_began_identity (plain_host split_truncate_config)
      (Track.mk "file:///m/a.mp3" (some "A | X - B - C") (some "Various") none)
      World.init).g_state.artist = some "X - B" ∧
    (playback_began_identity (plain_host split_truncate_config)
      (Track.mk "file:///m/a.mp3" (some "A | X - B - C") (some "Various") none)
      World.init).g_state.artist ≠ some "A | X - B" ∧
    '-' ∈ "/-:".data ∧
    (playback_began_identity (plain_host { split_config with split_on_chars := "/-:" })
      (Track.mk "file:///m/a.mp3" (some "A - B - C") (some "Various") none)
      World.init).g_state.artist = some "Various" ∧
    (playback_began_identity (plain_host { split_config with split_on_chars := "/-:" })
      (Track.mk "file:///m/a.mp3" (some "A - B - C") (some "Various") none)
      World.init).g_state.title = some "A - B - C" := by
  decide

end LyricWiki

namespace Mpris2

theorem store_within (e : Elems) (entry : DictEntry) (n : Nat) (h : e.nelems = n)
    (hn : n < 7) :
    e.store entry = Elems.mk (e.stored ++ [entry]) (n + 1) e.overrun := by
  unfold Elems.store
  rw [h, if_pos hn]

theorem int64_wrap_of_int32 (length : Int) (hlo : -(2 ^ 31) ≤ length) (hhi : length < 2 ^ 31) :
    int64_wrap (length * 1000) = length * 1000 := by
  unfold int64_wrap
  have h1 : (0 : Int) ≤ length * 1000 + 2 ^ 63 := by omega
  have h2 : length * 1000 + 2 ^ 63 < 2 ^ 64 := by omega
  rw [Int.emod_eq_of_lt h1 h2]
  omega


theorem fill_elems_bound (title artist album file image_file : Option String) (length : Int) :
    (fill_elems title artist album file length image_file).overrun = false ∧
    (fill_elems title artist album file length image_file).nelems ≤ 7 ∧
    (fill_elems title artist album file length image_file).stored.length
      = (fill_elems title artist album file length image_file).nelems ∧
    DictEntry.mk "mpris:trackid" (GVariant.string "/org/mpris/MediaPlayer2/CurrentTrack")
      ∈ (fill_elems title artist album file length image_file).stored ∧
    (0 < length →
      DictEntry.mk "mpris:length" (GVariant.int64 (int64_wrap (length * 1000)))
        ∈ (fill_elems title artist album file length image_file).stored) ∧
    (¬ 0 < length → ∀ v,
      DictEntry.mk "mpris:length" v
        ∉ (fill_elems title artist album file length image_file).stored) := by
  rcases title with _ | t <;> rcases artist with _ | a <;> rcases album with _ | al <;>
    rcases file with _ | f <;> rcases image_file with _ | im <;>
    by_cases hl : 0 < length <;>
    simp [fill_elems, Elems.store, Elems.empty, hl]


/-- C20. Let the playing entry be described by `title`, `artist`, `album`,
`file` (each present or absent) and a 32-bit `length`. For every cover image,
present or absent, the stores `elems[nelems ++]` of `update_metadata` never go
past the seventh element: at most 7 entries are stored and `nelems` is their
number. The entry "mpris:trackid" is always among them. The entry
"mpris:length" is among them exactly when `length` is positive, and its value
is `length * 1000`: the 64-bit product does not overflow. When
`update_metadata` does not return early, the property `metadata` is set to
exactly these stored entries. -/
theorem update_metadata_array_bound (p : Player) (s : State)
    (title artist album file : Option String) (length : Int)
    (hentry : current_entry p = EntryInfo.mk title artist album file length)
    (hlo : -(2 ^ 31) ≤ length) (hhi : length < 2 ^ 31) :
    (∀ image_file : Option String,
      (fill_elems title artist album file length image_file).overrun = false ∧
      (fill_elems title artist album file length image_file).nelems ≤ 7 ∧
      (fill_elems title artist album file length image_file).stored.length
        = (fill_elems title artist album file length image_file).nelems ∧
      DictEntry.mk "mpris:trackid" (GVariant.string "/org/mpris/MediaPlayer2/CurrentTrack")
        ∈ (fill_elems title artist album file length image_file).stored ∧
      (0 < length →
        DictEntry.mk "mpris:length" (GVariant.int64 (length * 1000))
          ∈ (fill_elems title artist album file length image_file).stored) ∧
      (¬ 0 < length → ∀ v,
        DictEntry.mk "mpris:length" v
          ∉ (fill_elems title artist album file length image_file).stored)) ∧
    int64_wrap (length * 1000) = length * 1000 ∧
    (update_metadata p s = s ∨
      (update_metadata p s).metadata
        = some (fill_elems title artist album file length
            (update_metadata p s).image_file).stored) := by
  have hw := int64_wrap_of_int32 length hlo hhi
  refine ⟨?_, hw, ?_⟩
  · intro image_file
    have h := fill_elems_bound title artist album file image_file length
    rw [hw] at h
    exact h
  · unfold update_metadata
    simp only [hentry]
    split
    · exact Or.inl rfl
    · right
      split <;> rfl

/-- An entry with every field set, a length of 215000 ms and a cover file:
seven entries are stored, the last one "mpris:trackid", and "mpris:length" is
215000000. -/
theorem update_metadata_array_bound_witness :
    current_entry demo_player
      = EntryInfo.mk (some "T") (some "A") (some "L") (some "file:///m/a.mp3") 215000 ∧
    ((∀ image_file : Option String,
      (fill_elems (some "T") (some "A") (some "L") (some "file:///m/a.mp3") 215000
        image_file).overrun = false ∧
      (fill_elems (some "T") (some "A") (some "L") (some "file:///m/a.mp3") 215000
        image_file).nelems ≤ 7 ∧
      (fill_elems (some "T") (some "A") (some "L") (some "file:///m/a.mp3") 215000
        image_file).stored.length
        = (fill_elems (some "T") (some "A") (some "L") (some "file:///m/a.mp3") 215000
            image_file).nelems ∧
      DictEntry.mk "mpris:trackid" (GVariant.string "/org/mpris/MediaPlayer2/CurrentTrack")
        ∈ (fill_elems (some "T") (some "A") (some "L") (some "file:///m/a.mp3") 215000
            image_file).stored ∧
      ((0 : Int) < 215000 →
        DictEntry.mk "mpris:length" (GVariant.int64 (215000 * 1000))
          ∈ (fill_elems (some "T") (some "A") (some "L") (some "file:///m/a.mp3") 215000
              image_file).stored) ∧
      (¬ (0 : Int) < 215000 → ∀ v,
        DictEntry.mk "mpris:length" v
          ∉ (fill_elems (some "T") (some "A") (some "L") (some "file:///m/a.mp3") 215000
              image_file).stored)) ∧
    int64_wrap (215000 * 1000) = 215000 * 1000 ∧
    (update_metadata demo_player State.init = State.init ∨
      (update_metadata demo_player State.init).metadata
        = some (fill_elems (some "T") (some "A") (some "L") (some "file:///m/a.mp3") 215000
            (update_metadata demo_player State.init).image_file).stored)) ∧
    (update_metadata demo_player State.init).metadata
      = some [DictEntry.mk "xesam:title" (GVariant.string "T"),
          DictEntry.mk "xesam:artist" (GVariant.string_array ["A"]),
          DictEntry.mk "xesam:album" (GVariant.string "L"),
          DictEntry.mk "xesam:url" (GVariant.string "file:///m/a.mp3"),
          DictEntry.mk "mpris:length" (GVariant.int64 215000000),
          DictEntry.mk "mpris:artUrl" (GVariant.string "file:///m/cover.jpg"),
          DictEntry.mk "mpris:trackid"
            (GVariant.string "/org/mpris/MediaPlayer2/CurrentTrack")] :=
  ⟨by decide,
   update_metadata_array_bound demo_player State.init (some "T") (some "A") (some "L")
    (some "file:///m/a.mp3") 215000 (by decide) (by decide) (by decide),
   by decide⟩

end Mpris2

